import Mathlib

/-!
# Desktop lyric window (windows/runner/desktop_lyric_window.cpp)

A shallow embedding of the state-carrying logic of `DesktopLyricWindow`.

Conventions of the embedding

* The object's data members keep their source names (`lyric_text_`, ...).  Handles are
  modelled by the one bit the code ever inspects: `hwnd_` and `font_` are `true` when the
  handle is not `nullptr`, `playback_callback_` is `true` when a callback is registered.
* The part of the window system the code talks to is kept as explicit host fields of the
  same record (`window_visible`, `win_left`, ..., `timer1`, `timer2`, `dispatched`, `paints`).
* `float` expressions are read over the rationals: every arithmetic operator of the source
  is the same operator on `ℚ`, and `static_cast<int>` is truncation toward zero.
* `DWORD` values are naturals; the one place where the code subtracts two of them uses the
  wrapping subtraction `dwordSub`.  `int` values are integers.
* Results of calls into the system that the code consumes are parameters: the values of
  `GetTickCount()` and the widths returned by `Graphics::MeasureString`.
-/

namespace DesktopLyric

/-! ## Data model -/

/-- Win32 `RECT`. -/
structure RECT where
  left : Int
  top : Int
  right : Int
  bottom : Int
  deriving DecidableEq

/-- Win32 `POINT`. -/
structure POINT where
  x : Int
  y : Int
  deriving DecidableEq

def kDefaultFontSize : Int := 32
def kDefaultTextColor : Nat := 0xFFFFFFFF
def kDefaultStrokeColor : Nat := 0xFF000000
def kDefaultStrokeWidth : Int := 2
def kWindowWidth : Int := 800
def kWindowHeight : Int := 100
def kControlPanelHeight : Int := 180
def kHoverDelay : Nat := 300

/-- Modelled from the spec: the constant `kScrollPauseMs` is declared in
`desktop_lyric_window.h`, which is not among the sources; the specification gives the
pre-scroll dwell as 500 ms. -/
def kScrollPauseMs : Nat := 500

/-- The members of `DesktopLyricWindow` followed by the host-side window state. -/
structure State where
  hwnd_ : Bool
  lyric_text_ : String
  song_title_ : String
  song_artist_ : String
  album_cover_url_ : String
  font_size_ : Int
  text_color_ : Nat
  stroke_color_ : Nat
  stroke_width_ : Int
  is_draggable_ : Bool
  is_dragging_ : Bool
  drag_point_ : POINT
  font_ : Bool
  is_hovered_ : Bool
  show_controls_ : Bool
  hover_start_time_ : Nat
  is_playing_ : Bool
  show_translation_ : Bool
  translation_text_ : String
  lyric_scroll_offset_ : ℚ
  trans_scroll_offset_ : ℚ
  lyric_needs_scroll_ : Bool
  trans_needs_scroll_ : Bool
  lyric_text_width_ : ℚ
  trans_text_width_ : ℚ
  last_scroll_time_ : Nat
  lyric_scroll_pause_start_ : Nat
  trans_scroll_pause_start_ : Nat
  lyric_duration_ms_ : Nat
  lyric_scroll_speed_ : ℚ
  trans_scroll_speed_ : ℚ
  playback_callback_ : Bool
  play_pause_button_rect_ : RECT
  prev_button_rect_ : RECT
  next_button_rect_ : RECT
  font_size_up_rect_ : RECT
  font_size_down_rect_ : RECT
  color_picker_rect_ : RECT
  translation_toggle_rect_ : RECT
  close_button_rect_ : RECT
  -- host side
  window_visible : Bool
  win_left : Int
  win_top : Int
  win_width : Int
  win_height : Int
  timer1 : Bool
  timer2 : Bool
  captured : Bool
  ex_transparent : Bool
  dispatched : List String
  paints : Nat
  deriving DecidableEq

/-- What one repaint reads from the system: the tick count sampled by `DrawLyric` and the
two widths reported by `MeasureString`. -/
structure PaintEnv where
  currentTime : Nat
  lyricWidth : ℚ
  transWidth : ℚ
  deriving DecidableEq

/-- Unsigned 32-bit subtraction `a - b` of two `DWORD`s. -/
def dwordSub (a b : Nat) : Nat :=
  (a % 4294967296 + 4294967296 - b % 4294967296) % 4294967296

/-- Conversion `static_cast<int>(q)`: truncation toward zero. -/
def castInt (q : ℚ) : Int :=
  Int.tdiv q.num q.den

/-- Macro `LOWORD`: the low 16 bits, unsigned. -/
def LOWORD (l : Int) : Int :=
  l % 65536

/-- Macro `HIWORD`: bits 16..31, unsigned. -/
def HIWORD (l : Int) : Int :=
  (l / 65536) % 65536

/-- Member initialisers of the constructor. -/
def construct : State :=
  { hwnd_ := false
    lyric_text_ := ""
    song_title_ := ""
    song_artist_ := ""
    album_cover_url_ := ""
    font_size_ := kDefaultFontSize
    text_color_ := kDefaultTextColor
    stroke_color_ := kDefaultStrokeColor
    stroke_width_ := kDefaultStrokeWidth
    is_draggable_ := true
    is_dragging_ := false
    drag_point_ := ⟨0, 0⟩
    font_ := false
    is_hovered_ := false
    show_controls_ := false
    hover_start_time_ := 0
    is_playing_ := false
    show_translation_ := true
    translation_text_ := ""
    lyric_scroll_offset_ := 0
    trans_scroll_offset_ := 0
    lyric_needs_scroll_ := false
    trans_needs_scroll_ := false
    lyric_text_width_ := 0
    trans_text_width_ := 0
    last_scroll_time_ := 0
    lyric_scroll_pause_start_ := 0
    trans_scroll_pause_start_ := 0
    lyric_duration_ms_ := 3000
    lyric_scroll_speed_ := 0
    trans_scroll_speed_ := 0
    playback_callback_ := false
    play_pause_button_rect_ := ⟨0, 0, 0, 0⟩
    prev_button_rect_ := ⟨0, 0, 0, 0⟩
    next_button_rect_ := ⟨0, 0, 0, 0⟩
    font_size_up_rect_ := ⟨0, 0, 0, 0⟩
    font_size_down_rect_ := ⟨0, 0, 0, 0⟩
    color_picker_rect_ := ⟨0, 0, 0, 0⟩
    translation_toggle_rect_ := ⟨0, 0, 0, 0⟩
    close_button_rect_ := ⟨0, 0, 0, 0⟩
    window_visible := false
    win_left := 0
    win_top := 0
    win_width := 0
    win_height := 0
    timer1 := false
    timer2 := false
    captured := false
    ex_transparent := false
    dispatched := []
    paints := 0 }

/-! ## Operations -/

/-- Method `IsVisible`. -/
def IsVisible (s : State) : Bool :=
  s.hwnd_ && s.window_visible

/-- Method `GetControlPanelHeight`, with `int` read as an unbounded integer;
`GetControlPanelHeight32` below is the same method in 32-bit arithmetic. -/
def GetControlPanelHeight (s : State) : Int :=
  let height := 70 + s.font_size_ + 10
  let height :=
    if s.show_translation_ = true ∧ s.translation_text_ ≠ "" then
      height + (castInt ((s.font_size_ : ℚ) * (7 / 10)) + 5)
    else height
  height + (15 + 36 + 10 + 28 + 15)

/-- Method `IsPointInRect`. -/
def IsPointInRect (pt : POINT) (rect : RECT) : Bool :=
  decide (pt.x ≥ rect.left) && decide (pt.x ≤ rect.right) &&
    decide (pt.y ≥ rect.top) && decide (pt.y ≤ rect.bottom)

/-- The statement `if (playback_callback_) playback_callback_(action)`. -/
def invokeCallback (s : State) (action : String) : State :=
  if s.playback_callback_ = true then { s with dispatched := s.dispatched ++ [action] } else s

/-- Method `HandleButtonClick`. -/
def HandleButtonClick (s : State) (pt : POINT) : State × Bool :=
  if IsPointInRect pt s.prev_button_rect_ = true then
    (invokeCallback s "previous", true)
  else if IsPointInRect pt s.play_pause_button_rect_ = true then
    (invokeCallback s "play_pause", true)
  else if IsPointInRect pt s.next_button_rect_ = true then
    (invokeCallback s "next", true)
  else if IsPointInRect pt s.font_size_up_rect_ = true then
    (invokeCallback s "font_size_up", true)
  else if IsPointInRect pt s.font_size_down_rect_ = true then
    (invokeCallback s "font_size_down", true)
  else if IsPointInRect pt s.color_picker_rect_ = true then
    (invokeCallback s "color_picker", true)
  else if IsPointInRect pt s.translation_toggle_rect_ = true then
    (invokeCallback s "toggle_translation", true)
  else if IsPointInRect pt s.close_button_rect_ = true then
    (invokeCallback s "close", true)
  else
    (s, false)

/-- Method `DrawControlPanel`, restricted to what it stores: the eight button rectangles.
Here `int` is read as an unbounded integer; `DrawControlPanel32` below is the same method in
32-bit arithmetic. -/
def DrawControlPanel (s : State) (width : Int) (_height : Int) : State :=
  let close_btn_size : Int := 24
  let close_x := width - close_btn_size - 10
  let close_y : Int := 10
  let s := { s with close_button_rect_ :=
    ⟨close_x, close_y, close_x + close_btn_size, close_y + close_btn_size⟩ }
  let lyric_y : Int := 70
  let lyric_y :=
    if s.lyric_text_ ≠ "" then
      let lyric_area_height := s.font_size_ + 10
      lyric_y + lyric_area_height
    else lyric_y
  let lyric_y :=
    if s.show_translation_ = true ∧ s.translation_text_ ≠ "" then
      let trans_height := castInt ((s.font_size_ : ℚ) * (7 / 10)) + 5
      lyric_y + trans_height
    else lyric_y
  let button_y := lyric_y + 15
  let button_size : Int := 36
  let small_btn_size : Int := 28
  let button_spacing : Int := 50
  let center_x := Int.tdiv width 2
  let prev_x := center_x - button_spacing - Int.tdiv button_size 2
  let s := { s with prev_button_rect_ :=
    ⟨prev_x, button_y, prev_x + button_size, button_y + button_size⟩ }
  let play_x := center_x - Int.tdiv button_size 2
  let s := { s with play_pause_button_rect_ :=
    ⟨play_x, button_y, play_x + button_size, button_y + button_size⟩ }
  let next_x := center_x + button_spacing - Int.tdiv button_size 2
  let s := { s with next_button_rect_ :=
    ⟨next_x, button_y, next_x + button_size, button_y + button_size⟩ }
  let row2_y := button_y + button_size + 10
  let row2_spacing : Int := 55
  let font_down_x :=
    center_x - castInt ((row2_spacing : ℚ) * (3 / 2)) - Int.tdiv small_btn_size 2
  let s := { s with font_size_down_rect_ :=
    ⟨font_down_x, row2_y, font_down_x + small_btn_size, row2_y + small_btn_size⟩ }
  let font_up_x :=
    center_x - castInt ((row2_spacing : ℚ) * (1 / 2)) - Int.tdiv small_btn_size 2
  let s := { s with font_size_up_rect_ :=
    ⟨font_up_x, row2_y, font_up_x + small_btn_size, row2_y + small_btn_size⟩ }
  let color_x :=
    center_x + castInt ((row2_spacing : ℚ) * (1 / 2)) - Int.tdiv small_btn_size 2
  let s := { s with color_picker_rect_ :=
    ⟨color_x, row2_y, color_x + small_btn_size, row2_y + small_btn_size⟩ }
  let trans_x :=
    center_x + castInt ((row2_spacing : ℚ) * (3 / 2)) - Int.tdiv small_btn_size 2
  { s with translation_toggle_rect_ :=
    ⟨trans_x, row2_y, trans_x + small_btn_size, row2_y + small_btn_size⟩ }

/-- The value of an integer in the 32-bit `int` type: arithmetic that leaves the range
-2147483648 .. 2147483647 wraps around (two's complement). -/
def int32 (x : Int) : Int :=
  (x + 2147483648) % 4294967296 - 2147483648

/-- Lines 393-430 of `DrawLyric`: the scroll bookkeeping of the primary line, after
`lyric_text_width_` has been measured.  `padding` is the constant `40.0f`. -/
def lyricScroll (s : State) (currentTime : Nat) (width : Int) : State :=
  let padding : ℚ := 40
  let s := { s with lyric_needs_scroll_ := decide (s.lyric_text_width_ > (width : ℚ) - padding) }
  if s.lyric_needs_scroll_ = true then
    let maxScroll := s.lyric_text_width_ - (width : ℚ) + padding
    let s :=
      if s.lyric_scroll_speed_ ≤ 0 ∧ maxScroll > 0 then
        let available_time_ms : ℚ :=
          (s.lyric_duration_ms_ : ℚ) * (9 / 10) - (kScrollPauseMs : ℚ)
        if available_time_ms > 100 then
          { s with lyric_scroll_speed_ := maxScroll / (available_time_ms / 1000) }
        else
          { s with lyric_scroll_speed_ := maxScroll * 2 }
      else s
    if s.lyric_scroll_pause_start_ > 0 then
      if dwordSub currentTime s.lyric_scroll_pause_start_ ≥ kScrollPauseMs then
        { s with lyric_scroll_pause_start_ := 0 }
      else s
    else if s.lyric_scroll_offset_ < maxScroll then
      let scrollDelta :=
        s.lyric_scroll_speed_ * (dwordSub currentTime s.last_scroll_time_ : ℚ) / 1000
      let s := { s with lyric_scroll_offset_ := s.lyric_scroll_offset_ + scrollDelta }
      if s.lyric_scroll_offset_ > maxScroll then
        { s with lyric_scroll_offset_ := maxScroll }
      else s
    else s
  else s

/-- Lines 503-536 of `DrawLyric`: the scroll bookkeeping of the translation line, after
`trans_text_width_` has been measured. -/
def transScroll (s : State) (currentTime : Nat) (width : Int) : State :=
  let padding : ℚ := 40
  let s := { s with trans_needs_scroll_ := decide (s.trans_text_width_ > (width : ℚ) - padding) }
  if s.trans_needs_scroll_ = true then
    let maxTransScroll := s.trans_text_width_ - (width : ℚ) + padding
    let s :=
      if s.trans_scroll_speed_ ≤ 0 ∧ maxTransScroll > 0 then
        let available_time_ms : ℚ :=
          (s.lyric_duration_ms_ : ℚ) * (9 / 10) - (kScrollPauseMs : ℚ)
        if available_time_ms > 100 then
          { s with trans_scroll_speed_ := maxTransScroll / (available_time_ms / 1000) }
        else
          { s with trans_scroll_speed_ := maxTransScroll * 2 }
      else s
    if s.trans_scroll_pause_start_ > 0 then
      if dwordSub currentTime s.trans_scroll_pause_start_ ≥ kScrollPauseMs then
        { s with trans_scroll_pause_start_ := 0 }
      else s
    else if s.trans_scroll_offset_ < maxTransScroll then
      let scrollDelta :=
        s.trans_scroll_speed_ * (dwordSub currentTime s.last_scroll_time_ : ℚ) / 1000
      let s := { s with trans_scroll_offset_ := s.trans_scroll_offset_ + scrollDelta }
      if s.trans_scroll_offset_ > maxTransScroll then
        { s with trans_scroll_offset_ := maxTransScroll }
      else s
    else s
  else s

/-- Lines 593-607 of `DrawLyric`: store the frame time and arm or disarm timer 2. -/
def scrollTimer (s : State) (currentTime : Nat) (width : Int) : State :=
  let padding : ℚ := 40
  let s := { s with last_scroll_time_ := currentTime }
  let lyric_still_scrolling : Bool := s.lyric_needs_scroll_ &&
    (decide (s.lyric_scroll_pause_start_ > 0) ||
      decide (s.lyric_scroll_offset_ < s.lyric_text_width_ - (width : ℚ) + padding))
  let trans_still_scrolling : Bool := s.trans_needs_scroll_ &&
    (decide (s.trans_scroll_pause_start_ > 0) ||
      decide (s.trans_scroll_offset_ < s.trans_text_width_ - (width : ℚ) + padding))
  if ((lyric_still_scrolling || trans_still_scrolling) && s.hwnd_ && !s.show_controls_) = true then
    { s with timer2 := true }
  else
    { s with timer2 := false }

/-- Method `DrawLyric`, restricted to what it stores: the scroll state of both lines,
`last_scroll_time_`, the button rectangles (through `DrawControlPanel`) and the arming of
timer 2.  The three blocks of the body that touch the state are `lyricScroll`,
`transScroll` and `scrollTimer`. -/
def DrawLyric (s : State) (env : PaintEnv) (width : Int) (height : Int) : State :=
  if s.show_controls_ = true then
    DrawControlPanel s width height
  else if s.lyric_text_ = "" then
    s
  else
    let hasTranslation : Bool := s.show_translation_ && decide (s.translation_text_ ≠ "")
    let s := { s with lyric_text_width_ := env.lyricWidth }
    let currentTime := env.currentTime
    let s := lyricScroll s currentTime width
    let s :=
      if hasTranslation = true then
        let s := { s with trans_text_width_ := env.transWidth }
        transScroll s currentTime width
      else s
    scrollTimer s currentTime width

/-- Method `UpdateWindow`: chooses the frame height, paints, and presents the frame with
`UpdateLayeredWindow`, which also gives the window the size of the frame. -/
def UpdateWindow (s : State) (env : PaintEnv) : State :=
  if s.hwnd_ = false then s
  else
    let current_height : Int :=
      if s.show_controls_ = true then GetControlPanelHeight s
      else
        let hasTranslation : Bool := s.show_translation_ && decide (s.translation_text_ ≠ "")
        if hasTranslation = true then
          kWindowHeight + castInt ((s.font_size_ : ℚ) * (6 / 10)) + 10
        else kWindowHeight
    let s := DrawLyric s env kWindowWidth current_height
    { s with win_width := kWindowWidth, win_height := current_height, paints := s.paints + 1 }

/-- Method `Create`; `ok` tells whether the window system delivered a window. -/
def Create (s : State) (screen_width screen_height : Int) (ok : Bool) : State × Bool :=
  if s.hwnd_ = true then (s, true)
  else if ok = false then (s, false)
  else
    let x := Int.tdiv (screen_width - kWindowWidth) 2
    let y := screen_height - kWindowHeight - 100
    ({ s with hwnd_ := true, window_visible := false, win_left := x, win_top := y,
              win_width := kWindowWidth, win_height := kWindowHeight, font_ := true }, true)

/-- Method `Destroy`; destroying the window also removes its timers and mouse capture. -/
def Destroy (s : State) : State :=
  let s :=
    if s.hwnd_ = true then
      { s with hwnd_ := false, window_visible := false, timer1 := false, timer2 := false,
               captured := false }
    else s
  if s.font_ = true then { s with font_ := false } else s

/-- Method `Show`. -/
def Show (s : State) (env : PaintEnv) : State :=
  if s.hwnd_ = true then
    let s := UpdateWindow s env
    { s with window_visible := true }
  else s

/-- Method `Hide`. -/
def Hide (s : State) : State :=
  if s.hwnd_ = true then { s with window_visible := false } else s

/-- Method `SetLyricText`; `now` is the value of `GetTickCount()` read by the setter. -/
def SetLyricText (s : State) (text : String) (now : Nat) (env : PaintEnv) : State :=
  let s :=
    if s.lyric_text_ ≠ text then
      { s with lyric_scroll_offset_ := 0, lyric_needs_scroll_ := false, lyric_text_width_ := 0,
               lyric_scroll_pause_start_ := now, lyric_scroll_speed_ := 0 }
    else s
  let s := { s with lyric_text_ := text }
  if IsVisible s = true then UpdateWindow s env else s

/-- Method `SetLyricDuration`. -/
def SetLyricDuration (s : State) (duration_ms : Nat) : State :=
  { s with lyric_duration_ms_ := if duration_ms > 0 then duration_ms else 3000 }

/-- Method `SetPosition`. -/
def SetPosition (s : State) (x y : Int) : State :=
  if s.hwnd_ = true then { s with win_left := x, win_top := y } else s

/-- Method `SetFontSize`. -/
def SetFontSize (s : State) (size : Int) (env : PaintEnv) : State :=
  let s := { s with font_size_ := size }
  let s := { s with font_ := true }
  if IsVisible s = true then UpdateWindow s env else s

/-- Method `SetTextColor`. -/
def SetTextColor (s : State) (color : Nat) (env : PaintEnv) : State :=
  let s := { s with text_color_ := color }
  if IsVisible s = true then UpdateWindow s env else s

/-- Method `SetStrokeColor`. -/
def SetStrokeColor (s : State) (color : Nat) (env : PaintEnv) : State :=
  let s := { s with stroke_color_ := color }
  if IsVisible s = true then UpdateWindow s env else s

/-- Method `SetStrokeWidth`. -/
def SetStrokeWidth (s : State) (width : Int) (env : PaintEnv) : State :=
  let s := { s with stroke_width_ := width }
  if IsVisible s = true then UpdateWindow s env else s

/-- Method `SetDraggable`. -/
def SetDraggable (s : State) (draggable : Bool) : State :=
  { s with is_draggable_ := draggable }

/-- Method `SetMouseTransparent`. -/
def SetMouseTransparent (s : State) (transparent : Bool) : State :=
  if s.hwnd_ = false then s else { s with ex_transparent := transparent }

/-- Method `SetSongInfo`. -/
def SetSongInfo (s : State) (title artist album_cover : String) (env : PaintEnv) : State :=
  let s := { s with song_title_ := title, song_artist_ := artist, album_cover_url_ := album_cover }
  if IsVisible s = true then UpdateWindow s env else s

/-- Method `SetPlaybackControlCallback`; `callback` tells whether the new value is callable. -/
def SetPlaybackControlCallback (s : State) (callback : Bool) : State :=
  { s with playback_callback_ := callback }

/-- Method `SetPlayingState`. -/
def SetPlayingState (s : State) (is_playing : Bool) (env : PaintEnv) : State :=
  let s := { s with is_playing_ := is_playing }
  if (IsVisible s && s.show_controls_) = true then UpdateWindow s env else s

/-- Method `SetTranslationText`; `now` is the value of `GetTickCount()` read by the setter. -/
def SetTranslationText (s : State) (text : String) (now : Nat) (env : PaintEnv) : State :=
  let s :=
    if s.translation_text_ ≠ text then
      { s with trans_scroll_offset_ := 0, trans_needs_scroll_ := false, trans_text_width_ := 0,
               trans_scroll_pause_start_ := now, trans_scroll_speed_ := 0 }
    else s
  let s := { s with translation_text_ := text }
  if IsVisible s = true then UpdateWindow s env else s

/-- Method `SetShowTranslation`. -/
def SetShowTranslation (s : State) (show_it : Bool) (env : PaintEnv) : State :=
  let s := { s with show_translation_ := show_it }
  if IsVisible s = true then UpdateWindow s env else s

/-- The messages `WndProc` handles itself; every other message goes to `DefWindowProc`.
`now` is the value of `GetTickCount()` read by the handler. -/
inductive Message where
  | WM_LBUTTONDOWN (lparam : Int)
  | WM_LBUTTONUP
  | WM_MOUSEMOVE (lparam : Int) (now : Nat)
  | WM_MOUSELEAVE
  | WM_TIMER (wparam : Nat)
  | WM_DESTROY
  | other
  deriving DecidableEq

/-- Static method `WndProc`, for a window whose user data points at the object. -/
def WndProc (s : State) (message : Message) (env : PaintEnv) : State :=
  match message with
  | Message.WM_LBUTTONDOWN lparam =>
    let pt : POINT := ⟨LOWORD lparam, HIWORD lparam⟩
    let r : State × Bool :=
      if s.show_controls_ = true then HandleButtonClick s pt else (s, false)
    let s := r.1
    let button_clicked := r.2
    if (!button_clicked && s.is_draggable_) = true then
      { s with is_dragging_ := true, drag_point_ := ⟨pt.x, pt.y⟩, captured := true }
    else s
  | Message.WM_LBUTTONUP =>
    if s.is_dragging_ = true then
      { s with is_dragging_ := false, captured := false }
    else s
  | Message.WM_MOUSEMOVE lparam now =>
    let s :=
      if s.is_dragging_ = true then
        let mouse_x := LOWORD lparam
        let mouse_y := HIWORD lparam
        let new_x := s.win_left + (mouse_x - s.drag_point_.x)
        let new_y := s.win_top + (mouse_y - s.drag_point_.y)
        { s with win_left := new_x, win_top := new_y }
      else s
    if s.is_hovered_ = false then
      { s with is_hovered_ := true, hover_start_time_ := now, timer1 := true }
    else s
  | Message.WM_MOUSELEAVE =>
    let s := { s with is_hovered_ := false, show_controls_ := false, hover_start_time_ := 0,
                      timer1 := false }
    let hasTranslation : Bool := s.show_translation_ && decide (s.translation_text_ ≠ "")
    let normal_height : Int :=
      if hasTranslation = true then
        kWindowHeight + castInt ((s.font_size_ : ℚ) * (6 / 10)) + 10
      else kWindowHeight
    let s := { s with win_width := kWindowWidth, win_height := normal_height }
    UpdateWindow s env
  | Message.WM_TIMER wparam =>
    if wparam = 1 ∧ s.is_hovered_ = true ∧ s.show_controls_ = false then
      let s := { s with show_controls_ := true, timer1 := false }
      let s := { s with win_width := kWindowWidth, win_height := GetControlPanelHeight s }
      UpdateWindow s env
    else if wparam = 2 then
      if s.show_controls_ = false ∧ (s.lyric_needs_scroll_ = true ∨ s.trans_needs_scroll_ = true) then
        UpdateWindow s env
      else
        { s with timer2 := false }
    else s
  | Message.WM_DESTROY => s
  | Message.other => s

/-- The public interface and the message entry point, as one type of calls. -/
inductive Call where
  | Create (screen_width screen_height : Int) (ok : Bool)
  | Destroy
  | Show
  | Hide
  | SetLyricText (text : String) (now : Nat)
  | SetLyricDuration (duration_ms : Nat)
  | SetPosition (x y : Int)
  | SetFontSize (size : Int)
  | SetTextColor (color : Nat)
  | SetStrokeColor (color : Nat)
  | SetStrokeWidth (width : Int)
  | SetDraggable (draggable : Bool)
  | SetMouseTransparent (transparent : Bool)
  | SetSongInfo (title artist album_cover : String)
  | SetPlaybackControlCallback (callback : Bool)
  | SetPlayingState (is_playing : Bool)
  | SetTranslationText (text : String) (now : Nat)
  | SetShowTranslation (show_it : Bool)
  | Window (message : Message)
  deriving DecidableEq

/-- One call on the object.  A message reaches `WndProc` only while the window exists. -/
def step (s : State) (c : Call) (env : PaintEnv) : State :=
  match c with
  | Call.Create w h ok => (Create s w h ok).1
  | Call.Destroy => Destroy s
  | Call.Show => Show s env
  | Call.Hide => Hide s
  | Call.SetLyricText text now => SetLyricText s text now env
  | Call.SetLyricDuration d => SetLyricDuration s d
  | Call.SetPosition x y => SetPosition s x y
  | Call.SetFontSize size => SetFontSize s size env
  | Call.SetTextColor c => SetTextColor s c env
  | Call.SetStrokeColor c => SetStrokeColor s c env
  | Call.SetStrokeWidth w => SetStrokeWidth s w env
  | Call.SetDraggable b => SetDraggable s b
  | Call.SetMouseTransparent b => SetMouseTransparent s b
  | Call.SetSongInfo t a c => SetSongInfo s t a c env
  | Call.SetPlaybackControlCallback cb => SetPlaybackControlCallback s cb
  | Call.SetPlayingState b => SetPlayingState s b env
  | Call.SetTranslationText text now => SetTranslationText s text now env
  | Call.SetShowTranslation b => SetShowTranslation s b env
  | Call.Window m => if s.hwnd_ = true then WndProc s m env else s

/-- A sequence of calls, each with what its repaint (if any) reads from the system. -/
def run (s : State) : List (Call × PaintEnv) → State
  | [] => s
  | (c, env) :: rest => run (step s c env) rest

/-! ## Proof-side view of one scrolling line

`lyricScroll` and `transScroll` run the same algorithm on two groups of members.  `Line`
collects one such group and `scrollLine` is that algorithm on the group alone; the lemmas
`lyricScroll_eq` and `transScroll_eq` below show that the embedded blocks compute exactly
this. -/

/-- The four scroll members of one line. -/
structure Line where
  offset : ℚ
  speed : ℚ
  pause_start : Nat
  needs_scroll : Bool
  deriving DecidableEq

/-- The scroll members of the primary line. -/
def lyricLine (s : State) : Line :=
  ⟨s.lyric_scroll_offset_, s.lyric_scroll_speed_, s.lyric_scroll_pause_start_, s.lyric_needs_scroll_⟩

/-- The scroll members of the translation line. -/
def transLine (s : State) : Line :=
  ⟨s.trans_scroll_offset_, s.trans_scroll_speed_, s.trans_scroll_pause_start_, s.trans_needs_scroll_⟩

/-- The speed the scroll block works with: the cached one, or the one it derives from the
line duration when none is cached. -/
def speedNow (duration : Nat) (maxScroll speed : ℚ) : ℚ :=
  if speed ≤ 0 ∧ maxScroll > 0 then
    if (duration : ℚ) * (9 / 10) - (kScrollPauseMs : ℚ) > 100 then
      maxScroll / (((duration : ℚ) * (9 / 10) - (kScrollPauseMs : ℚ)) / 1000)
    else maxScroll * 2
  else speed

/-- Closed form of the scroll block of `lyricScroll` / `transScroll` on a `Line`. -/
def scrollLine (textWidth : ℚ) (width : Int) (duration currentTime last : Nat) (l : Line) : Line :=
  if textWidth > (width : ℚ) - 40 then
    let maxScroll := textWidth - (width : ℚ) + 40
    let v := speedNow duration maxScroll l.speed
    if l.pause_start > 0 then
      { offset := l.offset
        speed := v
        pause_start := if dwordSub currentTime l.pause_start ≥ kScrollPauseMs then 0 else l.pause_start
        needs_scroll := true }
    else if l.offset < maxScroll then
      { offset := min (l.offset + v * (dwordSub currentTime last : ℚ) / 1000) maxScroll
        speed := v
        pause_start := l.pause_start
        needs_scroll := true }
    else
      { offset := l.offset, speed := v, pause_start := l.pause_start, needs_scroll := true }
  else
    { l with needs_scroll := false }

/-- How one call may change a line: not at all, or by one run of the scroll block at the
window width with the widths and tick of the repaint `env`. -/
def LineMoved (env : PaintEnv) (textWidth : ℚ) (l l' : Line) : Prop :=
  l' = l ∨ ∃ dur last, l' = scrollLine textWidth kWindowWidth dur env.currentTime last l


/-- Relation between the states before and after a call that keeps the lyric text: the
text is the same and the primary line moved by at most one run of the scroll block. -/
def LyricKept (env : PaintEnv) (s s' : State) : Prop :=
  s'.lyric_text_ = s.lyric_text_ ∧ LineMoved env env.lyricWidth (lyricLine s) (lyricLine s')

/-- Relation between the states before and after a call that keeps the translation text. -/
def TransKept (env : PaintEnv) (s s' : State) : Prop :=
  s'.translation_text_ = s.translation_text_ ∧
    LineMoved env env.transWidth (transLine s) (transLine s')

/-- The scroll members of a line right after its text has changed. -/
def resetLine (now : Nat) : Line :=
  ⟨0, 0, now, false⟩

/-- The object after the assignments of `SetLyricText` for a text that differs from the
current one, before the repaint the setter may trigger. -/
def lyricRestarted (s : State) (text : String) (now : Nat) : State :=
  { s with lyric_scroll_offset_ := 0, lyric_needs_scroll_ := false, lyric_text_width_ := 0,
           lyric_scroll_pause_start_ := now, lyric_scroll_speed_ := 0, lyric_text_ := text }

/-- The object after the assignments of `SetTranslationText` for a text that differs from
the current one, before the repaint the setter may trigger. -/
def transRestarted (s : State) (text : String) (now : Nat) : State :=
  { s with trans_scroll_offset_ := 0, trans_needs_scroll_ := false, trans_text_width_ := 0,
           trans_scroll_pause_start_ := now, trans_scroll_speed_ := 0, translation_text_ := text }

/-- The states after each call of a sequence, in order. -/
def trace (s : State) : List (Call × PaintEnv) → List State
  | [] => []
  | (c, env) :: rest => step s c env :: trace (step s c env) rest

/-! ## Concrete windows used as witnesses and counterexamples -/

/-- A repaint that reads tick `t` and measures the lyric at width `w` (translation 0). -/
def paintAt (t : Nat) (w : ℚ) : PaintEnv :=
  ⟨t, w, 0⟩

/-- A created, visible window that received the lyric "la la la" (measured 1200 px wide)
at tick 1000 and whose pause was ended by the timer repaint at tick 1500. -/
def scrollingWindow : State :=
  run construct
    [ (Call.Create 1920 1080 true, paintAt 0 0),
      (Call.Show, paintAt 900 0),
      (Call.SetLyricText "la la la" 1000, paintAt 1000 1200),
      (Call.Window (Message.WM_TIMER 2), paintAt 1500 1200) ]

/-- The window `scrollingWindow` after a translation measured 900 px wide arrived at
tick 1600. -/
def bilingualWindow : State :=
  run scrollingWindow
    [ (Call.SetTranslationText "tr tr tr" 1600, ⟨1600, 1200, 900⟩) ]

/-- Later calls on `bilingualWindow`: frames at irregular ticks, a font-size change that
alters both measured widths, and `SetLyricText` with the text already shown. -/
def bilingualFrames : List (Call × PaintEnv) :=
  [ (Call.Window (Message.WM_TIMER 2), ⟨1630, 1200, 900⟩),
    (Call.Window (Message.WM_TIMER 2), ⟨2200, 1200, 900⟩),
    (Call.SetFontSize 40, ⟨2230, 1500, 1100⟩),
    (Call.SetLyricText "la la la" 2300, ⟨2300, 1500, 1100⟩),
    (Call.Window (Message.WM_TIMER 2), ⟨2900, 1500, 1100⟩) ]

/-- A created window, not yet shown, that received a lyric and a translation at tick
1000: both lines are restarted and no speed is derived yet.  The line duration is the
default 3000 ms. -/
def pendingWindow : State :=
  run construct
    [ (Call.Create 1920 1080 true, paintAt 0 0),
      (Call.SetLyricText "la la la" 1000, paintAt 1000 1200),
      (Call.SetTranslationText "tr tr tr" 1000, paintAt 1000 1200) ]

/-- The same as `pendingWindow` with a line duration of 100 ms. -/
def shortLineWindow : State :=
  run construct
    [ (Call.Create 1920 1080 true, paintAt 0 0),
      (Call.SetLyricDuration 100, paintAt 0 0),
      (Call.SetLyricText "la la la" 1000, paintAt 1000 1200),
      (Call.SetTranslationText "tr tr tr" 1000, paintAt 1000 1200) ]

/-- Create, show, pointer-enter at tick 2000 and the dwell-timer fire. -/
def hoverCalls : List (Call × PaintEnv) :=
  [ (Call.Create 1920 1080 true, paintAt 0 0),
    (Call.Show, paintAt 900 0),
    (Call.Window (Message.WM_MOUSEMOVE 327685 2000), paintAt 2000 0),
    (Call.Window (Message.WM_TIMER 1), paintAt 2300 0) ]

/-- Calls with a negative font size and a negative stroke width. -/
def absurdStyleCalls : List (Call × PaintEnv) :=
  [ (Call.SetFontSize (-5), paintAt 0 0),
    (Call.SetStrokeWidth (-1), paintAt 0 0) ]

/-- Calls with a positive font size and a zero stroke width, on a visible window. -/
def saneStyleCalls : List (Call × PaintEnv) :=
  [ (Call.Create 1920 1080 true, paintAt 0 0),
    (Call.Show, paintAt 900 0),
    (Call.SetFontSize 48, paintAt 1000 0),
    (Call.SetStrokeWidth 0, paintAt 1100 0) ]

/-- The process-wide state of the translation unit: the GDI+ token (0 when GDI+ is not
started) and, as a ghost count, the number of live `DesktopLyricWindow` objects. -/
structure Process where
  gdiplusToken : Nat
  alive : Nat
  deriving DecidableEq

/-- Function `InitGdiPlus`; `startup` is the token `GdiplusStartup` writes. -/
def InitGdiPlus (gdiplusToken : Nat) (startup : Nat) : Nat :=
  if gdiplusToken = 0 then startup else gdiplusToken

/-- Function `ShutdownGdiPlus`. -/
def ShutdownGdiPlus (gdiplusToken : Nat) : Nat :=
  if gdiplusToken ≠ 0 then 0 else gdiplusToken

/-- Construction and destruction of window objects, seen from the process. -/
inductive Lifetime where
  | construct (startup : Nat)
  | destruct
  deriving DecidableEq

/-- The constructor calls `InitGdiPlus`, the destructor `ShutdownGdiPlus` (after
`Destroy`, which touches the object only). -/
def lifeStep (p : Process) (e : Lifetime) : Process :=
  match e with
  | Lifetime.construct startup =>
    { gdiplusToken := InitGdiPlus p.gdiplusToken startup, alive := p.alive + 1 }
  | Lifetime.destruct =>
    { gdiplusToken := ShutdownGdiPlus p.gdiplusToken, alive := p.alive - 1 }

/-- A sequence of constructions and destructions from process start. -/
def lifeRun (p : Process) (es : List Lifetime) : Process :=
  es.foldl lifeStep p

/-- A sequence is well formed when every `GdiplusStartup` succeeds (non-zero token) and
only live objects are destroyed. -/
def lifeOk (p : Process) : List Lifetime → Prop
  | [] => True
  | Lifetime.construct startup :: es => startup ≠ 0 ∧ lifeOk (lifeStep p (Lifetime.construct startup)) es
  | Lifetime.destruct :: es => 0 < p.alive ∧ lifeOk (lifeStep p Lifetime.destruct) es

/-- A sequence keeps at most one object alive when it constructs only while none is. -/
def lifeSingle (p : Process) : List Lifetime → Prop
  | [] => True
  | Lifetime.construct startup :: es =>
    p.alive = 0 ∧ lifeSingle (lifeStep p (Lifetime.construct startup)) es
  | Lifetime.destruct :: es => lifeSingle (lifeStep p Lifetime.destruct) es

/-- The process before any window object exists. -/
def processStart : Process :=
  { gdiplusToken := 0, alive := 0 }

/-- The window `scrollingWindow` after the pointer entered it at tick 1600: the dwell
timer is armed and the scroll timer still is. -/
def hoveringWindow : State :=
  run scrollingWindow
    [ (Call.Window (Message.WM_MOUSEMOVE 327685 1600), paintAt 1600 1200) ]

/-- The window `hoveringWindow` after the dwell timer fired at tick 1900: the panel is
expanded and has just been repainted. -/
def expandedWindow : State :=
  run hoveringWindow
    [ (Call.Window (Message.WM_TIMER 1), paintAt 1900 1200) ]

/-- The `lparam` of a mouse message for the client coordinates `(mx, my)`: the low 16 bits
of each, `mx` in the low word and `my` in the high word. -/
def packLParam (mx my : Int) : Int :=
  mx % 65536 + 65536 * (my % 65536)

/-- The window `scrollingWindow` after a primary-button press at the client point (5, 5):
a drag is active with anchor (5, 5) and the window is at (560, 880). -/
def draggingWindow : State :=
  run scrollingWindow
    [ (Call.Window (Message.WM_LBUTTONDOWN (packLParam 5 5)), paintAt 1600 1200) ]

/-- A run of repaints (`DrawLyric` at width `W`), one per environment. -/
def frames (s : State) (W h : Int) (es : List PaintEnv) : State :=
  es.foldl (fun u e => DrawLyric u e W h) s

/-- The ticks of the repaints do not decrease, starting from `t`, and do not wrap. -/
def ticksFrom (t : Nat) : List PaintEnv → Prop
  | [] => True
  | e :: es => t ≤ e.currentTime ∧ e.currentTime < 4294967296 ∧ ticksFrom e.currentTime es

/-- The tick of the last repaint of a run, or `t` when the run is empty. -/
def lastTick (t : Nat) : List PaintEnv → Nat
  | [] => t
  | e :: es => lastTick e.currentTime es

/-- A created, visible window that received the lyric "la la la" (measured 1200 px wide)
at tick 1000: the pause is pending and the repaint of the setter has derived the speed. -/
def dwellingWindow : State :=
  run construct
    [ (Call.Create 1920 1080 true, paintAt 0 0),
      (Call.Show, paintAt 900 0),
      (Call.SetLyricText "la la la" 1000, paintAt 1000 1200) ]

/-- The scroll members of the primary line together with the time of the last repaint
that measured (`last_scroll_time_`). -/
def lyricClock (s : State) : Line × Nat :=
  (lyricLine s, s.last_scroll_time_)

/-- Relation between the states before and after a call that keeps the lyric text: the
text is the same, and either the primary line and the frame time are unchanged, or the
call ran one compact repaint: the scroll block moved the line over the time since the
last frame and the frame time is the tick of the repaint. -/
def LyricTimed (env : PaintEnv) (s s' : State) : Prop :=
  s'.lyric_text_ = s.lyric_text_ ∧
    (lyricClock s' = lyricClock s ∨
      ∃ dur, lyricClock s' =
        (scrollLine env.lyricWidth kWindowWidth dur env.currentTime s.last_scroll_time_
          (lyricLine s), env.currentTime))

/-- Calls on a scrolling window whose pause ended at tick 1500: a timer frame, the
pointer entering, the panel expanding (a repaint of the expanded panel), a colour change
while it is expanded (another one), and the pointer leaving (a compact repaint). -/
def mixedFrames : List (Call × PaintEnv) :=
  [ (Call.Window (Message.WM_TIMER 2), paintAt 1600 1200),
    (Call.Window (Message.WM_MOUSEMOVE (packLParam 5 5) 1700), paintAt 1700 1200),
    (Call.Window (Message.WM_TIMER 1), paintAt 2000 1200),
    (Call.SetTextColor 255, paintAt 2500 1200),
    (Call.Window Message.WM_MOUSELEAVE, paintAt 3000 1200) ]

/-- The eight button rectangles with their action identifiers, in the priority order the
specification lists: previous, play_pause, next, font_size_up, font_size_down,
color_picker, toggle_translation, close. -/
def spec_buttonOrder (s : State) : List (RECT × String) :=
  [ (s.prev_button_rect_, "previous"),
    (s.play_pause_button_rect_, "play_pause"),
    (s.next_button_rect_, "next"),
    (s.font_size_up_rect_, "font_size_up"),
    (s.font_size_down_rect_, "font_size_down"),
    (s.color_picker_rect_, "color_picker"),
    (s.translation_toggle_rect_, "toggle_translation"),
    (s.close_button_rect_, "close") ]

/-- The action identifier of the first rectangle, in priority order, that contains the
point; `none` when no rectangle contains it. -/
def spec_firstHit (s : State) (pt : POINT) : Option String :=
  ((spec_buttonOrder s).find? (fun b => IsPointInRect pt b.1)).map (fun b => b.2)

/-- A sequence of window messages handled by `WndProc`, each with the environment of the
repaint it may trigger. -/
def handleAll (s : State) (ms : List (Message × PaintEnv)) : State :=
  ms.foldl (fun u m => WndProc u m.1 m.2) s

/-- An expanded panel with a callback registered whose previous and close rectangles
overlap: both are the square from (0, 0) to (10, 10); the other six are the square from
(100, 100) to (110, 110). -/
def overlapPanel : State :=
  { construct with
    hwnd_ := true, window_visible := true, is_hovered_ := true, show_controls_ := true,
    playback_callback_ := true,
    prev_button_rect_ := ⟨0, 0, 10, 10⟩, close_button_rect_ := ⟨0, 0, 10, 10⟩,
    play_pause_button_rect_ := ⟨100, 100, 110, 110⟩,
    next_button_rect_ := ⟨100, 100, 110, 110⟩,
    font_size_up_rect_ := ⟨100, 100, 110, 110⟩,
    font_size_down_rect_ := ⟨100, 100, 110, 110⟩,
    color_picker_rect_ := ⟨100, 100, 110, 110⟩,
    translation_toggle_rect_ := ⟨100, 100, 110, 110⟩ }

/-- The panel `overlapPanel` with no callback registered. -/
def silentPanel : State :=
  SetPlaybackControlCallback overlapPanel false

/-! ## Proof-side view of the members no repaint touches -/

/-- The members and host fields that `UpdateWindow` never writes and that the claims about
flags, style and timers speak of. -/
structure Core where
  hwnd_ : Bool
  font_ : Bool
  is_hovered_ : Bool
  show_controls_ : Bool
  font_size_ : Int
  stroke_width_ : Int
  lyric_duration_ms_ : Nat
  window_visible : Bool
  timer1 : Bool
  deriving DecidableEq

/-- The `Core` of a state. -/
def core (s : State) : Core :=
  { hwnd_ := s.hwnd_
    font_ := s.font_
    is_hovered_ := s.is_hovered_
    show_controls_ := s.show_controls_
    font_size_ := s.font_size_
    stroke_width_ := s.stroke_width_
    lyric_duration_ms_ := s.lyric_duration_ms_
    window_visible := s.window_visible
    timer1 := s.timer1 }

/-- What `WndProc` does to the `Core`. -/
def coreMessage (k : Core) (m : Message) : Core :=
  match m with
  | Message.WM_MOUSEMOVE _ _ =>
    if k.is_hovered_ = false then { k with is_hovered_ := true, timer1 := true } else k
  | Message.WM_MOUSELEAVE =>
    { k with is_hovered_ := false, show_controls_ := false, timer1 := false }
  | Message.WM_TIMER wparam =>
    if wparam = 1 ∧ k.is_hovered_ = true ∧ k.show_controls_ = false then
      { k with show_controls_ := true, timer1 := false }
    else k
  | _ => k

/-- What a call does to the `Core`. -/
def coreStep (k : Core) (c : Call) : Core :=
  match c with
  | Call.Create _ _ ok =>
    if k.hwnd_ = true then k
    else if ok = false then k
    else { k with hwnd_ := true, window_visible := false, font_ := true }
  | Call.Destroy =>
    if k.hwnd_ = true then
      { k with hwnd_ := false, window_visible := false, timer1 := false, font_ := false }
    else { k with font_ := false }
  | Call.Show => if k.hwnd_ = true then { k with window_visible := true } else k
  | Call.Hide => if k.hwnd_ = true then { k with window_visible := false } else k
  | Call.SetLyricDuration d =>
    { k with lyric_duration_ms_ := if d > 0 then d else 3000 }
  | Call.SetFontSize size => { k with font_size_ := size, font_ := true }
  | Call.SetStrokeWidth w => { k with stroke_width_ := w }
  | Call.Window m => if k.hwnd_ = true then coreMessage k m else k
  | _ => k

/-- The block `lyricScroll` updates the four lyric scroll members by `scrollLine` and nothing else. -/
theorem lyricScroll_eq (s : State) (t : Nat) (w : Int) :
    lyricScroll s t w =
      { s with
        lyric_scroll_offset_ := (scrollLine s.lyric_text_width_ w s.lyric_duration_ms_ t s.last_scroll_time_ (lyricLine s)).offset
        lyric_scroll_speed_ := (scrollLine s.lyric_text_width_ w s.lyric_duration_ms_ t s.last_scroll_time_ (lyricLine s)).speed
        lyric_scroll_pause_start_ := (scrollLine s.lyric_text_width_ w s.lyric_duration_ms_ t s.last_scroll_time_ (lyricLine s)).pause_start
        lyric_needs_scroll_ := (scrollLine s.lyric_text_width_ w s.lyric_duration_ms_ t s.last_scroll_time_ (lyricLine s)).needs_scroll } := by
  by_cases hn : s.lyric_text_width_ > (w : ℚ) - 40 <;>
  by_cases hs : s.lyric_scroll_speed_ ≤ 0 ∧ s.lyric_text_width_ - (w : ℚ) + 40 > 0 <;>
  by_cases ha : (s.lyric_duration_ms_ : ℚ) * (9 / 10) - (kScrollPauseMs : ℚ) > 100 <;>
  by_cases hp : s.lyric_scroll_pause_start_ > 0 <;>
  by_cases hd : dwordSub t s.lyric_scroll_pause_start_ ≥ kScrollPauseMs <;>
  by_cases ho : s.lyric_scroll_offset_ < s.lyric_text_width_ - (w : ℚ) + 40 <;>
  simp [lyricScroll, scrollLine, speedNow, lyricLine, hn, hs, ha, hp, hd, ho, min_def] <;>
  split_ifs <;> first | rfl | (exfalso; linarith)

/-- The block `scrollTimer` stores the frame time and the arming of timer 2 and nothing else. -/
theorem scrollTimer_eq (s : State) (t : Nat) (w : Int) :
    scrollTimer s t w =
      { s with
        last_scroll_time_ := t
        timer2 := ((s.lyric_needs_scroll_ &&
            (decide (s.lyric_scroll_pause_start_ > 0) ||
              decide (s.lyric_scroll_offset_ < s.lyric_text_width_ - (w : ℚ) + 40))) ||
          (s.trans_needs_scroll_ &&
            (decide (s.trans_scroll_pause_start_ > 0) ||
              decide (s.trans_scroll_offset_ < s.trans_text_width_ - (w : ℚ) + 40)))) &&
          s.hwnd_ && !s.show_controls_ } := by
  have key : ∀ (c : Bool) (u : State),
      (if c = true then { u with timer2 := true } else { u with timer2 := false }) =
        { u with timer2 := c } := by
    intro c u; cases c <;> simp
  exact key _ _

/-- The block `transScroll` updates the four translation scroll members by `scrollLine` and nothing else. -/
theorem transScroll_eq (s : State) (t : Nat) (w : Int) :
    transScroll s t w =
      { s with
        trans_scroll_offset_ := (scrollLine s.trans_text_width_ w s.lyric_duration_ms_ t s.last_scroll_time_ (transLine s)).offset
        trans_scroll_speed_ := (scrollLine s.trans_text_width_ w s.lyric_duration_ms_ t s.last_scroll_time_ (transLine s)).speed
        trans_scroll_pause_start_ := (scrollLine s.trans_text_width_ w s.lyric_duration_ms_ t s.last_scroll_time_ (transLine s)).pause_start
        trans_needs_scroll_ := (scrollLine s.trans_text_width_ w s.lyric_duration_ms_ t s.last_scroll_time_ (transLine s)).needs_scroll } := by
  by_cases hn : s.trans_text_width_ > (w : ℚ) - 40 <;>
  by_cases hs : s.trans_scroll_speed_ ≤ 0 ∧ s.trans_text_width_ - (w : ℚ) + 40 > 0 <;>
  by_cases ha : (s.lyric_duration_ms_ : ℚ) * (9 / 10) - (kScrollPauseMs : ℚ) > 100 <;>
  by_cases hp : s.trans_scroll_pause_start_ > 0 <;>
  by_cases hd : dwordSub t s.trans_scroll_pause_start_ ≥ kScrollPauseMs <;>
  by_cases ho : s.trans_scroll_offset_ < s.trans_text_width_ - (w : ℚ) + 40 <;>
  simp [transScroll, scrollLine, speedNow, transLine, hn, hs, ha, hp, hd, ho, min_def] <;>
  split_ifs <;> first | rfl | (exfalso; linarith)

/-- Effect of a repaint on the primary line. -/
theorem UpdateWindow_lyricLine (s : State) (env : PaintEnv) :
    lyricLine (UpdateWindow s env) =
      if s.hwnd_ = true ∧ s.show_controls_ = false ∧ s.lyric_text_ ≠ "" then
        scrollLine env.lyricWidth kWindowWidth s.lyric_duration_ms_ env.currentTime
          s.last_scroll_time_ (lyricLine s)
      else lyricLine s := by
  by_cases h1 : s.hwnd_ = true <;> by_cases h2 : s.show_controls_ = true <;>
    by_cases h3 : s.lyric_text_ = "" <;>
    simp [UpdateWindow, DrawLyric, DrawControlPanel, lyricLine, h1, h2, h3, lyricScroll_eq,
      transScroll_eq, scrollTimer_eq]
  split_ifs <;> simp

/-- Effect of a repaint on the translation line. -/
theorem UpdateWindow_transLine (s : State) (env : PaintEnv) :
    transLine (UpdateWindow s env) =
      if s.hwnd_ = true ∧ s.show_controls_ = false ∧ s.lyric_text_ ≠ "" ∧
          s.show_translation_ = true ∧ s.translation_text_ ≠ "" then
        scrollLine env.transWidth kWindowWidth s.lyric_duration_ms_ env.currentTime
          s.last_scroll_time_ (transLine s)
      else transLine s := by
  by_cases h1 : s.hwnd_ = true <;> by_cases h2 : s.show_controls_ = true <;>
    by_cases h3 : s.lyric_text_ = "" <;> by_cases h4 : s.show_translation_ = true <;>
    by_cases h5 : s.translation_text_ = "" <;>
    simp [UpdateWindow, DrawLyric, DrawControlPanel, transLine, h1, h2, h3, h4, h5, lyricScroll_eq,
      transScroll_eq, scrollTimer_eq]


/-- The flag computed by the scroll block is the comparison of the measured width with the
viewport less the padding. -/
theorem scrollLine_needs (Tw : ℚ) (W : Int) (dur t last : Nat) (l : Line) :
    (scrollLine Tw W dur t last l).needs_scroll = decide (Tw > (W : ℚ) - 40) := by
  unfold scrollLine
  by_cases h : Tw > (W : ℚ) - 40
  · simp only [h, if_true]
    split_ifs <;> simp
  · simp [h]

/-- A line that fits is left alone, apart from the flag. -/
theorem scrollLine_idle (Tw : ℚ) (W : Int) (dur t last : Nat) (l : Line)
    (h : ¬ Tw > (W : ℚ) - 40) :
    scrollLine Tw W dur t last l = { l with needs_scroll := false } := by
  unfold scrollLine
  simp [h]

/-- The speed after the block. -/
theorem scrollLine_speed (Tw : ℚ) (W : Int) (dur t last : Nat) (l : Line) :
    (scrollLine Tw W dur t last l).speed =
      if Tw > (W : ℚ) - 40 then speedNow dur (Tw - (W : ℚ) + 40) l.speed else l.speed := by
  unfold scrollLine
  by_cases h : Tw > (W : ℚ) - 40
  · simp only [h, if_true]
    split_ifs <;> rfl
  · simp [h]

/-- A derived speed is positive. -/
theorem speedNow_pos (dur : Nat) (M v : ℚ) (hM : 0 < M) : 0 < speedNow dur M v := by
  unfold speedNow
  split_ifs with h1 h2
  · have : (0 : ℚ) < ((dur : ℚ) * (9 / 10) - (kScrollPauseMs : ℚ)) / 1000 := by
      apply div_pos <;> linarith
    exact div_pos hM this
  · linarith
  · by_contra hv
    exact h1 ⟨not_lt.mp hv, hM⟩

/-- A cached positive speed is kept. -/
theorem speedNow_keep (dur : Nat) (M v : ℚ) (hv : 0 < v) : speedNow dur M v = v := by
  unfold speedNow
  rw [if_neg]
  intro h
  linarith [h.1]

/-- The offset after the block. -/
theorem scrollLine_offset (Tw : ℚ) (W : Int) (dur t last : Nat) (l : Line) :
    (scrollLine Tw W dur t last l).offset =
      if Tw > (W : ℚ) - 40 ∧ l.pause_start = 0 ∧ l.offset < Tw - (W : ℚ) + 40 then
        min (l.offset + speedNow dur (Tw - (W : ℚ) + 40) l.speed * (dwordSub t last : ℚ) / 1000)
          (Tw - (W : ℚ) + 40)
      else l.offset := by
  unfold scrollLine
  by_cases h : Tw > (W : ℚ) - 40
  · by_cases hp : l.pause_start > 0
    · have hp0 : l.pause_start ≠ 0 := Nat.pos_iff_ne_zero.mp hp
      simp [h, hp, hp0]
    · have hp0 : l.pause_start = 0 := by omega
      by_cases ho : l.offset < Tw - (W : ℚ) + 40
      · simp [h, hp0, ho]
      · simp [h, hp0, ho]
  · simp [h]

/-- The block never moves the offset past the end of the line: the new offset is at most
the larger of the old offset and the scroll range. -/
theorem scrollLine_offset_le (Tw : ℚ) (W : Int) (dur t last : Nat) (l : Line) :
    (scrollLine Tw W dur t last l).offset ≤ max l.offset (max 0 (Tw - (W : ℚ) + 40)) := by
  rw [scrollLine_offset]
  split_ifs with h
  · exact le_trans (min_le_right _ _) (le_trans (le_max_right _ _) (le_max_right _ _))
  · exact le_max_left _ _

/-- While the pause is pending the offset is held. -/
theorem scrollLine_offset_paused (Tw : ℚ) (W : Int) (dur t last : Nat) (l : Line)
    (h : 0 < l.pause_start) : (scrollLine Tw W dur t last l).offset = l.offset := by
  rw [scrollLine_offset, if_neg]
  intro hc
  omega

/-- Method `DrawControlPanel` stores the eight rectangles and nothing else. -/
theorem DrawControlPanel_frame (s : State) (w h : Int) :
    DrawControlPanel s w h =
      { s with
        play_pause_button_rect_ := (DrawControlPanel s w h).play_pause_button_rect_
        prev_button_rect_ := (DrawControlPanel s w h).prev_button_rect_
        next_button_rect_ := (DrawControlPanel s w h).next_button_rect_
        font_size_up_rect_ := (DrawControlPanel s w h).font_size_up_rect_
        font_size_down_rect_ := (DrawControlPanel s w h).font_size_down_rect_
        color_picker_rect_ := (DrawControlPanel s w h).color_picker_rect_
        translation_toggle_rect_ := (DrawControlPanel s w h).translation_toggle_rect_
        close_button_rect_ := (DrawControlPanel s w h).close_button_rect_ } := by
  rfl

/-- The members `DrawLyric` may change. -/
theorem DrawLyric_frame (s : State) (env : PaintEnv) (w h : Int) :
    DrawLyric s env w h =
      { s with
        lyric_scroll_offset_ := (DrawLyric s env w h).lyric_scroll_offset_
        trans_scroll_offset_ := (DrawLyric s env w h).trans_scroll_offset_
        lyric_needs_scroll_ := (DrawLyric s env w h).lyric_needs_scroll_
        trans_needs_scroll_ := (DrawLyric s env w h).trans_needs_scroll_
        lyric_text_width_ := (DrawLyric s env w h).lyric_text_width_
        trans_text_width_ := (DrawLyric s env w h).trans_text_width_
        last_scroll_time_ := (DrawLyric s env w h).last_scroll_time_
        lyric_scroll_pause_start_ := (DrawLyric s env w h).lyric_scroll_pause_start_
        trans_scroll_pause_start_ := (DrawLyric s env w h).trans_scroll_pause_start_
        lyric_scroll_speed_ := (DrawLyric s env w h).lyric_scroll_speed_
        trans_scroll_speed_ := (DrawLyric s env w h).trans_scroll_speed_
        play_pause_button_rect_ := (DrawLyric s env w h).play_pause_button_rect_
        prev_button_rect_ := (DrawLyric s env w h).prev_button_rect_
        next_button_rect_ := (DrawLyric s env w h).next_button_rect_
        font_size_up_rect_ := (DrawLyric s env w h).font_size_up_rect_
        font_size_down_rect_ := (DrawLyric s env w h).font_size_down_rect_
        color_picker_rect_ := (DrawLyric s env w h).color_picker_rect_
        translation_toggle_rect_ := (DrawLyric s env w h).translation_toggle_rect_
        close_button_rect_ := (DrawLyric s env w h).close_button_rect_
        timer2 := (DrawLyric s env w h).timer2 } := by
  by_cases h2 : s.show_controls_ = true
  · have e : DrawLyric s env w h = DrawControlPanel s w h := by
      unfold DrawLyric; rw [if_pos h2]
    rw [e]; rfl
  · by_cases h3 : s.lyric_text_ = ""
    · have e : DrawLyric s env w h = s := by
        unfold DrawLyric; rw [if_neg h2, if_pos h3]
      rw [e]
    · by_cases h4 : (s.show_translation_ && decide (s.translation_text_ ≠ "")) = true
      · have e : DrawLyric s env w h =
            scrollTimer (transScroll { lyricScroll { s with lyric_text_width_ := env.lyricWidth }
              env.currentTime w with trans_text_width_ := env.transWidth } env.currentTime w)
              env.currentTime w := by
          unfold DrawLyric; rw [if_neg h2, if_neg h3]; simp only [h4, if_true]
        rw [e, scrollTimer_eq, transScroll_eq, lyricScroll_eq]
      · have e : DrawLyric s env w h =
            scrollTimer (lyricScroll { s with lyric_text_width_ := env.lyricWidth }
              env.currentTime w) env.currentTime w := by
          unfold DrawLyric; rw [if_neg h2, if_neg h3]; simp only [h4]; rfl
        rw [e, scrollTimer_eq, lyricScroll_eq]

/-- The members and host fields `UpdateWindow` may change. -/
theorem UpdateWindow_frame (s : State) (env : PaintEnv) :
    UpdateWindow s env =
      { s with
        lyric_scroll_offset_ := (UpdateWindow s env).lyric_scroll_offset_
        trans_scroll_offset_ := (UpdateWindow s env).trans_scroll_offset_
        lyric_needs_scroll_ := (UpdateWindow s env).lyric_needs_scroll_
        trans_needs_scroll_ := (UpdateWindow s env).trans_needs_scroll_
        lyric_text_width_ := (UpdateWindow s env).lyric_text_width_
        trans_text_width_ := (UpdateWindow s env).trans_text_width_
        last_scroll_time_ := (UpdateWindow s env).last_scroll_time_
        lyric_scroll_pause_start_ := (UpdateWindow s env).lyric_scroll_pause_start_
        trans_scroll_pause_start_ := (UpdateWindow s env).trans_scroll_pause_start_
        lyric_scroll_speed_ := (UpdateWindow s env).lyric_scroll_speed_
        trans_scroll_speed_ := (UpdateWindow s env).trans_scroll_speed_
        play_pause_button_rect_ := (UpdateWindow s env).play_pause_button_rect_
        prev_button_rect_ := (UpdateWindow s env).prev_button_rect_
        next_button_rect_ := (UpdateWindow s env).next_button_rect_
        font_size_up_rect_ := (UpdateWindow s env).font_size_up_rect_
        font_size_down_rect_ := (UpdateWindow s env).font_size_down_rect_
        color_picker_rect_ := (UpdateWindow s env).color_picker_rect_
        translation_toggle_rect_ := (UpdateWindow s env).translation_toggle_rect_
        close_button_rect_ := (UpdateWindow s env).close_button_rect_
        timer2 := (UpdateWindow s env).timer2
        win_width := (UpdateWindow s env).win_width
        win_height := (UpdateWindow s env).win_height
        paints := (UpdateWindow s env).paints } := by
  by_cases h1 : s.hwnd_ = false
  · have e : UpdateWindow s env = s := by
      unfold UpdateWindow; rw [if_pos h1]
    rw [e]
  · obtain ⟨ch, e⟩ : ∃ ch, UpdateWindow s env =
        { DrawLyric s env kWindowWidth ch with
          win_width := kWindowWidth, win_height := ch,
          paints := (DrawLyric s env kWindowWidth ch).paints + 1 } := by
      unfold UpdateWindow; rw [if_neg h1]; exact ⟨_, rfl⟩
    rw [e, DrawLyric_frame]


/-- Invoking the callback only appends to the dispatch log. -/
theorem invokeCallback_eq (s : State) (a : String) :
    invokeCallback s a =
      { s with dispatched := if s.playback_callback_ = true then s.dispatched ++ [a] else s.dispatched } := by
  unfold invokeCallback
  split_ifs <;> rfl

/-- Method `HandleButtonClick` changes nothing but the dispatch log. -/
theorem HandleButtonClick_frame (s : State) (pt : POINT) :
    (HandleButtonClick s pt).1 = { s with dispatched := (HandleButtonClick s pt).1.dispatched } := by
  unfold HandleButtonClick
  split_ifs <;> simp only [invokeCallback_eq]

/-- A state that agrees with `s` on the lyric text and line is related to `s`. -/
theorem LyricKept_same (env : PaintEnv) (s s' : State)
    (ht : s'.lyric_text_ = s.lyric_text_) (h : lyricLine s' = lyricLine s) : LyricKept env s s' :=
  ⟨ht, Or.inl h⟩

/-- A repaint keeps the lyric text and moves the line through `scrollLine` or not at all. -/
theorem LyricKept_UpdateWindow (env : PaintEnv) (s s' : State)
    (ht : s'.lyric_text_ = s.lyric_text_) (h : lyricLine s' = lyricLine s) :
    LyricKept env s (UpdateWindow s' env) := by
  constructor
  · exact (congrArg State.lyric_text_ (UpdateWindow_frame s' env)).trans ht
  · show LineMoved env env.lyricWidth (lyricLine s) (lyricLine (UpdateWindow s' env))
    rw [UpdateWindow_lyricLine, h]
    split_ifs
    · exact Or.inr ⟨_, _, rfl⟩
    · exact Or.inl rfl

/-- The same for the conditional repaint at the end of a setter. -/
theorem LyricKept_maybe (env : PaintEnv) (s s' : State) (b : Bool)
    (ht : s'.lyric_text_ = s.lyric_text_) (h : lyricLine s' = lyricLine s) :
    LyricKept env s (if b = true then UpdateWindow s' env else s') := by
  cases b
  · simpa using LyricKept_same env s s' ht h
  · simpa using LyricKept_UpdateWindow env s s' ht h

/-- Effect of a window message on the lyric text and line. -/
theorem WndProc_LyricKept (s : State) (m : Message) (env : PaintEnv) :
    LyricKept env s (WndProc s m env) := by
  cases m with
  | WM_LBUTTONDOWN lparam =>
    have hf := HandleButtonClick_frame s ⟨LOWORD lparam, HIWORD lparam⟩
    have hl : lyricLine (HandleButtonClick s ⟨LOWORD lparam, HIWORD lparam⟩).1 = lyricLine s :=
      (congrArg lyricLine hf).trans rfl
    have ht : (HandleButtonClick s ⟨LOWORD lparam, HIWORD lparam⟩).1.lyric_text_ = s.lyric_text_ :=
      (congrArg State.lyric_text_ hf).trans rfl
    have key : ∀ (r : State × Bool) (p : POINT),
        r.1.lyric_text_ = s.lyric_text_ → lyricLine r.1 = lyricLine s →
        LyricKept env s (if (!r.2 && r.1.is_draggable_) = true then
          { r.1 with is_dragging_ := true, drag_point_ := p, captured := true } else r.1) := by
      intro r p h1 h2
      split_ifs
      · exact LyricKept_same env s _ h1 h2
      · exact LyricKept_same env s _ h1 h2
    refine key (if s.show_controls_ = true then HandleButtonClick s ⟨LOWORD lparam, HIWORD lparam⟩
      else (s, false)) _ ?_ ?_
    · split_ifs
      · exact ht
      · rfl
    · split_ifs
      · exact hl
      · rfl
  | WM_LBUTTONUP =>
    apply LyricKept_same <;> (unfold WndProc; simp only []; split_ifs <;> rfl)
  | WM_MOUSEMOVE lparam now =>
    apply LyricKept_same <;> (unfold WndProc; simp only []; split_ifs <;> rfl)
  | WM_MOUSELEAVE =>
    exact LyricKept_UpdateWindow env s _ rfl rfl
  | WM_TIMER wparam =>
    unfold WndProc
    simp only []
    split_ifs
    · exact LyricKept_UpdateWindow env s _ rfl rfl
    · exact LyricKept_UpdateWindow env s _ rfl rfl
    · exact LyricKept_same env s _ rfl rfl
    · exact LyricKept_same env s _ rfl rfl
  | WM_DESTROY => exact LyricKept_same env s _ rfl rfl
  | other => exact LyricKept_same env s _ rfl rfl

/-- Effect of a call that does not change the lyric text: the text stays and the line
moves through `scrollLine` or not at all. -/
theorem step_LyricKept (s : State) (c : Call) (env : PaintEnv)
    (hc : ∀ T now, c = Call.SetLyricText T now → T = s.lyric_text_) :
    LyricKept env s (step s c env) := by
  cases c with
  | Create w h ok =>
    apply LyricKept_same <;> (simp only [step, Create]; split_ifs <;> rfl)
  | Destroy =>
    apply LyricKept_same <;> (simp only [step, Destroy]; split_ifs <;> rfl)
  | Show =>
    simp only [step, Show]
    split_ifs
    · exact LyricKept_UpdateWindow env s s rfl rfl
    · exact LyricKept_same env s _ rfl rfl
  | Hide =>
    apply LyricKept_same <;> (simp only [step, Hide]; split_ifs <;> rfl)
  | SetLyricText text now =>
    have := hc text now rfl
    subst this
    simp only [step, SetLyricText, ne_eq, not_true_eq_false, if_false]
    exact LyricKept_maybe env s _ _ rfl rfl
  | SetTranslationText text now =>
    refine LyricKept_maybe env s _ _ ?_ ?_
    · by_cases h : s.translation_text_ = text
      · simp only [h, ne_eq, not_true_eq_false, if_false]
      · simp only [h, ne_eq, not_false_eq_true, if_true]
    · by_cases h : s.translation_text_ = text
      · simp only [h, ne_eq, not_true_eq_false, if_false]; rfl
      · simp only [h, ne_eq, not_false_eq_true, if_true]; rfl
  | SetLyricDuration d => exact LyricKept_same env s _ rfl rfl
  | SetPosition x y =>
    apply LyricKept_same <;> (simp only [step, SetPosition]; split_ifs <;> rfl)
  | SetFontSize size => exact LyricKept_maybe env s _ _ rfl rfl
  | SetTextColor c => exact LyricKept_maybe env s _ _ rfl rfl
  | SetStrokeColor c => exact LyricKept_maybe env s _ _ rfl rfl
  | SetStrokeWidth w => exact LyricKept_maybe env s _ _ rfl rfl
  | SetDraggable b => exact LyricKept_same env s _ rfl rfl
  | SetMouseTransparent b =>
    apply LyricKept_same <;> (simp only [step, SetMouseTransparent]; split_ifs <;> rfl)
  | SetSongInfo t a c => exact LyricKept_maybe env s _ _ rfl rfl
  | SetPlaybackControlCallback cb => exact LyricKept_same env s _ rfl rfl
  | SetPlayingState b => exact LyricKept_maybe env s _ _ rfl rfl
  | SetShowTranslation b => exact LyricKept_maybe env s _ _ rfl rfl
  | Window m =>
    simp only [step]
    split_ifs
    · exact WndProc_LyricKept s m env
    · exact LyricKept_same env s _ rfl rfl

/-- A state that agrees with `s` on the translation text and line is related to `s`. -/
theorem TransKept_same (env : PaintEnv) (s s' : State)
    (ht : s'.translation_text_ = s.translation_text_) (h : transLine s' = transLine s) : TransKept env s s' :=
  ⟨ht, Or.inl h⟩

/-- A repaint keeps the translation text and moves the line through `scrollLine` or not at all. -/
theorem TransKept_UpdateWindow (env : PaintEnv) (s s' : State)
    (ht : s'.translation_text_ = s.translation_text_) (h : transLine s' = transLine s) :
    TransKept env s (UpdateWindow s' env) := by
  constructor
  · exact (congrArg State.translation_text_ (UpdateWindow_frame s' env)).trans ht
  · show LineMoved env env.transWidth (transLine s) (transLine (UpdateWindow s' env))
    rw [UpdateWindow_transLine, h]
    split_ifs
    · exact Or.inr ⟨_, _, rfl⟩
    · exact Or.inl rfl

/-- The same for the conditional repaint at the end of a setter. -/
theorem TransKept_maybe (env : PaintEnv) (s s' : State) (b : Bool)
    (ht : s'.translation_text_ = s.translation_text_) (h : transLine s' = transLine s) :
    TransKept env s (if b = true then UpdateWindow s' env else s') := by
  cases b
  · simpa using TransKept_same env s s' ht h
  · simpa using TransKept_UpdateWindow env s s' ht h

/-- Effect of a window message on the translation text and line. -/
theorem WndProc_TransKept (s : State) (m : Message) (env : PaintEnv) :
    TransKept env s (WndProc s m env) := by
  cases m with
  | WM_LBUTTONDOWN lparam =>
    have hf := HandleButtonClick_frame s ⟨LOWORD lparam, HIWORD lparam⟩
    have hl : transLine (HandleButtonClick s ⟨LOWORD lparam, HIWORD lparam⟩).1 = transLine s :=
      (congrArg transLine hf).trans rfl
    have ht : (HandleButtonClick s ⟨LOWORD lparam, HIWORD lparam⟩).1.translation_text_ = s.translation_text_ :=
      (congrArg State.translation_text_ hf).trans rfl
    have key : ∀ (r : State × Bool) (p : POINT),
        r.1.translation_text_ = s.translation_text_ → transLine r.1 = transLine s →
        TransKept env s (if (!r.2 && r.1.is_draggable_) = true then
          { r.1 with is_dragging_ := true, drag_point_ := p, captured := true } else r.1) := by
      intro r p h1 h2
      split_ifs
      · exact TransKept_same env s _ h1 h2
      · exact TransKept_same env s _ h1 h2
    refine key (if s.show_controls_ = true then HandleButtonClick s ⟨LOWORD lparam, HIWORD lparam⟩
      else (s, false)) _ ?_ ?_
    · split_ifs
      · exact ht
      · rfl
    · split_ifs
      · exact hl
      · rfl
  | WM_LBUTTONUP =>
    apply TransKept_same <;> (unfold WndProc; simp only []; split_ifs <;> rfl)
  | WM_MOUSEMOVE lparam now =>
    apply TransKept_same <;> (unfold WndProc; simp only []; split_ifs <;> rfl)
  | WM_MOUSELEAVE =>
    exact TransKept_UpdateWindow env s _ rfl rfl
  | WM_TIMER wparam =>
    unfold WndProc
    simp only []
    split_ifs
    · exact TransKept_UpdateWindow env s _ rfl rfl
    · exact TransKept_UpdateWindow env s _ rfl rfl
    · exact TransKept_same env s _ rfl rfl
    · exact TransKept_same env s _ rfl rfl
  | WM_DESTROY => exact TransKept_same env s _ rfl rfl
  | other => exact TransKept_same env s _ rfl rfl

/-- Effect of a call that does not change the translation text: the text stays and the line
moves through `scrollLine` or not at all. -/
theorem step_TransKept (s : State) (c : Call) (env : PaintEnv)
    (hc : ∀ T now, c = Call.SetTranslationText T now → T = s.translation_text_) :
    TransKept env s (step s c env) := by
  cases c with
  | Create w h ok =>
    apply TransKept_same <;> (simp only [step, Create]; split_ifs <;> rfl)
  | Destroy =>
    apply TransKept_same <;> (simp only [step, Destroy]; split_ifs <;> rfl)
  | Show =>
    simp only [step, Show]
    split_ifs
    · exact TransKept_UpdateWindow env s s rfl rfl
    · exact TransKept_same env s _ rfl rfl
  | Hide =>
    apply TransKept_same <;> (simp only [step, Hide]; split_ifs <;> rfl)
  | SetTranslationText text now =>
    have := hc text now rfl
    subst this
    simp only [step, SetTranslationText, ne_eq, not_true_eq_false, if_false]
    exact TransKept_maybe env s _ _ rfl rfl
  | SetLyricText text now =>
    refine TransKept_maybe env s _ _ ?_ ?_
    · by_cases h : s.lyric_text_ = text
      · simp only [h, ne_eq, not_true_eq_false, if_false]
      · simp only [h, ne_eq, not_false_eq_true, if_true]
    · by_cases h : s.lyric_text_ = text
      · simp only [h, ne_eq, not_true_eq_false, if_false]; rfl
      · simp only [h, ne_eq, not_false_eq_true, if_true]; rfl
  | SetLyricDuration d => exact TransKept_same env s _ rfl rfl
  | SetPosition x y =>
    apply TransKept_same <;> (simp only [step, SetPosition]; split_ifs <;> rfl)
  | SetFontSize size => exact TransKept_maybe env s _ _ rfl rfl
  | SetTextColor c => exact TransKept_maybe env s _ _ rfl rfl
  | SetStrokeColor c => exact TransKept_maybe env s _ _ rfl rfl
  | SetStrokeWidth w => exact TransKept_maybe env s _ _ rfl rfl
  | SetDraggable b => exact TransKept_same env s _ rfl rfl
  | SetMouseTransparent b =>
    apply TransKept_same <;> (simp only [step, SetMouseTransparent]; split_ifs <;> rfl)
  | SetSongInfo t a c => exact TransKept_maybe env s _ _ rfl rfl
  | SetPlaybackControlCallback cb => exact TransKept_same env s _ rfl rfl
  | SetPlayingState b => exact TransKept_maybe env s _ _ rfl rfl
  | SetShowTranslation b => exact TransKept_maybe env s _ _ rfl rfl
  | Window m =>
    simp only [step]
    split_ifs
    · exact WndProc_TransKept s m env
    · exact TransKept_same env s _ rfl rfl

/-- A lyric text that differs from the current one restarts the primary line; the repaint
of a visible window then runs on the restarted line. -/
theorem SetLyricText_restart (s : State) (T : String) (now : Nat) (env : PaintEnv)
    (hT : T ≠ s.lyric_text_) :
    LineMoved env env.lyricWidth (resetLine now) (lyricLine (SetLyricText s T now env)) := by
  have hT2 : s.lyric_text_ ≠ T := fun h => hT h.symm
  unfold SetLyricText
  simp only [hT2, ne_eq, not_false_eq_true, if_true]
  have key : ∀ (b : Bool) (s' : State), lyricLine s' = resetLine now →
      LineMoved env env.lyricWidth (resetLine now)
        (lyricLine (if b = true then UpdateWindow s' env else s')) := by
    intro b s' h
    cases b
    · exact Or.inl (by simpa using h)
    · simp only [if_true]
      rw [UpdateWindow_lyricLine, h]
      split_ifs
      · exact Or.inr ⟨_, _, rfl⟩
      · exact Or.inl rfl
  exact key _ _ rfl

/-- A translation text that differs from the current one restarts the translation line. -/
theorem SetTranslationText_restart (s : State) (T : String) (now : Nat) (env : PaintEnv)
    (hT : T ≠ s.translation_text_) :
    LineMoved env env.transWidth (resetLine now) (transLine (SetTranslationText s T now env)) := by
  have hT2 : s.translation_text_ ≠ T := fun h => hT h.symm
  unfold SetTranslationText
  simp only [hT2, ne_eq, not_false_eq_true, if_true]
  have key : ∀ (b : Bool) (s' : State), transLine s' = resetLine now →
      LineMoved env env.transWidth (resetLine now)
        (transLine (if b = true then UpdateWindow s' env else s')) := by
    intro b s' h
    cases b
    · exact Or.inl (by simpa using h)
    · simp only [if_true]
      rw [UpdateWindow_transLine, h]
      split_ifs
      · exact Or.inr ⟨_, _, rfl⟩
      · exact Or.inl rfl
  exact key _ _ rfl


/-- The lyric width stored by a repaint. -/
theorem UpdateWindow_lyric_text_width (s : State) (env : PaintEnv) :
    (UpdateWindow s env).lyric_text_width_ =
      if s.hwnd_ = true ∧ s.show_controls_ = false ∧ s.lyric_text_ ≠ "" then env.lyricWidth
      else s.lyric_text_width_ := by
  by_cases h1 : s.hwnd_ = true <;> by_cases h2 : s.show_controls_ = true <;>
    by_cases h3 : s.lyric_text_ = "" <;>
    simp [UpdateWindow, DrawLyric, DrawControlPanel, h1, h2, h3, lyricScroll_eq,
      transScroll_eq, scrollTimer_eq]
  split_ifs <;> simp

/-- Setter `SetLyricText` with the current text is a repaint of a visible window and
nothing otherwise. -/
theorem SetLyricText_of_eq (s : State) (now : Nat) (env : PaintEnv) :
    SetLyricText s s.lyric_text_ now env =
      if IsVisible s = true then UpdateWindow s env else s := by
  simp [SetLyricText, IsVisible]

/-- Setter `SetLyricText` with a new text restarts the line and repaints a visible window. -/
theorem SetLyricText_of_ne (s : State) (T : String) (now : Nat) (env : PaintEnv)
    (hT : s.lyric_text_ ≠ T) :
    SetLyricText s T now env =
      if IsVisible (lyricRestarted s T now) = true then UpdateWindow (lyricRestarted s T now) env
      else lyricRestarted s T now := by
  unfold SetLyricText lyricRestarted
  simp only [hT, ne_eq, not_false_eq_true, if_true]

/-- Setter `SetTranslationText` with the current text is a repaint of a visible window and
nothing otherwise. -/
theorem SetTranslationText_of_eq (s : State) (now : Nat) (env : PaintEnv) :
    SetTranslationText s s.translation_text_ now env =
      if IsVisible s = true then UpdateWindow s env else s := by
  simp [SetTranslationText, IsVisible]

/-- Setter `SetTranslationText` with a new text restarts the line and repaints a visible
window. -/
theorem SetTranslationText_of_ne (s : State) (T : String) (now : Nat) (env : PaintEnv)
    (hT : s.translation_text_ ≠ T) :
    SetTranslationText s T now env =
      if IsVisible (transRestarted s T now) = true then UpdateWindow (transRestarted s T now) env
      else transRestarted s T now := by
  unfold SetTranslationText transRestarted
  simp only [hT, ne_eq, not_false_eq_true, if_true]

/-! ## C1: `SetLyricText` and the scroll state -/

/-- C1, counterexample.  In the visible window `scrollingWindow`, whose line is scrolling,
`SetLyricText` with the text already shown changes the lyric scroll offset (its repaint
advances the scroll), and `SetLyricText` with a different text ends with a non-zero cached
speed (its repaint derives the speed of the new line at once). -/
theorem SetLyricText_visible_counterexample :
    (SetLyricText scrollingWindow scrollingWindow.lyric_text_ 2500 (paintAt 2500 1200)).lyric_scroll_offset_
        ≠ scrollingWindow.lyric_scroll_offset_ ∧
    "other" ≠ scrollingWindow.lyric_text_ ∧
    (SetLyricText scrollingWindow "other" 2500 (paintAt 2500 1200)).lyric_scroll_speed_ ≠ 0 := by
  decide!

/-- C1, amended.  `SetLyricText(T)` with `T` the current text resets nothing: it is the
repaint of a visible window and changes nothing when the window is not visible.  So
offset, cached speed, pause start and needs-scroll flag (the `lyricLine`) and the
measured width are unchanged when the window is not visible, the panel is expanded or the
text is empty, and otherwise they are those after one ordinary frame: the scroll block run
once on the unchanged line, and the width measured by the repaint.

`SetLyricText(T')` with `T'` different from the current text stores offset 0, speed 0,
flag false, width 0, pause start `now` and the text (`lyricRestarted`), and then repaints a
visible window.  Afterwards the line is the restarted line when the window is not
visible, the panel is expanded or `T'` is empty, and the restarted line after one run of
the scroll block otherwise; the offset is 0 whenever the tick count read is not 0; and the
cached speed is 0 unless that repaint measures the new line wider than the viewport less
the padding, in which case it is the speed derived from the line duration. -/
theorem SetLyricText_scroll_state (s : State) (T : String) (now : Nat) (env : PaintEnv) :
    (T = s.lyric_text_ →
      SetLyricText s T now env = (if IsVisible s = true then UpdateWindow s env else s) ∧
      lyricLine (SetLyricText s T now env) =
        (if IsVisible s = true ∧ s.show_controls_ = false ∧ T ≠ "" then
          scrollLine env.lyricWidth kWindowWidth s.lyric_duration_ms_ env.currentTime
            s.last_scroll_time_ (lyricLine s)
        else lyricLine s) ∧
      (SetLyricText s T now env).lyric_text_width_ =
        (if IsVisible s = true ∧ s.show_controls_ = false ∧ T ≠ "" then env.lyricWidth
        else s.lyric_text_width_) ∧
      ((IsVisible s = false ∨ s.show_controls_ = true ∨ T = "") →
        (SetLyricText s T now env).lyric_scroll_offset_ = s.lyric_scroll_offset_ ∧
        (SetLyricText s T now env).lyric_scroll_speed_ = s.lyric_scroll_speed_ ∧
        (SetLyricText s T now env).lyric_needs_scroll_ = s.lyric_needs_scroll_ ∧
        (SetLyricText s T now env).lyric_text_width_ = s.lyric_text_width_ ∧
        (SetLyricText s T now env).lyric_scroll_pause_start_ =
          s.lyric_scroll_pause_start_)) ∧
    (T ≠ s.lyric_text_ →
      SetLyricText s T now env =
        (if IsVisible s = true then UpdateWindow (lyricRestarted s T now) env
        else lyricRestarted s T now) ∧
      lyricLine (lyricRestarted s T now) = ⟨0, 0, now, false⟩ ∧
      (lyricRestarted s T now).lyric_text_width_ = 0 ∧
      (lyricRestarted s T now).lyric_text_ = T ∧
      lyricLine (SetLyricText s T now env) =
        (if IsVisible s = true ∧ s.show_controls_ = false ∧ T ≠ "" then
          scrollLine env.lyricWidth kWindowWidth s.lyric_duration_ms_ env.currentTime
            s.last_scroll_time_ ⟨0, 0, now, false⟩
        else ⟨0, 0, now, false⟩) ∧
      (0 < now → (SetLyricText s T now env).lyric_scroll_offset_ = 0) ∧
      ((IsVisible s = false ∨ s.show_controls_ = true ∨ T = "") →
        (SetLyricText s T now env).lyric_scroll_offset_ = 0 ∧
        (SetLyricText s T now env).lyric_scroll_speed_ = 0) ∧
      (SetLyricText s T now env).lyric_scroll_speed_ =
        (if IsVisible s = true ∧ s.show_controls_ = false ∧ T ≠ "" ∧
            env.lyricWidth > (kWindowWidth : ℚ) - 40 then
          speedNow s.lyric_duration_ms_ (env.lyricWidth - (kWindowWidth : ℚ) + 40) 0
        else 0)) := by
  -- the repaint at the end of the setter, on the state `u` the assignments leave
  have paint : ∀ u : State,
      lyricLine (if IsVisible u = true then UpdateWindow u env else u) =
        (if IsVisible u = true ∧ u.show_controls_ = false ∧ u.lyric_text_ ≠ "" then
          scrollLine env.lyricWidth kWindowWidth u.lyric_duration_ms_ env.currentTime
            u.last_scroll_time_ (lyricLine u)
        else lyricLine u) ∧
      (if IsVisible u = true then UpdateWindow u env else u).lyric_text_width_ =
        (if IsVisible u = true ∧ u.show_controls_ = false ∧ u.lyric_text_ ≠ "" then
          env.lyricWidth
        else u.lyric_text_width_) := by
    intro u
    by_cases hv : IsVisible u = true
    · have hh : u.hwnd_ = true := by
        unfold IsVisible at hv
        simp only [Bool.and_eq_true] at hv
        exact hv.1
      rw [if_pos hv, UpdateWindow_lyricLine, UpdateWindow_lyric_text_width]
      by_cases hq : u.show_controls_ = false ∧ u.lyric_text_ ≠ ""
      · rw [if_pos ⟨hh, hq⟩, if_pos ⟨hv, hq⟩, if_pos ⟨hh, hq⟩, if_pos ⟨hv, hq⟩]
        exact ⟨rfl, rfl⟩
      · rw [if_neg (fun h => hq h.2), if_neg (fun h => hq h.2), if_neg (fun h => hq h.2),
          if_neg (fun h => hq h.2)]
        exact ⟨rfl, rfl⟩
    · rw [if_neg hv, if_neg (fun h => hv h.1), if_neg (fun h => hv h.1)]
      exact ⟨rfl, rfl⟩
  have guard : ∀ u : State, (IsVisible u = false ∨ u.show_controls_ = true ∨ u.lyric_text_ = "") →
      ¬ (IsVisible u = true ∧ u.show_controls_ = false ∧ u.lyric_text_ ≠ "") := by
    rintro u hu ⟨h1, h2, h3⟩
    rcases hu with h | h | h
    · rw [h] at h1; cases h1
    · rw [h] at h2; cases h2
    · exact h3 h
  constructor
  · intro hT
    subst hT
    have e := SetLyricText_of_eq s now env
    obtain ⟨hl, hw⟩ := paint s
    rw [← e] at hl hw
    refine ⟨e, hl, hw, fun hq => ?_⟩
    rw [if_neg (guard s hq)] at hl hw
    exact ⟨congrArg Line.offset hl, congrArg Line.speed hl, congrArg Line.needs_scroll hl, hw,
      congrArg Line.pause_start hl⟩
  · intro hT
    have hT2 : s.lyric_text_ ≠ T := fun h => hT h.symm
    have e : SetLyricText s T now env =
        (if IsVisible s = true then UpdateWindow (lyricRestarted s T now) env
        else lyricRestarted s T now) := SetLyricText_of_ne s T now env hT2
    have hl : lyricLine (SetLyricText s T now env) =
        (if IsVisible s = true ∧ s.show_controls_ = false ∧ T ≠ "" then
          scrollLine env.lyricWidth kWindowWidth s.lyric_duration_ms_ env.currentTime
            s.last_scroll_time_ ⟨0, 0, now, false⟩
        else ⟨0, 0, now, false⟩) := by
      rw [e]
      exact (paint (lyricRestarted s T now)).1
    refine ⟨e, rfl, rfl, rfl, hl, fun hnow => ?_, fun hq => ?_, ?_⟩
    · have := congrArg Line.offset hl
      refine this.trans ?_
      split_ifs
      · exact scrollLine_offset_paused _ _ _ _ _ _ hnow
      · rfl
    · have hg : ¬ (IsVisible s = true ∧ s.show_controls_ = false ∧ T ≠ "") :=
        guard (lyricRestarted s T now) hq
      rw [if_neg hg] at hl
      exact ⟨congrArg Line.offset hl, congrArg Line.speed hl⟩
    · have := congrArg Line.speed hl
      refine this.trans ?_
      by_cases hq : IsVisible s = true ∧ s.show_controls_ = false ∧ T ≠ ""
      · rw [if_pos hq, scrollLine_speed]
        by_cases hwd : env.lyricWidth > (kWindowWidth : ℚ) - 40
        · rw [if_pos hwd, if_pos ⟨hq.1, hq.2.1, hq.2.2, hwd⟩]
        · rw [if_neg hwd, if_neg (fun h => hwd h.2.2.2)]
      · rw [if_neg hq, if_neg (fun h => hq ⟨h.1, h.2.1, h.2.2.1⟩)]


/-- C1, witness: the amended statement at the visible window `scrollingWindow`, whose line
is scrolling at 200 px/s since tick 1500.  Setting the text already shown at tick 2500 is
one frame (offset 200, speed kept); setting another text leaves offset 0 and pause start
2500, with the speed of the new line (440 / 2.2 = 200) already derived. -/
theorem SetLyricText_scroll_state_witness :
    ("la la la" = scrollingWindow.lyric_text_ ∧
      lyricLine (SetLyricText scrollingWindow "la la la" 2500 (paintAt 2500 1200)) =
        (if IsVisible scrollingWindow = true ∧ scrollingWindow.show_controls_ = false ∧
            "la la la" ≠ "" then
          scrollLine (paintAt 2500 1200).lyricWidth kWindowWidth
            scrollingWindow.lyric_duration_ms_ (paintAt 2500 1200).currentTime
            scrollingWindow.last_scroll_time_ (lyricLine scrollingWindow)
        else lyricLine scrollingWindow) ∧
      lyricLine (SetLyricText scrollingWindow "la la la" 2500 (paintAt 2500 1200)) =
        ⟨200, 200, 0, true⟩) ∧
    ("other" ≠ scrollingWindow.lyric_text_ ∧
      lyricLine (SetLyricText scrollingWindow "other" 2500 (paintAt 2500 1200)) =
        (if IsVisible scrollingWindow = true ∧ scrollingWindow.show_controls_ = false ∧
            "other" ≠ "" then
          scrollLine (paintAt 2500 1200).lyricWidth kWindowWidth
            scrollingWindow.lyric_duration_ms_ (paintAt 2500 1200).currentTime
            scrollingWindow.last_scroll_time_ ⟨0, 0, 2500, false⟩
        else ⟨0, 0, 2500, false⟩) ∧
      lyricLine (SetLyricText scrollingWindow "other" 2500 (paintAt 2500 1200)) =
        ⟨0, 200, 2500, true⟩) ∧
    ((SetLyricText construct "la" 7 (paintAt 7 1200)).lyric_scroll_offset_ = 0 ∧
      (SetLyricText construct "la" 7 (paintAt 7 1200)).lyric_scroll_speed_ = 0) :=
  ⟨⟨by decide!,
    ((SetLyricText_scroll_state scrollingWindow "la la la" 2500 (paintAt 2500 1200)).1
      (by decide!)).2.1, by decide!⟩,
   ⟨by decide!,
    ((SetLyricText_scroll_state scrollingWindow "other" 2500 (paintAt 2500 1200)).2
      (by decide!)).2.2.2.2.1, by decide!⟩,
   ((SetLyricText_scroll_state construct "la" 7 (paintAt 7 1200)).2
      (by decide)).2.2.2.2.2.2.1 (Or.inl rfl)⟩

/-! ## C2: monotonicity and range of the scroll offset -/

/-- A line that moved did not leave the scroll range of the measured width. -/
theorem LineMoved_offset_bound {env : PaintEnv} {w : ℚ} {l l' : Line}
    (h : LineMoved env w l l') (hb : l.offset ≤ max 0 (w - (kWindowWidth : ℚ) + 40)) :
    l'.offset ≤ max 0 (w - (kWindowWidth : ℚ) + 40) := by
  rcases h with h | ⟨dur, last, h⟩
  · rw [h]; exact hb
  · rw [h]
    exact le_trans (scrollLine_offset_le _ _ _ _ _ _) (max_le hb (le_refl _))

/-- Whatever the call, the primary line afterwards is the old line or the restarted line,
moved by at most one run of the scroll block. -/
theorem step_lyricLine_cases (s : State) (c : Call) (env : PaintEnv) :
    LineMoved env env.lyricWidth (lyricLine s) (lyricLine (step s c env)) ∨
      ∃ now, LineMoved env env.lyricWidth (resetLine now) (lyricLine (step s c env)) := by
  by_cases hc : ∀ T now, c = Call.SetLyricText T now → T = s.lyric_text_
  · exact Or.inl (step_LyricKept s c env hc).2
  · push_neg at hc
    obtain ⟨T, now, rfl, hT⟩ := hc
    exact Or.inr ⟨now, SetLyricText_restart s T now env hT⟩

/-- The same for the translation line. -/
theorem step_transLine_cases (s : State) (c : Call) (env : PaintEnv) :
    LineMoved env env.transWidth (transLine s) (transLine (step s c env)) ∨
      ∃ now, LineMoved env env.transWidth (resetLine now) (transLine (step s c env)) := by
  by_cases hc : ∀ T now, c = Call.SetTranslationText T now → T = s.translation_text_
  · exact Or.inl (step_TransKept s c env hc).2
  · push_neg at hc
    obtain ⟨T, now, rfl, hT⟩ := hc
    exact Or.inr ⟨now, SetTranslationText_restart s T now env hT⟩

/-- No call moves the lyric offset out of the scroll range of the width its repaint
measures. -/
theorem step_lyric_offset_in_range (s : State) (c : Call) (env : PaintEnv)
    (hb : s.lyric_scroll_offset_ ≤ max 0 (env.lyricWidth - (kWindowWidth : ℚ) + 40)) :
    (step s c env).lyric_scroll_offset_ ≤ max 0 (env.lyricWidth - (kWindowWidth : ℚ) + 40) := by
  rcases step_lyricLine_cases s c env with h | ⟨now, h⟩
  · exact LineMoved_offset_bound h hb
  · exact LineMoved_offset_bound h (le_max_left _ _)

/-- While every repaint measures the lyric at the same width, the offset stays inside the
scroll range of that width, from any state that is inside it. -/
theorem scroll_offset_in_range_of_const_width (Tw : ℚ) :
    ∀ (cs : List (Call × PaintEnv)) (s : State),
      s.lyric_scroll_offset_ ≤ max 0 (Tw - (kWindowWidth : ℚ) + 40) →
      (∀ p ∈ cs, p.2.lyricWidth = Tw) →
      ∀ u ∈ trace s cs, u.lyric_scroll_offset_ ≤ max 0 (Tw - (kWindowWidth : ℚ) + 40) := by
  intro cs
  induction cs with
  | nil => intro s _ _ u hu; cases hu
  | cons p rest ih =>
    intro s hs hw u hu
    obtain ⟨c, env⟩ := p
    have he : env.lyricWidth = Tw := hw (c, env) (List.mem_cons_self _ _)
    have h1 : (step s c env).lyric_scroll_offset_ ≤ max 0 (Tw - (kWindowWidth : ℚ) + 40) := by
      have := step_lyric_offset_in_range s c env
      rw [he] at this
      exact this hs
    simp only [trace, List.mem_cons] at hu
    rcases hu with rfl | hu
    · exact h1
    · exact ih (step s c env) h1 (fun q hq => hw q (List.mem_cons_of_mem _ hq)) u hu

/-- Effect of `DrawLyric` on the primary line, for any viewport width. -/
theorem DrawLyric_lyricLine (s : State) (env : PaintEnv) (w h : Int) :
    lyricLine (DrawLyric s env w h) =
      if s.show_controls_ = false ∧ s.lyric_text_ ≠ "" then
        scrollLine env.lyricWidth w s.lyric_duration_ms_ env.currentTime
          s.last_scroll_time_ (lyricLine s)
      else lyricLine s := by
  by_cases h2 : s.show_controls_ = true <;> by_cases h3 : s.lyric_text_ = "" <;>
    simp [DrawLyric, DrawControlPanel, lyricLine, h2, h3, lyricScroll_eq,
      transScroll_eq, scrollTimer_eq]
  split_ifs <;> simp

/-- Effect of `DrawLyric` on the translation line, for any viewport width. -/
theorem DrawLyric_transLine (s : State) (env : PaintEnv) (w h : Int) :
    transLine (DrawLyric s env w h) =
      if s.show_controls_ = false ∧ s.lyric_text_ ≠ "" ∧
          s.show_translation_ = true ∧ s.translation_text_ ≠ "" then
        scrollLine env.transWidth w s.lyric_duration_ms_ env.currentTime
          s.last_scroll_time_ (transLine s)
      else transLine s := by
  by_cases h2 : s.show_controls_ = true <;>
    by_cases h3 : s.lyric_text_ = "" <;> by_cases h4 : s.show_translation_ = true <;>
    by_cases h5 : s.translation_text_ = "" <;>
    simp [DrawLyric, DrawControlPanel, transLine, h2, h3, h4, h5, lyricScroll_eq,
      transScroll_eq, scrollTimer_eq]

/-- A line that moved and does not need scrolling afterwards kept its offset. -/
theorem LineMoved_offset_idle {env : PaintEnv} {w : ℚ} {l l' : Line}
    (h : LineMoved env w l l') (hn : l'.needs_scroll = false) : l'.offset = l.offset := by
  rcases h with h | ⟨dur, last, h⟩
  · rw [h]
  · have hw : ¬ w > ((kWindowWidth : Int) : ℚ) - 40 := by
      intro hgt
      rw [h, scrollLine_needs] at hn
      simp [hgt] at hn
    rw [h, scrollLine_idle _ _ _ _ _ _ hw]

/-- A call after which the primary line does not need scrolling leaves a zero offset at
zero. -/
theorem step_lyric_offset_zero (s : State) (c : Call) (env : PaintEnv)
    (h0 : s.lyric_scroll_offset_ = 0) (hn : (step s c env).lyric_needs_scroll_ = false) :
    (step s c env).lyric_scroll_offset_ = 0 := by
  rcases step_lyricLine_cases s c env with h | ⟨now, h⟩
  · exact (LineMoved_offset_idle h hn).trans h0
  · exact LineMoved_offset_idle h hn

/-- The same for the translation line. -/
theorem step_trans_offset_zero (s : State) (c : Call) (env : PaintEnv)
    (h0 : s.trans_scroll_offset_ = 0) (hn : (step s c env).trans_needs_scroll_ = false) :
    (step s c env).trans_scroll_offset_ = 0 := by
  rcases step_transLine_cases s c env with h | ⟨now, h⟩
  · exact (LineMoved_offset_idle h hn).trans h0
  · exact LineMoved_offset_idle h hn

/-- From a zero offset, a run in which the primary line never needs scrolling keeps the
offset at zero. -/
theorem trace_lyric_offset_zero :
    ∀ (cs : List (Call × PaintEnv)) (s : State), s.lyric_scroll_offset_ = 0 →
      (∀ u ∈ trace s cs, u.lyric_needs_scroll_ = false) →
      ∀ u ∈ trace s cs, u.lyric_scroll_offset_ = 0 := by
  intro cs
  induction cs with
  | nil => intro s _ _ u hu; cases hu
  | cons p rest ih =>
    intro s h0 hn u hu
    obtain ⟨c, env⟩ := p
    have h1 : (step s c env).lyric_scroll_offset_ = 0 :=
      step_lyric_offset_zero s c env h0 (hn _ (List.mem_cons_self _ _))
    simp only [trace, List.mem_cons] at hu
    rcases hu with rfl | hu
    · exact h1
    · exact ih (step s c env) h1 (fun v hv => hn v (List.mem_cons_of_mem _ hv)) u hu

/-- From a zero offset, a run in which the translation line never needs scrolling keeps
the offset at zero. -/
theorem trace_trans_offset_zero :
    ∀ (cs : List (Call × PaintEnv)) (s : State), s.trans_scroll_offset_ = 0 →
      (∀ u ∈ trace s cs, u.trans_needs_scroll_ = false) →
      ∀ u ∈ trace s cs, u.trans_scroll_offset_ = 0 := by
  intro cs
  induction cs with
  | nil => intro s _ _ u hu; cases hu
  | cons p rest ih =>
    intro s h0 hn u hu
    obtain ⟨c, env⟩ := p
    have h1 : (step s c env).trans_scroll_offset_ = 0 :=
      step_trans_offset_zero s c env h0 (hn _ (List.mem_cons_self _ _))
    simp only [trace, List.mem_cons] at hu
    rcases hu with rfl | hu
    · exact h1
    · exact ih (step s c env) h1 (fun v hv => hn v (List.mem_cons_of_mem _ hv)) u hu

/-- C3.  A compact-mode repaint that measures the lyric (panel collapsed, text not empty)
sets `lyric_needs_scroll_` to true exactly when `Tw > W - 40`; the same for the translation
line when it is drawn.  And after `SetLyricText` (resp. `SetTranslationText`) with a new
text, if the line's flag is false after that call and after every later call, then the
line's scroll offset is 0 after each of them. -/
theorem needs_scroll_iff_and_idle_offset :
    (∀ (s : State) (env : PaintEnv) (W h : Int),
      s.show_controls_ = false → s.lyric_text_ ≠ "" →
      ((DrawLyric s env W h).lyric_needs_scroll_ = true ↔ env.lyricWidth > (W : ℚ) - 40)) ∧
    (∀ (s : State) (env : PaintEnv) (W h : Int),
      s.show_controls_ = false → s.lyric_text_ ≠ "" →
      s.show_translation_ = true → s.translation_text_ ≠ "" →
      ((DrawLyric s env W h).trans_needs_scroll_ = true ↔ env.transWidth > (W : ℚ) - 40)) ∧
    (∀ (s : State) (T : String) (now : Nat) (env : PaintEnv) (cs : List (Call × PaintEnv)),
      T ≠ s.lyric_text_ →
      (∀ u ∈ trace s ((Call.SetLyricText T now, env) :: cs), u.lyric_needs_scroll_ = false) →
      ∀ u ∈ trace s ((Call.SetLyricText T now, env) :: cs), u.lyric_scroll_offset_ = 0) ∧
    (∀ (s : State) (T : String) (now : Nat) (env : PaintEnv) (cs : List (Call × PaintEnv)),
      T ≠ s.translation_text_ →
      (∀ u ∈ trace s ((Call.SetTranslationText T now, env) :: cs),
        u.trans_needs_scroll_ = false) →
      ∀ u ∈ trace s ((Call.SetTranslationText T now, env) :: cs),
        u.trans_scroll_offset_ = 0) := by
  refine ⟨?_, ?_, ?_, ?_⟩
  · intro s env W h hc ht
    have := congrArg Line.needs_scroll (DrawLyric_lyricLine s env W h)
    rw [if_pos ⟨hc, ht⟩, scrollLine_needs] at this
    show (lyricLine (DrawLyric s env W h)).needs_scroll = true ↔ _
    rw [this]; simp
  · intro s env W h hc ht hs htr
    have := congrArg Line.needs_scroll (DrawLyric_transLine s env W h)
    rw [if_pos ⟨hc, ht, hs, htr⟩, scrollLine_needs] at this
    show (transLine (DrawLyric s env W h)).needs_scroll = true ↔ _
    rw [this]; simp
  · intro s T now env cs hT hn u hu
    have h1 : (step s (Call.SetLyricText T now) env).lyric_scroll_offset_ = 0 :=
      LineMoved_offset_idle (SetLyricText_restart s T now env hT)
        (hn _ (List.mem_cons_self _ _))
    simp only [trace, List.mem_cons] at hu
    rcases hu with rfl | hu
    · exact h1
    · exact trace_lyric_offset_zero cs _ h1
        (fun v hv => hn v (List.mem_cons_of_mem _ hv)) u hu
  · intro s T now env cs hT hn u hu
    have h1 : (step s (Call.SetTranslationText T now) env).trans_scroll_offset_ = 0 :=
      LineMoved_offset_idle (SetTranslationText_restart s T now env hT)
        (hn _ (List.mem_cons_self _ _))
    simp only [trace, List.mem_cons] at hu
    rcases hu with rfl | hu
    · exact h1
    · exact trace_trans_offset_zero cs _ h1
        (fun v hv => hn v (List.mem_cons_of_mem _ hv)) u hu

/-- C3, witness: the statement at the scrolling window, for a wide lyric, a wide
translation, and short texts that never need scrolling. -/
theorem needs_scroll_iff_and_idle_offset_witness :
    ((DrawLyric scrollingWindow (paintAt 2000 1200) 800 100).lyric_needs_scroll_ = true ↔
      (paintAt 2000 1200).lyricWidth > ((800 : Int) : ℚ) - 40) ∧
    ((DrawLyric bilingualWindow ⟨2000, 1200, 900⟩ 800 129).trans_needs_scroll_ = true ↔
      (⟨2000, 1200, 900⟩ : PaintEnv).transWidth > ((800 : Int) : ℚ) - 40) ∧
    (∀ u ∈ trace scrollingWindow
        [(Call.SetLyricText "short" 5000, paintAt 5000 300),
         (Call.Window (Message.WM_TIMER 2), paintAt 5030 300)],
      u.lyric_scroll_offset_ = 0) ∧
    (∀ u ∈ trace scrollingWindow
        [(Call.SetTranslationText "tr" 1600, ⟨1600, 1200, 300⟩),
         (Call.Window (Message.WM_TIMER 2), ⟨1630, 1200, 300⟩)],
      u.trans_scroll_offset_ = 0) :=
  ⟨needs_scroll_iff_and_idle_offset.1 scrollingWindow (paintAt 2000 1200) 800 100
      (by decide!) (by decide!),
   needs_scroll_iff_and_idle_offset.2.1 bilingualWindow ⟨2000, 1200, 900⟩ 800 129
      (by decide!) (by decide!) (by decide!) (by decide!),
   needs_scroll_iff_and_idle_offset.2.2.1 scrollingWindow "short" 5000 (paintAt 5000 300)
      [(Call.Window (Message.WM_TIMER 2), paintAt 5030 300)] (by decide!) (by decide!),
   needs_scroll_iff_and_idle_offset.2.2.2 scrollingWindow "tr" 1600 ⟨1600, 1200, 300⟩
      [(Call.Window (Message.WM_TIMER 2), ⟨1630, 1200, 300⟩)] (by decide!) (by decide!)⟩

/-! ## C4: the cached speed -/

/-- A line that moved with a positive cached speed kept that speed. -/
theorem LineMoved_speed_keep {env : PaintEnv} {w : ℚ} {l l' : Line}
    (h : LineMoved env w l l') (hv : 0 < l.speed) : l'.speed = l.speed := by
  rcases h with h | ⟨dur, last, h⟩
  · rw [h]
  · rw [h, scrollLine_speed]
    split_ifs
    · exact speedNow_keep _ _ _ hv
    · rfl

/-- Across calls that keep the lyric text, a positive cached lyric speed is unchanged. -/
theorem trace_lyric_speed_keep :
    ∀ (cs : List (Call × PaintEnv)) (s : State), 0 < s.lyric_scroll_speed_ →
      (∀ p ∈ cs, ∀ T now, p.1 = Call.SetLyricText T now → T = s.lyric_text_) →
      ∀ u ∈ trace s cs, u.lyric_scroll_speed_ = s.lyric_scroll_speed_ := by
  intro cs
  induction cs with
  | nil => intro s _ _ u hu; cases hu
  | cons p rest ih =>
    intro s hv hc u hu
    obtain ⟨c, env⟩ := p
    have hk := step_LyricKept s c env (fun T now h => hc (c, env) (List.mem_cons_self _ _) T now h)
    have h1 : (step s c env).lyric_scroll_speed_ = s.lyric_scroll_speed_ :=
      LineMoved_speed_keep hk.2 hv
    simp only [trace, List.mem_cons] at hu
    rcases hu with rfl | hu
    · exact h1
    · rw [← h1]
      refine ih (step s c env) (by rw [h1]; exact hv) ?_ u hu
      intro q hq T now h
      rw [hk.1]
      exact hc q (List.mem_cons_of_mem _ hq) T now h

/-- Across calls that keep the translation text, a positive cached translation speed is
unchanged. -/
theorem trace_trans_speed_keep :
    ∀ (cs : List (Call × PaintEnv)) (s : State), 0 < s.trans_scroll_speed_ →
      (∀ p ∈ cs, ∀ T now, p.1 = Call.SetTranslationText T now → T = s.translation_text_) →
      ∀ u ∈ trace s cs, u.trans_scroll_speed_ = s.trans_scroll_speed_ := by
  intro cs
  induction cs with
  | nil => intro s _ _ u hu; cases hu
  | cons p rest ih =>
    intro s hv hc u hu
    obtain ⟨c, env⟩ := p
    have hk := step_TransKept s c env (fun T now h => hc (c, env) (List.mem_cons_self _ _) T now h)
    have h1 : (step s c env).trans_scroll_speed_ = s.trans_scroll_speed_ :=
      LineMoved_speed_keep hk.2 hv
    simp only [trace, List.mem_cons] at hu
    rcases hu with rfl | hu
    · exact h1
    · rw [← h1]
      refine ih (step s c env) (by rw [h1]; exact hv) ?_ u hu
      intro q hq T now h
      rw [hk.1]
      exact hc q (List.mem_cons_of_mem _ hq) T now h

/-- C4.  Once the lyric scroll speed of a line is derived (positive), it is the same after
every later call, whatever the ticks and measured widths of the repaints, as long as no
`SetLyricText` with a different text occurs; likewise for the translation speed and
`SetTranslationText`. -/
theorem cached_speed_stable (s : State) (cs : List (Call × PaintEnv)) :
    (0 < s.lyric_scroll_speed_ →
      (∀ p ∈ cs, ∀ T now, p.1 = Call.SetLyricText T now → T = s.lyric_text_) →
      ∀ u ∈ trace s cs, u.lyric_scroll_speed_ = s.lyric_scroll_speed_) ∧
    (0 < s.trans_scroll_speed_ →
      (∀ p ∈ cs, ∀ T now, p.1 = Call.SetTranslationText T now → T = s.translation_text_) →
      ∀ u ∈ trace s cs, u.trans_scroll_speed_ = s.trans_scroll_speed_) :=
  ⟨trace_lyric_speed_keep cs s, trace_trans_speed_keep cs s⟩

/-- C4, witness: the speeds 200 px/s and 700/11 px/s derived in `bilingualWindow` survive a
font-size change, frames at irregular ticks and a repeated `SetLyricText` of the same
text. -/
theorem cached_speed_stable_witness :
    (∀ u ∈ trace bilingualWindow bilingualFrames,
      u.lyric_scroll_speed_ = bilingualWindow.lyric_scroll_speed_) ∧
    (∀ u ∈ trace bilingualWindow bilingualFrames,
      u.trans_scroll_speed_ = bilingualWindow.trans_scroll_speed_) :=
  ⟨(cached_speed_stable bilingualWindow bilingualFrames).1 (by decide!)
      (by
        intro p hp T now h
        simp only [bilingualFrames, List.mem_cons, List.mem_singleton, List.not_mem_nil,
          or_false] at hp
        rcases hp with rfl | rfl | rfl | rfl | rfl <;> dsimp only at h <;> cases h
        decide!),
   (cached_speed_stable bilingualWindow bilingualFrames).2 (by decide!)
      (by
        intro p hp T now h
        simp only [bilingualFrames, List.mem_cons, List.mem_singleton, List.not_mem_nil,
          or_false] at hp
        rcases hp with rfl | rfl | rfl | rfl | rfl <;> dsimp only at h <;> cases h)⟩


/-! ## C5: the 3000 ms / 1200 px / 800 px scenario -/

/-- The frame time stored by a repaint that measures. -/
theorem DrawLyric_last_scroll_time (s : State) (env : PaintEnv) (w h : Int)
    (hc : s.show_controls_ = false) (ht : s.lyric_text_ ≠ "") :
    (DrawLyric s env w h).last_scroll_time_ = env.currentTime := by
  have h2 : ¬ s.show_controls_ = true := by simp [hc]
  by_cases h4 : (s.show_translation_ && decide (s.translation_text_ ≠ "")) = true
  · have e : DrawLyric s env w h =
        scrollTimer (transScroll { lyricScroll { s with lyric_text_width_ := env.lyricWidth }
          env.currentTime w with trans_text_width_ := env.transWidth } env.currentTime w)
          env.currentTime w := by
      unfold DrawLyric; rw [if_neg h2, if_neg ht]; simp only [h4, if_true]
    rw [e, scrollTimer_eq]
  · have e : DrawLyric s env w h =
        scrollTimer (lyricScroll { s with lyric_text_width_ := env.lyricWidth }
          env.currentTime w) env.currentTime w := by
      unfold DrawLyric; rw [if_neg h2, if_neg ht]; simp only [h4]; rfl
    rw [e, scrollTimer_eq]

/-- C5, counterexample.  In the scenario (duration 3000 ms, lyric measured 1200 px, window
800 px wide, text set at tick 1000, pause ended by the repaint at tick 1500) the derived
speed is not 760/2.2 px/s, and after 1000 ms of motion the offset is not 760/2.2 px. -/
theorem scenario_speed_is_not_760_over_2_2 :
    scrollingWindow.lyric_duration_ms_ = 3000 ∧
    scrollingWindow.lyric_text_width_ = 1200 ∧
    scrollingWindow.win_width = 800 ∧
    scrollingWindow.lyric_scroll_speed_ ≠ 760 / (22 / 10) ∧
    (step scrollingWindow (Call.Window (Message.WM_TIMER 2))
      (paintAt 2500 1200)).lyric_scroll_offset_ ≠ 760 / (22 / 10) := by
  decide!

/-- C5, amended.  With line duration 3000 ms, measured lyric width 1200 px, viewport width
800 px and the 500 ms pause, the scroll range is 1200 - 800 + 40 = 440 px and the available
time 3000 * 0.9 - 500 = 2200 ms; the repaint derives the speed 440 / 2.2 = 200 px/s; the
repaint that finds the pause elapsed ends it without moving, and the repaint 1000 ms later
has offset 200 px, below 440 and therefore not clamped. -/
theorem scenario_3000_1200_800 (s : State) (tp : Nat) (tw1 tw2 : ℚ) (h1 h2 : Int)
    (hc : s.show_controls_ = false) (ht : s.lyric_text_ ≠ "")
    (hd : s.lyric_duration_ms_ = 3000)
    (hs : s.lyric_scroll_speed_ = 0) (ho : s.lyric_scroll_offset_ = 0)
    (hp : 0 < s.lyric_scroll_pause_start_)
    (hdw : kScrollPauseMs ≤ dwordSub tp s.lyric_scroll_pause_start_) :
    (1200 : ℚ) - ((800 : Int) : ℚ) + 40 = 440 ∧
    ((3000 : Nat) : ℚ) * (9 / 10) - (kScrollPauseMs : ℚ) = 2200 ∧
    (DrawLyric s ⟨tp, 1200, tw1⟩ 800 h1).lyric_scroll_speed_ = 200 ∧
    (DrawLyric s ⟨tp, 1200, tw1⟩ 800 h1).lyric_scroll_pause_start_ = 0 ∧
    (DrawLyric s ⟨tp, 1200, tw1⟩ 800 h1).lyric_scroll_offset_ = 0 ∧
    (DrawLyric (DrawLyric s ⟨tp, 1200, tw1⟩ 800 h1) ⟨tp + 1000, 1200, tw2⟩ 800
      h2).lyric_scroll_offset_ = 200 ∧
    (DrawLyric (DrawLyric s ⟨tp, 1200, tw1⟩ 800 h1) ⟨tp + 1000, 1200, tw2⟩ 800
      h2).lyric_scroll_offset_ < 1200 - ((800 : Int) : ℚ) + 40 := by
  have hl1 : lyricLine (DrawLyric s ⟨tp, 1200, tw1⟩ 800 h1) = ⟨0, 200, 0, true⟩ := by
    rw [DrawLyric_lyricLine, if_pos ⟨hc, ht⟩]
    have hp' : s.lyric_scroll_pause_start_ ≠ 0 := Nat.pos_iff_ne_zero.mp hp
    simp only [scrollLine, lyricLine, speedNow, hd, hs, ho, kScrollPauseMs] at hdw ⊢
    norm_num [hp, hdw]
  have f1 := DrawLyric_frame s ⟨tp, 1200, tw1⟩ 800 h1
  have hc1 : (DrawLyric s ⟨tp, 1200, tw1⟩ 800 h1).show_controls_ = false :=
    (congrArg State.show_controls_ f1).trans hc
  have ht1 : (DrawLyric s ⟨tp, 1200, tw1⟩ 800 h1).lyric_text_ ≠ "" := by
    rw [(congrArg State.lyric_text_ f1).trans rfl]; exact ht
  have hd1 : (DrawLyric s ⟨tp, 1200, tw1⟩ 800 h1).lyric_duration_ms_ = 3000 :=
    (congrArg State.lyric_duration_ms_ f1).trans hd
  have hlast : (DrawLyric s ⟨tp, 1200, tw1⟩ 800 h1).last_scroll_time_ = tp :=
    DrawLyric_last_scroll_time s _ 800 h1 hc ht
  have hsub : dwordSub (tp + 1000) tp = 1000 := by
    unfold dwordSub; omega
  have hl2 : lyricLine (DrawLyric (DrawLyric s ⟨tp, 1200, tw1⟩ 800 h1) ⟨tp + 1000, 1200, tw2⟩
      800 h2) = ⟨200, 200, 0, true⟩ := by
    rw [DrawLyric_lyricLine, if_pos ⟨hc1, ht1⟩, hl1, hd1, hlast]
    simp only [scrollLine, speedNow, kScrollPauseMs, hsub]
    norm_num
  refine ⟨by norm_num, by norm_num [kScrollPauseMs], ?_, ?_, ?_, ?_, ?_⟩
  · exact congrArg Line.speed hl1
  · exact congrArg Line.pause_start hl1
  · exact congrArg Line.offset hl1
  · exact congrArg Line.offset hl2
  · have := congrArg Line.offset hl2
    simp only [lyricLine] at this
    rw [this]; norm_num

/-- C5, witness: the amended scenario on `pendingWindow`, whose text was set at tick
1000, with the pause-ending repaint at tick 1500 and the next repaint at tick 2500. -/
theorem scenario_3000_1200_800_witness :
    (1200 : ℚ) - ((800 : Int) : ℚ) + 40 = 440 ∧
    ((3000 : Nat) : ℚ) * (9 / 10) - (kScrollPauseMs : ℚ) = 2200 ∧
    (DrawLyric pendingWindow ⟨1500, 1200, 300⟩ 800 129).lyric_scroll_speed_ = 200 ∧
    (DrawLyric pendingWindow ⟨1500, 1200, 300⟩ 800 129).lyric_scroll_pause_start_ = 0 ∧
    (DrawLyric pendingWindow ⟨1500, 1200, 300⟩ 800 129).lyric_scroll_offset_ = 0 ∧
    (DrawLyric (DrawLyric pendingWindow ⟨1500, 1200, 300⟩ 800 129) ⟨1500 + 1000, 1200, 300⟩ 800
      129).lyric_scroll_offset_ = 200 ∧
    (DrawLyric (DrawLyric pendingWindow ⟨1500, 1200, 300⟩ 800 129) ⟨1500 + 1000, 1200, 300⟩ 800
      129).lyric_scroll_offset_ < 1200 - ((800 : Int) : ℚ) + 40 :=
  scenario_3000_1200_800 pendingWindow 1500 300 300 129 129 (by decide!) (by decide!)
    (by decide!) (by decide!) (by decide!) (by decide!) (by decide!)

/-! ## C6: the derived speed -/

/-- C6.  In a repaint that measures (panel collapsed, lyric text not empty), for a line
whose speed is undetermined and whose scroll range `maxScroll = Tw - W + 40` is positive:
if `duration * 0.9 - 500 <= 100` the derived speed is `2 * maxScroll`, otherwise it is
`maxScroll / ((duration * 0.9 - 500) / 1000)`; in both cases it is positive.  The same
for the translation line when it is drawn. -/
theorem derived_speed (s : State) (env : PaintEnv) (W h : Int)
    (hc : s.show_controls_ = false) (ht : s.lyric_text_ ≠ "") :
    (s.lyric_scroll_speed_ ≤ 0 → 0 < env.lyricWidth - (W : ℚ) + 40 →
      ((s.lyric_duration_ms_ : ℚ) * (9 / 10) - 500 ≤ 100 →
        (DrawLyric s env W h).lyric_scroll_speed_ = 2 * (env.lyricWidth - (W : ℚ) + 40)) ∧
      (¬ (s.lyric_duration_ms_ : ℚ) * (9 / 10) - 500 ≤ 100 →
        (DrawLyric s env W h).lyric_scroll_speed_ =
          (env.lyricWidth - (W : ℚ) + 40) /
            (((s.lyric_duration_ms_ : ℚ) * (9 / 10) - 500) / 1000)) ∧
      0 < (DrawLyric s env W h).lyric_scroll_speed_) ∧
    (s.show_translation_ = true → s.translation_text_ ≠ "" →
      s.trans_scroll_speed_ ≤ 0 → 0 < env.transWidth - (W : ℚ) + 40 →
      ((s.lyric_duration_ms_ : ℚ) * (9 / 10) - 500 ≤ 100 →
        (DrawLyric s env W h).trans_scroll_speed_ = 2 * (env.transWidth - (W : ℚ) + 40)) ∧
      (¬ (s.lyric_duration_ms_ : ℚ) * (9 / 10) - 500 ≤ 100 →
        (DrawLyric s env W h).trans_scroll_speed_ =
          (env.transWidth - (W : ℚ) + 40) /
            (((s.lyric_duration_ms_ : ℚ) * (9 / 10) - 500) / 1000)) ∧
      0 < (DrawLyric s env W h).trans_scroll_speed_) := by
  have key : ∀ (M v : ℚ), v ≤ 0 → 0 < M →
      ((s.lyric_duration_ms_ : ℚ) * (9 / 10) - 500 ≤ 100 →
        speedNow s.lyric_duration_ms_ M v = 2 * M) ∧
      (¬ (s.lyric_duration_ms_ : ℚ) * (9 / 10) - 500 ≤ 100 →
        speedNow s.lyric_duration_ms_ M v =
          M / (((s.lyric_duration_ms_ : ℚ) * (9 / 10) - 500) / 1000)) ∧
      0 < speedNow s.lyric_duration_ms_ M v := by
    intro M v hv hM
    have hk : ((kScrollPauseMs : Nat) : ℚ) = 500 := by norm_num [kScrollPauseMs]
    refine ⟨fun hle => ?_, fun hgt => ?_, speedNow_pos _ _ _ hM⟩
    · unfold speedNow
      rw [if_pos ⟨hv, hM⟩, hk, if_neg (not_lt.mpr hle)]
      ring
    · unfold speedNow
      rw [if_pos ⟨hv, hM⟩, hk, if_pos (not_le.mp hgt)]
  constructor
  · intro hs hM
    have e : (DrawLyric s env W h).lyric_scroll_speed_ =
        speedNow s.lyric_duration_ms_ (env.lyricWidth - (W : ℚ) + 40) s.lyric_scroll_speed_ := by
      have := congrArg Line.speed (DrawLyric_lyricLine s env W h)
      rw [if_pos ⟨hc, ht⟩, scrollLine_speed, if_pos (by linarith)] at this
      exact this
    rw [e]
    exact key _ _ hs hM
  · intro hst htt hs hM
    have e : (DrawLyric s env W h).trans_scroll_speed_ =
        speedNow s.lyric_duration_ms_ (env.transWidth - (W : ℚ) + 40) s.trans_scroll_speed_ := by
      have := congrArg Line.speed (DrawLyric_transLine s env W h)
      rw [if_pos ⟨hc, ht, hst, htt⟩, scrollLine_speed, if_pos (by linarith)] at this
      exact this
    rw [e]
    exact key _ _ hs hM

/-- C6, witness: with a line duration of 100 ms (available time 90 - 500 < 0) both lines
get twice their scroll range; with 3000 ms the lyric gets 440 / 2.2. -/
theorem derived_speed_witness :
    ((DrawLyric shortLineWindow ⟨1000, 1200, 900⟩ 800 129).lyric_scroll_speed_ =
        2 * ((⟨1000, 1200, 900⟩ : PaintEnv).lyricWidth - ((800 : Int) : ℚ) + 40) ∧
      0 < (DrawLyric shortLineWindow ⟨1000, 1200, 900⟩ 800 129).lyric_scroll_speed_) ∧
    ((DrawLyric shortLineWindow ⟨1000, 1200, 900⟩ 800 129).trans_scroll_speed_ =
        2 * ((⟨1000, 1200, 900⟩ : PaintEnv).transWidth - ((800 : Int) : ℚ) + 40) ∧
      0 < (DrawLyric shortLineWindow ⟨1000, 1200, 900⟩ 800 129).trans_scroll_speed_) ∧
    (DrawLyric pendingWindow ⟨1000, 1200, 900⟩ 800 129).lyric_scroll_speed_ =
        ((⟨1000, 1200, 900⟩ : PaintEnv).lyricWidth - ((800 : Int) : ℚ) + 40) /
          (((pendingWindow.lyric_duration_ms_ : ℚ) * (9 / 10) - 500) / 1000) :=
  ⟨⟨((derived_speed shortLineWindow ⟨1000, 1200, 900⟩ 800 129 (by decide!) (by decide!)).1
        (by decide!) (by decide!)).1 (by decide!),
    ((derived_speed shortLineWindow ⟨1000, 1200, 900⟩ 800 129 (by decide!) (by decide!)).1
        (by decide!) (by decide!)).2.2⟩,
   ⟨((derived_speed shortLineWindow ⟨1000, 1200, 900⟩ 800 129 (by decide!) (by decide!)).2
        (by decide!) (by decide!) (by decide!) (by decide!)).1 (by decide!),
    ((derived_speed shortLineWindow ⟨1000, 1200, 900⟩ 800 129 (by decide!) (by decide!)).2
        (by decide!) (by decide!) (by decide!) (by decide!)).2.2⟩,
   ((derived_speed pendingWindow ⟨1000, 1200, 900⟩ 800 129 (by decide!) (by decide!)).1
        (by decide!) (by decide!)).2.1 (by decide!)⟩


/-! ## C7: the panel height for font size 32 with a translation -/

/-- C7, counterexample.  With font size 32, translation display enabled and a non-empty
translation text (the state `pendingWindow`), `GetControlPanelHeight` returns 243, not
250. -/
theorem GetControlPanelHeight_is_not_250 :
    pendingWindow.font_size_ = 32 ∧ pendingWindow.show_translation_ = true ∧
    pendingWindow.translation_text_ ≠ "" ∧
    GetControlPanelHeight pendingWindow = 243 ∧
    GetControlPanelHeight pendingWindow ≠ 250 := by
  decide!

/-- C7, amended.  With font size 32, translation display enabled and a non-empty
translation text, `GetControlPanelHeight` returns the sum
70 + 32 + 10 + (floor(32 * 0.7) + 5 = 27) + 15 + 36 + 10 + 28 + 15, which is 243. -/
theorem GetControlPanelHeight_font_32 (s : State)
    (hf : s.font_size_ = 32) (hs : s.show_translation_ = true)
    (ht : s.translation_text_ ≠ "") :
    castInt (((32 : Int) : ℚ) * (7 / 10)) + 5 = 27 ∧
    GetControlPanelHeight s =
      70 + 32 + 10 + (castInt (((32 : Int) : ℚ) * (7 / 10)) + 5) + 15 + 36 + 10 + 28 + 15 ∧
    GetControlPanelHeight s = 243 := by
  have hc : castInt (((32 : Int) : ℚ) * (7 / 10)) = 22 := by decide!
  refine ⟨by rw [hc]; rfl, ?_, ?_⟩
  · unfold GetControlPanelHeight
    simp only [hf, hs, ht, ne_eq, not_false_eq_true, and_self, if_true, hc]
    rfl
  · unfold GetControlPanelHeight
    simp only [hf, hs, ht, ne_eq, not_false_eq_true, and_self, if_true, hc]
    rfl

/-- C7, witness: the amended statement at `pendingWindow`. -/
theorem GetControlPanelHeight_font_32_witness :
    castInt (((32 : Int) : ℚ) * (7 / 10)) + 5 = 27 ∧
    GetControlPanelHeight pendingWindow =
      70 + 32 + 10 + (castInt (((32 : Int) : ℚ) * (7 / 10)) + 5) + 15 + 36 + 10 + 28 + 15 ∧
    GetControlPanelHeight pendingWindow = 243 :=
  GetControlPanelHeight_font_32 pendingWindow (by decide!) (by decide!) (by decide!)

/-! ## C8: hit-test priority -/

/-- Method `HandleButtonClick` reports a hit exactly when some rectangle contains the
point. -/
theorem HandleButtonClick_hit_iff (s : State) (pt : POINT) :
    (HandleButtonClick s pt).2 = true ↔
      ∃ b ∈ spec_buttonOrder s, IsPointInRect pt b.1 = true := by
  unfold HandleButtonClick
  split_ifs with h1 h2 h3 h4 h5 h6 h7 h8 <;> simp [spec_buttonOrder, *]

/-- Method `HandleButtonClick` agrees with the first-match rule of the specification. -/
theorem HandleButtonClick_eq_spec (s : State) (pt : POINT) :
    HandleButtonClick s pt =
      match spec_firstHit s pt with
      | some a => (invokeCallback s a, true)
      | none => (s, false) := by
  unfold HandleButtonClick
  split_ifs with h1 h2 h3 h4 h5 h6 h7 h8 <;>
    simp [spec_firstHit, spec_buttonOrder, List.find?, *]

/-- C8.  With a playback callback registered, `HandleButtonClick(p)` appends exactly the
action identifier of the first rectangle containing `p`, in the order previous, play_pause,
next, font_size_up, font_size_down, color_picker, toggle_translation, close, to the
dispatch log and returns true; if no rectangle contains `p` it dispatches nothing and
returns false.  A primary-button press while the panel is collapsed dispatches nothing. -/
theorem hit_test_priority :
    (∀ (s : State) (pt : POINT), s.playback_callback_ = true →
      (∀ a, spec_firstHit s pt = some a →
        HandleButtonClick s pt = ({ s with dispatched := s.dispatched ++ [a] }, true)) ∧
      ((∀ b ∈ spec_buttonOrder s, IsPointInRect pt b.1 = false) →
        HandleButtonClick s pt = (s, false))) ∧
    (∀ (s : State) (lparam : Int) (env : PaintEnv), s.show_controls_ = false →
      (WndProc s (Message.WM_LBUTTONDOWN lparam) env).dispatched = s.dispatched) := by
  constructor
  · intro s pt hcb
    constructor
    · intro a ha
      rw [HandleButtonClick_eq_spec, ha]
      simp only [invokeCallback, hcb, if_true]
    · intro hnone
      have : spec_firstHit s pt = none := by
        unfold spec_firstHit
        rw [Option.map_eq_none', List.find?_eq_none]
        intro b hb
        simp [hnone b hb]
      rw [HandleButtonClick_eq_spec, this]
  · intro s lparam env hc
    simp only [WndProc, hc, Bool.false_eq_true, if_false]
    split_ifs <;> rfl

/-- C8, witness: on `overlapPanel`, where the previous and close rectangles both contain
the point (5, 5), the press dispatches "previous"; the point (50, 50) hits nothing; and a
press on the collapsed `scrollingWindow` dispatches nothing. -/
theorem hit_test_priority_witness :
    HandleButtonClick overlapPanel ⟨5, 5⟩ =
      ({ overlapPanel with dispatched := overlapPanel.dispatched ++ ["previous"] }, true) ∧
    HandleButtonClick overlapPanel ⟨50, 50⟩ = (overlapPanel, false) ∧
    (WndProc scrollingWindow (Message.WM_LBUTTONDOWN 327685) (paintAt 2000 1200)).dispatched =
      scrollingWindow.dispatched :=
  ⟨(hit_test_priority.1 overlapPanel ⟨5, 5⟩ (by decide!)).1 "previous" (by decide!),
   (hit_test_priority.1 overlapPanel ⟨50, 50⟩ (by decide!)).2 (by decide!),
   hit_test_priority.2 scrollingWindow 327685 (paintAt 2000 1200) (by decide!)⟩

/-! ## C9: when a press starts a drag -/

/-- The drag flag after a primary-button-down. -/
theorem LBUTTONDOWN_is_dragging (s : State) (lparam : Int) (env : PaintEnv) :
    (WndProc s (Message.WM_LBUTTONDOWN lparam) env).is_dragging_ =
      ((!(s.show_controls_ && (HandleButtonClick s ⟨LOWORD lparam, HIWORD lparam⟩).2) &&
        s.is_draggable_) || s.is_dragging_) := by
  have hf := HandleButtonClick_frame s ⟨LOWORD lparam, HIWORD lparam⟩
  have hdr : (HandleButtonClick s ⟨LOWORD lparam, HIWORD lparam⟩).1.is_draggable_ =
      s.is_draggable_ := (congrArg State.is_draggable_ hf).trans rfl
  have hdg : (HandleButtonClick s ⟨LOWORD lparam, HIWORD lparam⟩).1.is_dragging_ =
      s.is_dragging_ := (congrArg State.is_dragging_ hf).trans rfl
  have key : ∀ (r : State × Bool) (p : POINT),
      (if (!r.2 && r.1.is_draggable_) = true then
          { r.1 with is_dragging_ := true, drag_point_ := p, captured := true }
        else r.1).is_dragging_ = ((!r.2 && r.1.is_draggable_) || r.1.is_dragging_) := by
    intro r p
    cases h : (!r.2 && r.1.is_draggable_)
    · simp
    · simp
  refine (key (if s.show_controls_ = true then
    HandleButtonClick s ⟨LOWORD lparam, HIWORD lparam⟩ else (s, false))
    ⟨LOWORD lparam, HIWORD lparam⟩).trans ?_
  cases hc : s.show_controls_
  · simp
  · simp [hdr, hdg]

/-- The dispatch log after a primary-button-down. -/
theorem LBUTTONDOWN_dispatched (s : State) (lparam : Int) (env : PaintEnv) :
    (WndProc s (Message.WM_LBUTTONDOWN lparam) env).dispatched =
      if s.show_controls_ = true then
        (HandleButtonClick s ⟨LOWORD lparam, HIWORD lparam⟩).1.dispatched
      else s.dispatched := by
  simp only [WndProc]
  by_cases hc : s.show_controls_ = true
  · simp only [hc, if_true]
    split_ifs <;> rfl
  · simp only [hc, if_false]
    split_ifs <;> rfl

/-- C9.  For a primary-button-down at the point `p` decoded from the message, from a
non-dragging state: the drag flag becomes true if and only if dragging is enabled and it
is not the case that the panel is expanded and `p` lies in one of the eight button
rectangles.  A press inside a button rectangle of the expanded panel never starts a drag;
with no callback registered it is consumed (the hit test returns true) and nothing is
dispatched. -/
theorem drag_start_iff (s : State) (lparam : Int) (env : PaintEnv)
    (hd : s.is_dragging_ = false) :
    ((WndProc s (Message.WM_LBUTTONDOWN lparam) env).is_dragging_ = true ↔
      (s.is_draggable_ = true ∧
        ¬ (s.show_controls_ = true ∧
          ∃ b ∈ spec_buttonOrder s, IsPointInRect ⟨LOWORD lparam, HIWORD lparam⟩ b.1 = true))) ∧
    (s.show_controls_ = true →
      (∃ b ∈ spec_buttonOrder s, IsPointInRect ⟨LOWORD lparam, HIWORD lparam⟩ b.1 = true) →
      (WndProc s (Message.WM_LBUTTONDOWN lparam) env).is_dragging_ = false ∧
      (s.playback_callback_ = false →
        (HandleButtonClick s ⟨LOWORD lparam, HIWORD lparam⟩).2 = true ∧
        (WndProc s (Message.WM_LBUTTONDOWN lparam) env).dispatched = s.dispatched)) := by
  have hhit := HandleButtonClick_hit_iff s ⟨LOWORD lparam, HIWORD lparam⟩
  rw [LBUTTONDOWN_is_dragging, hd, LBUTTONDOWN_dispatched]
  refine ⟨?_, fun hc hin => ⟨?_, fun hcb => ⟨hhit.mpr hin, ?_⟩⟩⟩
  · rw [← hhit]
    cases s.show_controls_ <;> cases s.is_draggable_ <;>
      cases (HandleButtonClick s ⟨LOWORD lparam, HIWORD lparam⟩).2 <;> simp
  · rw [hc, hhit.mpr hin]; rfl
  · rw [if_pos hc, HandleButtonClick_eq_spec]
    cases spec_firstHit s ⟨LOWORD lparam, HIWORD lparam⟩ with
    | none => rfl
    | some a => simp only [invokeCallback, hcb, Bool.false_eq_true, if_false]

/-- C9, witness: on `overlapPanel` without the callback, a press at (5, 5) is inside a
button and starts no drag and dispatches nothing; a press at (50, 50) starts a drag. -/
theorem drag_start_iff_witness :
    ((WndProc silentPanel (Message.WM_LBUTTONDOWN 327685) (paintAt 2000 1200)).is_dragging_
        = false ∧
      (HandleButtonClick silentPanel ⟨LOWORD 327685, HIWORD 327685⟩).2 = true ∧
      (WndProc silentPanel (Message.WM_LBUTTONDOWN 327685) (paintAt 2000 1200)).dispatched =
        silentPanel.dispatched) ∧
    (WndProc silentPanel (Message.WM_LBUTTONDOWN 3276850) (paintAt 2000 1200)).is_dragging_
      = true :=
  ⟨⟨((drag_start_iff silentPanel 327685 (paintAt 2000 1200) (by decide!)).2
        (by decide!) (by decide!)).1,
    ((drag_start_iff silentPanel 327685 (paintAt 2000 1200) (by decide!)).2
        (by decide!) (by decide!)).2 (by decide!)⟩,
   (drag_start_iff silentPanel 3276850 (paintAt 2000 1200) (by decide!)).1.mpr (by decide!)⟩


/-! ## C10: the hover dwell -/

/-- A pointer-move over a hovered window that is not being dragged changes nothing. -/
theorem MOUSEMOVE_hovered (s : State) (lparam : Int) (now : Nat) (env : PaintEnv)
    (hh : s.is_hovered_ = true) (hd : s.is_dragging_ = false) :
    WndProc s (Message.WM_MOUSEMOVE lparam now) env = s := by
  simp only [WndProc, hd, hh, Bool.false_eq_true, if_false, Bool.true_eq_false]

/-- A timer-1 fire changes nothing unless the window is hovered with the panel collapsed. -/
theorem TIMER1_idle (s : State) (env : PaintEnv)
    (h : s.is_hovered_ = false ∨ s.show_controls_ = true) :
    WndProc s (Message.WM_TIMER 1) env = s := by
  have hn : ¬ ((1 : Nat) = 1 ∧ s.is_hovered_ = true ∧ s.show_controls_ = false) := by
    rintro ⟨_, h1, h2⟩
    rcases h with h | h
    · rw [h] at h1; cases h1
    · rw [h] at h2; cases h2
  have hn' : ¬ (True ∧ s.is_hovered_ = true ∧ s.show_controls_ = false) :=
    fun h => hn ⟨rfl, h.2⟩
  simp only [WndProc]
  rw [if_neg hn', if_neg (by decide)]

/-- The hover flags after a pointer-enter. -/
theorem MOUSEMOVE_enter (s : State) (lparam : Int) (now : Nat) (env : PaintEnv)
    (hh : s.is_hovered_ = false) (hd : s.is_dragging_ = false) :
    WndProc s (Message.WM_MOUSEMOVE lparam now) env =
      { s with is_hovered_ := true, hover_start_time_ := now, timer1 := true } := by
  simp only [WndProc, hd, hh, Bool.false_eq_true, if_false, if_true]

/-- The hover flags after a pointer-leave. -/
theorem MOUSELEAVE_flags (s : State) (env : PaintEnv) :
    (WndProc s Message.WM_MOUSELEAVE env).is_hovered_ = false ∧
    (WndProc s Message.WM_MOUSELEAVE env).show_controls_ = false ∧
    (WndProc s Message.WM_MOUSELEAVE env).is_dragging_ = s.is_dragging_ := by
  simp only [WndProc]
  refine ⟨?_, ?_, ?_⟩
  · exact (congrArg State.is_hovered_ (UpdateWindow_frame _ env)).trans rfl
  · exact (congrArg State.show_controls_ (UpdateWindow_frame _ env)).trans rfl
  · exact (congrArg State.is_dragging_ (UpdateWindow_frame _ env)).trans rfl

/-- The hover flags after the dwell timer fires over a hovered, collapsed window. -/
theorem TIMER1_expand (s : State) (env : PaintEnv)
    (hh : s.is_hovered_ = true) (hc : s.show_controls_ = false) :
    (WndProc s (Message.WM_TIMER 1) env).is_hovered_ = true ∧
    (WndProc s (Message.WM_TIMER 1) env).show_controls_ = true ∧
    (WndProc s (Message.WM_TIMER 1) env).is_dragging_ = s.is_dragging_ := by
  have hp : (1 : Nat) = 1 ∧ s.is_hovered_ = true ∧ s.show_controls_ = false := ⟨rfl, hh, hc⟩
  have hp' : True ∧ s.is_hovered_ = true ∧ s.show_controls_ = false := ⟨trivial, hp.2⟩
  simp only [WndProc]
  rw [if_pos hp']
  refine ⟨?_, ?_, ?_⟩
  · exact (congrArg State.is_hovered_ (UpdateWindow_frame _ env)).trans hh
  · exact (congrArg State.show_controls_ (UpdateWindow_frame _ env)).trans rfl
  · exact (congrArg State.is_dragging_ (UpdateWindow_frame _ env)).trans rfl

/-- Timer-1 fires and pointer-moves over an expanded, hovered panel that is not being
dragged change nothing. -/
theorem handleAll_expanded (ms : List (Message × PaintEnv)) (s : State)
    (hh : s.is_hovered_ = true) (hc : s.show_controls_ = true) (hd : s.is_dragging_ = false)
    (hm : ∀ m ∈ ms, m.1 = Message.WM_TIMER 1 ∨ ∃ lp now, m.1 = Message.WM_MOUSEMOVE lp now) :
    handleAll s ms = s := by
  induction ms with
  | nil => rfl
  | cons m rest ih =>
    have h1 : WndProc s m.1 m.2 = s := by
      rcases hm m (List.mem_cons_self _ _) with h | ⟨lp, now, h⟩
      · rw [h]; exact TIMER1_idle s m.2 (Or.inr hc)
      · rw [h]; exact MOUSEMOVE_hovered s lp now m.2 hh hd
    have : handleAll s (m :: rest) = handleAll (WndProc s m.1 m.2) rest := rfl
    rw [this, h1]
    exact ih (fun q hq => hm q (List.mem_cons_of_mem _ hq))

/-- C10.  From an idle state (not hovered, panel collapsed, not dragging): after a
pointer-enter followed by a pointer-leave the panel is collapsed, and a dwell-timer fire
arriving after the leave leaves it collapsed; after a pointer-enter followed by a
dwell-timer fire the panel is expanded, and every further sequence of dwell-timer fires and
pointer-moves leaves that state unchanged. -/
theorem hover_dwell (s : State) (lp : Int) (now : Nat) (e1 e2 e3 : PaintEnv)
    (hh : s.is_hovered_ = false) (hc : s.show_controls_ = false)
    (hd : s.is_dragging_ = false) :
    (WndProc s (Message.WM_MOUSEMOVE lp now) e1).show_controls_ = false ∧
    (WndProc (WndProc s (Message.WM_MOUSEMOVE lp now) e1) Message.WM_MOUSELEAVE
      e2).show_controls_ = false ∧
    (WndProc (WndProc (WndProc s (Message.WM_MOUSEMOVE lp now) e1) Message.WM_MOUSELEAVE e2)
      (Message.WM_TIMER 1) e3).show_controls_ = false ∧
    (WndProc (WndProc s (Message.WM_MOUSEMOVE lp now) e1) (Message.WM_TIMER 1)
      e2).show_controls_ = true ∧
    (∀ ms : List (Message × PaintEnv),
      (∀ m ∈ ms, m.1 = Message.WM_TIMER 1 ∨ ∃ lp' now', m.1 = Message.WM_MOUSEMOVE lp' now') →
      handleAll (WndProc (WndProc s (Message.WM_MOUSEMOVE lp now) e1) (Message.WM_TIMER 1) e2)
        ms =
      WndProc (WndProc s (Message.WM_MOUSEMOVE lp now) e1) (Message.WM_TIMER 1) e2) := by
  have he := MOUSEMOVE_enter s lp now e1 hh hd
  have h1h : (WndProc s (Message.WM_MOUSEMOVE lp now) e1).is_hovered_ = true := by rw [he]
  have h1c : (WndProc s (Message.WM_MOUSEMOVE lp now) e1).show_controls_ = false := by
    rw [he]; exact hc
  have h1d : (WndProc s (Message.WM_MOUSEMOVE lp now) e1).is_dragging_ = false := by
    rw [he]; exact hd
  have hl := MOUSELEAVE_flags (WndProc s (Message.WM_MOUSEMOVE lp now) e1) e2
  have hx := TIMER1_expand (WndProc s (Message.WM_MOUSEMOVE lp now) e1) e2 h1h h1c
  refine ⟨h1c, hl.2.1, ?_, hx.2.1, fun ms hm => ?_⟩
  · rw [TIMER1_idle _ e3 (Or.inl hl.1)]
    exact hl.2.1
  · exact handleAll_expanded ms _ hx.1 hx.2.1 (hx.2.2.trans h1d) hm

/-- C10, witness: the statement at the scrolling window, with two more timer fires and a
pointer-move after the expansion. -/
theorem hover_dwell_witness :
    (WndProc scrollingWindow (Message.WM_MOUSEMOVE 327685 2000) (paintAt 2000 1200)).show_controls_
      = false ∧
    (WndProc (WndProc scrollingWindow (Message.WM_MOUSEMOVE 327685 2000) (paintAt 2000 1200))
      Message.WM_MOUSELEAVE (paintAt 2100 1200)).show_controls_ = false ∧
    (WndProc (WndProc (WndProc scrollingWindow (Message.WM_MOUSEMOVE 327685 2000)
      (paintAt 2000 1200)) Message.WM_MOUSELEAVE (paintAt 2100 1200))
      (Message.WM_TIMER 1) (paintAt 2300 1200)).show_controls_ = false ∧
    (WndProc (WndProc scrollingWindow (Message.WM_MOUSEMOVE 327685 2000) (paintAt 2000 1200))
      (Message.WM_TIMER 1) (paintAt 2100 1200)).show_controls_ = true ∧
    handleAll (WndProc (WndProc scrollingWindow (Message.WM_MOUSEMOVE 327685 2000)
        (paintAt 2000 1200)) (Message.WM_TIMER 1) (paintAt 2100 1200))
        [(Message.WM_TIMER 1, paintAt 2400 1200),
         (Message.WM_MOUSEMOVE 327690 2500, paintAt 2500 1200),
         (Message.WM_TIMER 1, paintAt 2700 1200)] =
      WndProc (WndProc scrollingWindow (Message.WM_MOUSEMOVE 327685 2000) (paintAt 2000 1200))
        (Message.WM_TIMER 1) (paintAt 2100 1200) :=
  have h := hover_dwell scrollingWindow 327685 2000 (paintAt 2000 1200) (paintAt 2100 1200)
    (paintAt 2300 1200) (by decide!) (by decide!) (by decide!)
  ⟨h.1, h.2.1, h.2.2.1, h.2.2.2.1,
   h.2.2.2.2 _ (by
     intro m hm
     simp only [List.mem_cons, List.mem_singleton, List.not_mem_nil, or_false] at hm
     rcases hm with rfl | rfl | rfl
     · exact Or.inl rfl
     · exact Or.inr ⟨_, _, rfl⟩
     · exact Or.inl rfl)⟩


/-! ## The members no repaint touches -/

/-- A repaint leaves the `Core` alone. -/
theorem core_UpdateWindow (s : State) (env : PaintEnv) : core (UpdateWindow s env) = core s :=
  (congrArg core (UpdateWindow_frame s env)).trans rfl

/-- The conditional repaint at the end of a setter leaves the `Core` alone. -/
theorem core_maybe (s : State) (env : PaintEnv) (b : Bool) :
    core (if b = true then UpdateWindow s env else s) = core s := by
  cases b
  · rfl
  · exact core_UpdateWindow s env

/-- Effect of `WndProc` on the `Core`. -/
theorem core_WndProc (s : State) (m : Message) (env : PaintEnv) :
    core (WndProc s m env) = coreMessage (core s) m := by
  cases m with
  | WM_LBUTTONDOWN lparam =>
    have hf := HandleButtonClick_frame s ⟨LOWORD lparam, HIWORD lparam⟩
    have hl : core (HandleButtonClick s ⟨LOWORD lparam, HIWORD lparam⟩).1 = core s :=
      (congrArg core hf).trans rfl
    have key : ∀ (r : State × Bool) (p : POINT), core r.1 = core s →
        core (if (!r.2 && r.1.is_draggable_) = true then
          { r.1 with is_dragging_ := true, drag_point_ := p, captured := true } else r.1) =
          core s := by
      intro r p h
      split_ifs
      · exact h
      · exact h
    refine key (if s.show_controls_ = true then HandleButtonClick s ⟨LOWORD lparam, HIWORD lparam⟩
      else (s, false)) _ ?_
    split_ifs
    · exact hl
    · rfl
  | WM_LBUTTONUP =>
    show core (WndProc s Message.WM_LBUTTONUP env) = core s
    unfold WndProc; simp only []; split_ifs <;> rfl
  | WM_MOUSEMOVE lparam now =>
    unfold WndProc coreMessage
    simp only []
    by_cases hd : s.is_dragging_ = true <;> by_cases hh : s.is_hovered_ = false <;>
      simp [hd, hh, core]
  | WM_MOUSELEAVE =>
    simp only [WndProc]
    rw [core_UpdateWindow]; rfl
  | WM_TIMER wparam =>
    unfold WndProc coreMessage
    simp only []
    by_cases h1 : wparam = 1 ∧ s.is_hovered_ = true ∧ s.show_controls_ = false
    · have h1' : wparam = 1 ∧ (core s).is_hovered_ = true ∧ (core s).show_controls_ = false := h1
      rw [if_pos h1, if_pos h1', core_UpdateWindow]; rfl
    · have h1' : ¬ (wparam = 1 ∧ (core s).is_hovered_ = true ∧ (core s).show_controls_ = false) := h1
      rw [if_neg h1, if_neg h1']
      split_ifs
      · exact core_UpdateWindow s env
      · rfl
      · rfl
  | WM_DESTROY => rfl
  | other => rfl

/-- Effect of a call on the `Core`. -/
theorem core_step (s : State) (c : Call) (env : PaintEnv) :
    core (step s c env) = coreStep (core s) c := by
  cases c with
  | Create w h ok =>
    simp only [step, Create, coreStep]
    by_cases h1 : s.hwnd_ = true
    · have h1' : (core s).hwnd_ = true := h1
      rw [if_pos h1, if_pos h1']
    · have h1' : ¬ (core s).hwnd_ = true := h1
      rw [if_neg h1, if_neg h1']
      split_ifs <;> rfl
  | Destroy =>
    simp only [step, Destroy, coreStep]
    by_cases h1 : s.hwnd_ = true
    · have h1' : (core s).hwnd_ = true := h1
      rw [if_pos h1, if_pos h1']
      split_ifs <;> simp_all [core]
    · have h1' : ¬ (core s).hwnd_ = true := h1
      rw [if_neg h1, if_neg h1']
      split_ifs <;> simp_all [core]
  | Show =>
    simp only [step, Show, coreStep]
    by_cases h1 : s.hwnd_ = true
    · have h1' : (core s).hwnd_ = true := h1
      rw [if_pos h1, if_pos h1']
      have := core_UpdateWindow s env
      simp only [core, Core.mk.injEq] at this ⊢
      tauto
    · have h1' : ¬ (core s).hwnd_ = true := h1
      rw [if_neg h1, if_neg h1']
  | Hide =>
    simp only [step, Hide, coreStep]
    by_cases h1 : s.hwnd_ = true
    · have h1' : (core s).hwnd_ = true := h1
      rw [if_pos h1, if_pos h1']; rfl
    · have h1' : ¬ (core s).hwnd_ = true := h1
      rw [if_neg h1, if_neg h1']
  | SetLyricText text now =>
    show core (if _ = true then UpdateWindow _ env else _) = core s
    rw [core_maybe]
    by_cases h : s.lyric_text_ = text
    · simp only [h, ne_eq, not_true_eq_false, if_false]; rfl
    · simp only [h, ne_eq, not_false_eq_true, if_true]; rfl
  | SetLyricDuration d => rfl
  | SetPosition x y =>
    show core (SetPosition s x y) = core s
    unfold SetPosition; split_ifs <;> rfl
  | SetFontSize size =>
    show core (if _ = true then UpdateWindow _ env else _) = _
    rw [core_maybe]; rfl
  | SetTextColor c =>
    show core (if _ = true then UpdateWindow _ env else _) = _
    rw [core_maybe]; rfl
  | SetStrokeColor c =>
    show core (if _ = true then UpdateWindow _ env else _) = _
    rw [core_maybe]; rfl
  | SetStrokeWidth w =>
    show core (if _ = true then UpdateWindow _ env else _) = _
    rw [core_maybe]; rfl
  | SetDraggable b => rfl
  | SetMouseTransparent b =>
    show core (SetMouseTransparent s b) = core s
    unfold SetMouseTransparent; split_ifs <;> rfl
  | SetSongInfo t a c =>
    show core (if _ = true then UpdateWindow _ env else _) = _
    rw [core_maybe]; rfl
  | SetPlaybackControlCallback cb => rfl
  | SetPlayingState b =>
    show core (if _ = true then UpdateWindow _ env else _) = _
    rw [core_maybe]; rfl
  | SetTranslationText text now =>
    show core (if _ = true then UpdateWindow _ env else _) = core s
    rw [core_maybe]
    by_cases h : s.translation_text_ = text
    · simp only [h, ne_eq, not_true_eq_false, if_false]; rfl
    · simp only [h, ne_eq, not_false_eq_true, if_true]; rfl
  | SetShowTranslation b =>
    show core (if _ = true then UpdateWindow _ env else _) = _
    rw [core_maybe]; rfl
  | Window m =>
    simp only [step, coreStep]
    by_cases h1 : s.hwnd_ = true
    · have h1' : (core s).hwnd_ = true := h1
      rw [if_pos h1, if_pos h1']
      exact core_WndProc s m env
    · have h1' : ¬ (core s).hwnd_ = true := h1
      rw [if_neg h1, if_neg h1']


/-- The `Core` after a sequence of calls is the fold of `coreStep`. -/
theorem core_run (cs : List (Call × PaintEnv)) :
    ∀ s : State, core (run s cs) = cs.foldl (fun k p => coreStep k p.1) (core s) := by
  induction cs with
  | nil => intro s; rfl
  | cons p rest ih =>
    intro s
    obtain ⟨c, env⟩ := p
    show core (run (step s c env) rest) = _
    rw [ih, core_step]; rfl

/-- An invariant of `coreStep` holds after every sequence of calls. -/
theorem core_invariant (P : Core → Prop) (hstep : ∀ k c, P k → P (coreStep k c))
    (cs : List (Call × PaintEnv)) : ∀ k : Core, P k →
      P (cs.foldl (fun k p => coreStep k p.1) k) := by
  induction cs with
  | nil => intro k hk; exact hk
  | cons p rest ih => intro k hk; exact ih _ (hstep k p.1 hk)

/-! ## C11: expanded implies hovered -/

/-- One call keeps "expanded implies hovered". -/
theorem coreStep_expanded_hovered (k : Core) (c : Call)
    (h : k.show_controls_ = true → k.is_hovered_ = true) :
    (coreStep k c).show_controls_ = true → (coreStep k c).is_hovered_ = true := by
  cases c with
  | Window m =>
    cases m <;> simp only [coreStep, coreMessage] <;> split_ifs <;> simp_all
  | Create w hh ok => simp only [coreStep]; split_ifs <;> simp_all
  | Destroy => simp only [coreStep]; split_ifs <;> simp_all
  | Show => simp only [coreStep]; split_ifs <;> simp_all
  | Hide => simp only [coreStep]; split_ifs <;> simp_all
  | _ => simpa [coreStep] using h

/-- C11.  In every state reachable from construction by any sequence of calls (setters and
window messages: pointer move, button down and up, pointer leave, timer fires), an expanded
panel implies a hovered window; and a pointer-leave message sets the hover flag and the
panel-expanded flag to false in the same step. -/
theorem expanded_implies_hovered :
    (∀ cs : List (Call × PaintEnv),
      (run construct cs).show_controls_ = true → (run construct cs).is_hovered_ = true) ∧
    (∀ (s : State) (env : PaintEnv),
      (WndProc s Message.WM_MOUSELEAVE env).is_hovered_ = false ∧
      (WndProc s Message.WM_MOUSELEAVE env).show_controls_ = false) := by
  constructor
  · intro cs
    have h := core_invariant (fun k => k.show_controls_ = true → k.is_hovered_ = true)
      coreStep_expanded_hovered cs (core construct) (by decide)
    rw [← core_run] at h
    exact h
  · intro s env
    have h := core_WndProc s Message.WM_MOUSELEAVE env
    exact ⟨congrArg Core.is_hovered_ h, congrArg Core.show_controls_ h⟩

/-- C11, witness: after create, show, pointer-enter and the dwell timer the panel is
expanded and the window hovered. -/
theorem expanded_implies_hovered_witness :
    (run construct hoverCalls).is_hovered_ = true :=
  expanded_implies_hovered.1 hoverCalls (by decide!)

/-! ## C14: the line duration -/

/-- C14.  `SetLyricDuration(d)` stores `d` when `d > 0` and 3000 when `d = 0` and changes no
other member; the stored duration is positive, after the setter and in every state
reachable from construction. -/
theorem SetLyricDuration_stores (s : State) (d : Nat) :
    SetLyricDuration s d = { s with lyric_duration_ms_ := (SetLyricDuration s d).lyric_duration_ms_ } ∧
    (0 < d → (SetLyricDuration s d).lyric_duration_ms_ = d) ∧
    (d = 0 → (SetLyricDuration s d).lyric_duration_ms_ = 3000) ∧
    0 < (SetLyricDuration s d).lyric_duration_ms_ ∧
    (∀ cs : List (Call × PaintEnv), 0 < (run construct cs).lyric_duration_ms_) := by
  refine ⟨rfl, fun h => ?_, fun h => ?_, ?_, fun cs => ?_⟩
  · simp [SetLyricDuration, h]
  · simp [SetLyricDuration, h]
  · by_cases h : 0 < d
    · simp [SetLyricDuration, h]
    · simp [SetLyricDuration, h]
  · have h := core_invariant (fun k => 0 < k.lyric_duration_ms_)
      (by
        intro k c hk
        cases c with
        | SetLyricDuration d' =>
          simp only [coreStep]
          by_cases h : d' > 0
          · simp [h]
          · simp [h]
        | Window m =>
          cases m <;> simp only [coreStep, coreMessage] <;> split_ifs <;> exact hk
        | Create w hh ok => simp only [coreStep]; split_ifs <;> exact hk
        | Destroy => simp only [coreStep]; split_ifs <;> exact hk
        | Show => simp only [coreStep]; split_ifs <;> exact hk
        | Hide => simp only [coreStep]; split_ifs <;> exact hk
        | _ => exact hk)
      cs (core construct) (by decide)
    rw [← core_run] at h
    exact h

/-- C14, witness: durations 250 and 0 on the constructed object. -/
theorem SetLyricDuration_stores_witness :
    (SetLyricDuration construct 250).lyric_duration_ms_ = 250 ∧
    (SetLyricDuration construct 0).lyric_duration_ms_ = 3000 :=
  ⟨(SetLyricDuration_stores construct 250).2.1 (by decide),
   (SetLyricDuration_stores construct 0).2.2.1 rfl⟩


/-! ## C15: font size and stroke width -/

/-- C15, counterexample.  After `SetFontSize(-5)` and `SetStrokeWidth(-1)` the font size is
-5 and the stroke width -1. -/
theorem style_invariant_counterexample :
    ¬ (0 < (run construct absurdStyleCalls).font_size_ ∧
       0 ≤ (run construct absurdStyleCalls).stroke_width_) := by
  decide!

/-- C15, amended.  `SetFontSize` and `SetStrokeWidth` store their argument as it is; so
in every state reachable from construction by calls whose `SetFontSize` arguments are
positive and whose `SetStrokeWidth` arguments are not negative, the font size is positive
and the stroke width is not negative. -/
theorem style_invariant (cs : List (Call × PaintEnv)) :
    (∀ (s : State) (n : Int) (env : PaintEnv), (SetFontSize s n env).font_size_ = n) ∧
    (∀ (s : State) (w : Int) (env : PaintEnv), (SetStrokeWidth s w env).stroke_width_ = w) ∧
    ((∀ p ∈ cs, (∀ n, p.1 = Call.SetFontSize n → 0 < n) ∧
        (∀ w, p.1 = Call.SetStrokeWidth w → 0 ≤ w)) →
      0 < (run construct cs).font_size_ ∧ 0 ≤ (run construct cs).stroke_width_) := by
  refine ⟨fun s n env => ?_, fun s w env => ?_, ?_⟩
  · exact congrArg Core.font_size_ (core_step s (Call.SetFontSize n) env)
  · exact congrArg Core.stroke_width_ (core_step s (Call.SetStrokeWidth w) env)
  · intro hcs
    have key : ∀ (l : List (Call × PaintEnv)) (k : Core),
        (∀ p ∈ l, (∀ n, p.1 = Call.SetFontSize n → 0 < n) ∧
          (∀ w, p.1 = Call.SetStrokeWidth w → 0 ≤ w)) →
        (0 < k.font_size_ ∧ 0 ≤ k.stroke_width_) →
        0 < (l.foldl (fun k p => coreStep k p.1) k).font_size_ ∧
          0 ≤ (l.foldl (fun k p => coreStep k p.1) k).stroke_width_ := by
      intro l
      induction l with
      | nil => intro k _ hk; exact hk
      | cons p rest ih =>
        intro k hl hk
        refine ih _ (fun q hq => hl q (List.mem_cons_of_mem _ hq)) ?_
        have hp := hl p (List.mem_cons_self _ _)
        obtain ⟨c, env⟩ := p
        cases c with
        | SetFontSize n => exact ⟨hp.1 n rfl, hk.2⟩
        | SetStrokeWidth w => exact ⟨hk.1, hp.2 w rfl⟩
        | Window m =>
          cases m <;> simp only [coreStep, coreMessage] <;> split_ifs <;> exact hk
        | Create w hh ok => simp only [coreStep]; split_ifs <;> exact hk
        | Destroy => simp only [coreStep]; split_ifs <;> exact hk
        | Show => simp only [coreStep]; split_ifs <;> exact hk
        | Hide => simp only [coreStep]; split_ifs <;> exact hk
        | _ => exact hk
    have h := key cs (core construct) hcs (by decide)
    rw [← core_run] at h
    exact h

/-- C15, witness: a run with font size 48 and stroke width 0. -/
theorem style_invariant_witness :
    0 < (run construct saneStyleCalls).font_size_ ∧
    0 ≤ (run construct saneStyleCalls).stroke_width_ :=
  (style_invariant saneStyleCalls).2.2 (by
    intro p hp
    simp only [saneStyleCalls, List.mem_cons, List.mem_singleton, List.not_mem_nil,
      or_false] at hp
    rcases hp with rfl | rfl | rfl | rfl <;> constructor <;> intro x h <;> dsimp only at h <;>
      cases h <;> decide)

/-! ## C12: the process-wide GDI+ token -/

/-- C12, counterexample.  Two objects are constructed and one is destroyed: one object is
still alive, and the token is 0 (GDI+ has been shut down). -/
theorem gdiplus_shut_down_while_alive :
    lifeOk processStart [Lifetime.construct 7, Lifetime.construct 7, Lifetime.destruct] ∧
    (lifeRun processStart
      [Lifetime.construct 7, Lifetime.construct 7, Lifetime.destruct]).alive = 1 ∧
    (lifeRun processStart
      [Lifetime.construct 7, Lifetime.construct 7, Lifetime.destruct]).gdiplusToken = 0 := by
  refine ⟨?_, by decide, by decide⟩
  simp [lifeOk, lifeStep, processStart]

/-- C12, amended.  Constructing an object leaves the token initialised (it starts GDI+ when
the token is 0 and keeps the token otherwise); destroying any object shuts GDI+ down and
leaves the token 0, whether or not other objects are alive.  Hence, in every well-formed
sequence that keeps at most one object alive at a time, the token is initialised exactly
when an object is alive. -/
theorem gdiplus_token (p : Process) :
    (∀ startup : Nat, startup ≠ 0 →
      (lifeStep p (Lifetime.construct startup)).gdiplusToken ≠ 0) ∧
    (lifeStep p Lifetime.destruct).gdiplusToken = 0 ∧
    (∀ es : List Lifetime, lifeOk processStart es → lifeSingle processStart es →
      ((lifeRun processStart es).gdiplusToken ≠ 0 ↔ 0 < (lifeRun processStart es).alive)) := by
  refine ⟨fun startup h => ?_, ?_, ?_⟩
  · simp only [lifeStep, InitGdiPlus]
    split_ifs with h0
    · exact h
    · exact h0
  · simp only [lifeStep, ShutdownGdiPlus]
    split_ifs with h0
    · rfl
    · exact not_not.mp h0
  · have key : ∀ (es : List Lifetime) (q : Process), q.alive ≤ 1 →
        (q.gdiplusToken ≠ 0 ↔ 0 < q.alive) → lifeOk q es → lifeSingle q es →
        ((lifeRun q es).gdiplusToken ≠ 0 ↔ 0 < (lifeRun q es).alive) := by
      intro es
      induction es with
      | nil => intro q _ hq _ _; exact hq
      | cons e rest ih =>
        intro q hle hq hok hs
        cases e with
        | construct startup =>
          obtain ⟨hst, hok'⟩ := hok
          obtain ⟨ha, hs'⟩ := hs
          refine ih _ ?_ ?_ hok' hs'
          · simp only [lifeStep]; omega
          · have h0 : q.gdiplusToken = 0 := by
              by_contra hne
              have := hq.mp hne
              omega
            simp only [lifeStep, InitGdiPlus, h0, if_true]
            constructor
            · intro _; omega
            · intro _; exact hst
        | destruct =>
          obtain ⟨hpos, hok'⟩ := hok
          refine ih _ ?_ ?_ hok' hs
          · simp only [lifeStep]; omega
          · have h1 : q.alive = 1 := by omega
            have hne : q.gdiplusToken ≠ 0 := hq.mpr hpos
            simp only [lifeStep, ShutdownGdiPlus, hne, ne_eq, not_false_eq_true, if_true, h1]
            simp
    intro es hok hs
    exact key es processStart (by decide) (by decide) hok hs

/-- C12, witness: construct, destroy, construct again. -/
theorem gdiplus_token_witness :
    (lifeStep processStart (Lifetime.construct 7)).gdiplusToken ≠ 0 ∧
    ((lifeRun processStart
        [Lifetime.construct 7, Lifetime.destruct, Lifetime.construct 9]).gdiplusToken ≠ 0 ↔
      0 < (lifeRun processStart
        [Lifetime.construct 7, Lifetime.destruct, Lifetime.construct 9]).alive) :=
  ⟨(gdiplus_token processStart).1 7 (by decide),
   (gdiplus_token processStart).2.2 _
     (by simp [lifeOk, lifeStep, processStart, InitGdiPlus, ShutdownGdiPlus])
     (by simp [lifeSingle, lifeStep, processStart, InitGdiPlus, ShutdownGdiPlus])⟩


/-! ## C13: which setters repaint -/

/-- A repaint of an existing window is counted once. -/
theorem UpdateWindow_paints (s : State) (env : PaintEnv) :
    (UpdateWindow s env).paints = if s.hwnd_ = true then s.paints + 1 else s.paints := by
  by_cases h1 : s.hwnd_ = true
  · rw [if_pos h1]
    have h1' : ¬ s.hwnd_ = false := by simp [h1]
    obtain ⟨ch, e⟩ : ∃ ch, UpdateWindow s env =
        { DrawLyric s env kWindowWidth ch with
          win_width := kWindowWidth, win_height := ch,
          paints := (DrawLyric s env kWindowWidth ch).paints + 1 } := by
      unfold UpdateWindow; rw [if_neg h1']; exact ⟨_, rfl⟩
    rw [e]
    show (DrawLyric s env kWindowWidth ch).paints + 1 = s.paints + 1
    rw [(congrArg State.paints (DrawLyric_frame s env kWindowWidth ch)).trans rfl]
  · rw [if_neg h1]
    have h1' : s.hwnd_ = false := by simpa using h1
    unfold UpdateWindow; rw [if_pos h1']

/-- The repaint count after the conditional repaint that ends a setter. -/
theorem paints_maybe (s : State) (env : PaintEnv) :
    (if IsVisible s = true then UpdateWindow s env else s).paints =
      if IsVisible s = true then s.paints + 1 else s.paints := by
  by_cases hv : IsVisible s = true
  · rw [if_pos hv, if_pos hv, UpdateWindow_paints, if_pos]
    unfold IsVisible at hv
    simp only [Bool.and_eq_true] at hv
    exact hv.1
  · rw [if_neg hv, if_neg hv]

/-- C13, counterexample.  On the visible window `scrollingWindow`, whose panel is
collapsed, `SetPlayingState` requests no repaint. -/
theorem SetPlayingState_visible_no_repaint :
    IsVisible scrollingWindow = true ∧
    (SetPlayingState scrollingWindow true (paintAt 2000 1200)).paints = scrollingWindow.paints := by
  decide!

/-- C13, amended.  Each of `SetLyricText`, `SetTranslationText`, `SetSongInfo`,
`SetFontSize`, `SetTextColor`, `SetStrokeColor`, `SetStrokeWidth` and `SetShowTranslation`
requests exactly one repaint when the window is visible and none otherwise;
`SetPlayingState` requests one repaint when the window is visible and the panel is
expanded and none otherwise.  When the window is not visible each of the nine calls is the
mutation of the stored members alone. -/
theorem setters_repaint (s : State) (env : PaintEnv) :
    ((∀ T now, (SetLyricText s T now env).paints =
        if IsVisible s = true then s.paints + 1 else s.paints) ∧
      (∀ T now, (SetTranslationText s T now env).paints =
        if IsVisible s = true then s.paints + 1 else s.paints) ∧
      (∀ t a c, (SetSongInfo s t a c env).paints =
        if IsVisible s = true then s.paints + 1 else s.paints) ∧
      (∀ n, (SetFontSize s n env).paints =
        if IsVisible s = true then s.paints + 1 else s.paints) ∧
      (∀ c, (SetTextColor s c env).paints =
        if IsVisible s = true then s.paints + 1 else s.paints) ∧
      (∀ c, (SetStrokeColor s c env).paints =
        if IsVisible s = true then s.paints + 1 else s.paints) ∧
      (∀ w, (SetStrokeWidth s w env).paints =
        if IsVisible s = true then s.paints + 1 else s.paints) ∧
      (∀ b, (SetShowTranslation s b env).paints =
        if IsVisible s = true then s.paints + 1 else s.paints) ∧
      (∀ b, (SetPlayingState s b env).paints =
        if IsVisible s = true ∧ s.show_controls_ = true then s.paints + 1 else s.paints)) ∧
    (IsVisible s = false →
      (∀ T now, SetLyricText s T now env =
        if s.lyric_text_ ≠ T then lyricRestarted s T now else s) ∧
      (∀ T now, SetTranslationText s T now env =
        if s.translation_text_ ≠ T then transRestarted s T now else s) ∧
      (∀ t a c, SetSongInfo s t a c env =
        { s with song_title_ := t, song_artist_ := a, album_cover_url_ := c }) ∧
      (∀ n, SetFontSize s n env = { s with font_size_ := n, font_ := true }) ∧
      (∀ c, SetTextColor s c env = { s with text_color_ := c }) ∧
      (∀ c, SetStrokeColor s c env = { s with stroke_color_ := c }) ∧
      (∀ w, SetStrokeWidth s w env = { s with stroke_width_ := w }) ∧
      (∀ b, SetShowTranslation s b env = { s with show_translation_ := b }) ∧
      (∀ b, SetPlayingState s b env = { s with is_playing_ := b })) := by
  constructor
  · refine ⟨?_, ?_, ?_, ?_, ?_, ?_, ?_, ?_, ?_⟩
    · intro T now
      by_cases h : s.lyric_text_ = T
      · subst h; rw [SetLyricText_of_eq]; exact paints_maybe s env
      · rw [SetLyricText_of_ne s T now env h]
        exact paints_maybe (lyricRestarted s T now) env
    · intro T now
      by_cases h : s.translation_text_ = T
      · subst h; rw [SetTranslationText_of_eq]; exact paints_maybe s env
      · rw [SetTranslationText_of_ne s T now env h]
        exact paints_maybe (transRestarted s T now) env
    · intro t a c
      exact paints_maybe { s with song_title_ := t, song_artist_ := a, album_cover_url_ := c } env
    · intro n; exact paints_maybe { s with font_size_ := n, font_ := true } env
    · intro c; exact paints_maybe { s with text_color_ := c } env
    · intro c; exact paints_maybe { s with stroke_color_ := c } env
    · intro w; exact paints_maybe { s with stroke_width_ := w } env
    · intro b; exact paints_maybe { s with show_translation_ := b } env
    · intro b
      unfold SetPlayingState
      simp only []
      by_cases hv : IsVisible s = true
      · by_cases hc : s.show_controls_ = true
        · have e : (IsVisible { s with is_playing_ := b } && s.show_controls_) = true := by
            show (IsVisible s && s.show_controls_) = true
            rw [hv, hc]; rfl
          rw [if_pos e, if_pos ⟨hv, hc⟩, UpdateWindow_paints, if_pos]
          · unfold IsVisible at hv
            simp only [Bool.and_eq_true] at hv
            exact hv.1
        · have e : ¬ (IsVisible { s with is_playing_ := b } && s.show_controls_) = true := by
            show ¬ (IsVisible s && s.show_controls_) = true
            simp [hc]
          rw [if_neg e, if_neg (fun h => hc h.2)]
      · have e : ¬ (IsVisible { s with is_playing_ := b } && s.show_controls_) = true := by
          show ¬ (IsVisible s && s.show_controls_) = true
          simp [hv]
        rw [if_neg e, if_neg (fun h => hv h.1)]
  · intro hv
    have hv' : ¬ IsVisible s = true := by simp [hv]
    have skip : ∀ u : State, IsVisible u = IsVisible s →
        (if IsVisible u = true then UpdateWindow u env else u) = u := by
      intro u hu
      rw [hu, if_neg hv']
    refine ⟨?_, ?_, ?_, ?_, ?_, ?_, ?_, ?_, ?_⟩
    · intro T now
      by_cases h : s.lyric_text_ = T
      · subst h
        rw [SetLyricText_of_eq, if_neg hv', if_neg (by simp)]
      · rw [SetLyricText_of_ne s T now env h, if_pos h]
        exact skip _ rfl
    · intro T now
      by_cases h : s.translation_text_ = T
      · subst h
        rw [SetTranslationText_of_eq, if_neg hv', if_neg (by simp)]
      · rw [SetTranslationText_of_ne s T now env h, if_pos h]
        exact skip _ rfl
    · intro t a c; exact skip _ rfl
    · intro n; exact skip _ rfl
    · intro c; exact skip _ rfl
    · intro c; exact skip _ rfl
    · intro w; exact skip _ rfl
    · intro b; exact skip _ rfl
    · intro b
      unfold SetPlayingState
      simp only []
      have e : ¬ (IsVisible { s with is_playing_ := b } && s.show_controls_) = true := by
        show ¬ (IsVisible s && s.show_controls_) = true
        simp [hv]
      rw [if_neg e]

/-- C13, witness: on the hidden `pendingWindow` the setters only store. -/
theorem setters_repaint_witness :
    SetFontSize pendingWindow 40 (paintAt 2000 1200) =
      { pendingWindow with font_size_ := 40, font_ := true } ∧
    SetPlayingState pendingWindow true (paintAt 2000 1200) =
      { pendingWindow with is_playing_ := true } :=
  ⟨((setters_repaint pendingWindow (paintAt 2000 1200)).2 (by decide!)).2.2.2.1 40,
   ((setters_repaint pendingWindow (paintAt 2000 1200)).2 (by decide!)).2.2.2.2.2.2.2.2 true⟩


/-! ## C16: timers across `Hide` and `Destroy` -/

/-- C16, counterexample.  In `hoveringWindow` both timers are armed.  After `Hide()` both
are still armed, the window is hidden, and the next fire of timer 2 repaints it. -/
theorem Hide_leaves_timers_armed :
    hoveringWindow.timer1 = true ∧ hoveringWindow.timer2 = true ∧
    (Hide hoveringWindow).timer1 = true ∧ (Hide hoveringWindow).timer2 = true ∧
    (Hide hoveringWindow).window_visible = false ∧
    (step (Hide hoveringWindow) (Call.Window (Message.WM_TIMER 2)) (paintAt 1700 1200)).paints =
      (Hide hoveringWindow).paints + 1 := by
  decide!

/-- C16, amended.  `Destroy()` of an existing window leaves neither timer armed, releases
the font handle and the window handle, and no window message reaches the object
afterwards, so no timer event repaints it.  `Hide()` hides an existing window and leaves
both timers as they were. -/
theorem timers_after_Hide_and_Destroy (s : State) :
    (s.hwnd_ = true →
      (Destroy s).timer1 = false ∧ (Destroy s).timer2 = false) ∧
    (Destroy s).font_ = false ∧ (Destroy s).hwnd_ = false ∧
    (∀ (m : Message) (env : PaintEnv), step (Destroy s) (Call.Window m) env = Destroy s) ∧
    (Hide s).timer1 = s.timer1 ∧ (Hide s).timer2 = s.timer2 ∧
    (s.hwnd_ = true → (Hide s).window_visible = false) := by
  have hd : (Destroy s).hwnd_ = false := by
    unfold Destroy; simp only []; split_ifs <;> simp_all
  refine ⟨fun h => ?_, ?_, hd, fun m env => ?_, ?_, ?_, fun h => ?_⟩
  · unfold Destroy; simp only [h, if_true]; split_ifs <;> exact ⟨rfl, rfl⟩
  · unfold Destroy; simp only []; split_ifs <;> simp_all
  · simp only [step, hd, Bool.false_eq_true, if_false]
  · unfold Hide; split_ifs <;> rfl
  · unfold Hide; split_ifs <;> rfl
  · unfold Hide; rw [if_pos h]

/-- C16, witness: `Destroy()` on the window with both timers armed. -/
theorem timers_after_Hide_and_Destroy_witness :
    ((Destroy hoveringWindow).timer1 = false ∧ (Destroy hoveringWindow).timer2 = false) ∧
    (Hide hoveringWindow).window_visible = false :=
  ⟨(timers_after_Hide_and_Destroy hoveringWindow).1 (by decide!),
   (timers_after_Hide_and_Destroy hoveringWindow).2.2.2.2.2.2 (by decide!)⟩

/-! ## C17: the arming of the scroll timer -/

/-- A repaint that measures ends with the block `scrollTimer`. -/
theorem DrawLyric_measuring (s : State) (env : PaintEnv) (w h : Int)
    (hc : s.show_controls_ = false) (ht : s.lyric_text_ ≠ "") :
    ∃ u : State, DrawLyric s env w h = scrollTimer u env.currentTime w ∧
      u.hwnd_ = s.hwnd_ ∧ u.show_controls_ = s.show_controls_ ∧
      u.lyric_text_width_ = env.lyricWidth ∧
      u.trans_text_width_ =
        (if s.show_translation_ = true ∧ s.translation_text_ ≠ "" then env.transWidth
          else s.trans_text_width_) ∧
      ((s.show_translation_ = true ∧ s.translation_text_ ≠ "") ∨
        transLine u = transLine s) := by
  have h2 : ¬ s.show_controls_ = true := by simp [hc]
  by_cases h4 : (s.show_translation_ && decide (s.translation_text_ ≠ "")) = true
  · have h4' : s.show_translation_ = true ∧ s.translation_text_ ≠ "" := by
      simpa using h4
    refine ⟨transScroll { lyricScroll { s with lyric_text_width_ := env.lyricWidth }
        env.currentTime w with trans_text_width_ := env.transWidth } env.currentTime w,
      ?_, ?_, ?_, ?_, ?_, Or.inl h4'⟩
    · unfold DrawLyric; rw [if_neg h2, if_neg ht]; simp only [h4, if_true]
    · rw [transScroll_eq, lyricScroll_eq]
    · rw [transScroll_eq, lyricScroll_eq]
    · rw [transScroll_eq, lyricScroll_eq]
    · rw [transScroll_eq, lyricScroll_eq, if_pos h4']
  · have h4' : ¬ (s.show_translation_ = true ∧ s.translation_text_ ≠ "") := by
      simpa using h4
    refine ⟨lyricScroll { s with lyric_text_width_ := env.lyricWidth } env.currentTime w,
      ?_, ?_, ?_, ?_, ?_, Or.inr ?_⟩
    · unfold DrawLyric; rw [if_neg h2, if_neg ht]; simp only [h4]; rfl
    · rw [lyricScroll_eq]
    · rw [lyricScroll_eq]
    · rw [lyricScroll_eq]
    · rw [lyricScroll_eq, if_neg h4']
    · rw [lyricScroll_eq]; rfl

/-- C17, counterexample.  The window `expandedWindow` has just been repainted with its
panel expanded, and timer 2 is still armed: that repaint returned before the timer code. -/
theorem expanded_repaint_leaves_timer_armed :
    hoveringWindow.timer2 = true ∧ hoveringWindow.hwnd_ = true ∧
    expandedWindow.paints = hoveringWindow.paints + 1 ∧
    expandedWindow.show_controls_ = true ∧ expandedWindow.timer2 = true := by
  decide!

/-- C17, amended.  After a repaint of a created window with the panel collapsed and a
non-empty lyric text, in which the translation is drawn or its needs-scroll flag is false,
timer 2 is armed if and only if the lyric line needs scrolling and is pausing or short of
`Tw - W + 40`, or the translation is shown (enabled and non-empty), needs scrolling and is
pausing or short of its own range.  A repaint with the panel expanded or with an empty
lyric text returns early and leaves the timer as it was; the handler of timer 2 then
disarms it, without repainting, when the panel is expanded or no line needs scrolling. -/
theorem scroll_timer_armed (s : State) (env : PaintEnv) (W h : Int) :
    (s.hwnd_ = true → s.show_controls_ = false → s.lyric_text_ ≠ "" →
      ((s.show_translation_ = true ∧ s.translation_text_ ≠ "") ∨
        s.trans_needs_scroll_ = false) →
      ((DrawLyric s env W h).timer2 = true ↔
        ((DrawLyric s env W h).lyric_needs_scroll_ = true ∧
          (0 < (DrawLyric s env W h).lyric_scroll_pause_start_ ∨
            (DrawLyric s env W h).lyric_scroll_offset_ < env.lyricWidth - (W : ℚ) + 40)) ∨
        (s.show_translation_ = true ∧ s.translation_text_ ≠ "" ∧
          (DrawLyric s env W h).trans_needs_scroll_ = true ∧
          (0 < (DrawLyric s env W h).trans_scroll_pause_start_ ∨
            (DrawLyric s env W h).trans_scroll_offset_ < env.transWidth - (W : ℚ) + 40)))) ∧
    (s.show_controls_ = true ∨ s.lyric_text_ = "" →
      (DrawLyric s env W h).timer2 = s.timer2) ∧
    (s.show_controls_ = true ∨
        (s.lyric_needs_scroll_ = false ∧ s.trans_needs_scroll_ = false) →
      WndProc s (Message.WM_TIMER 2) env = { s with timer2 := false }) := by
  refine ⟨fun hh hc ht hx => ?_, fun hq => ?_, fun hq => ?_⟩
  · obtain ⟨u, e, hu1, hu2, hu3, hu4, hu5⟩ := DrawLyric_measuring s env W h hc ht
    rw [e, scrollTimer_eq]
    simp only [hu1, hu2, hu3, hh, hc, Bool.not_false, Bool.and_true]
    rcases hx with hx | hx
    · rw [hu4, if_pos hx]
      simp [hx.1, hx.2]
    · by_cases hs : s.show_translation_ = true ∧ s.translation_text_ ≠ ""
      · rw [hu4, if_pos hs]
        simp [hs.1, hs.2]
      · have hl : transLine u = transLine s := by
          rcases hu5 with h5 | h5
          · exact absurd h5 hs
          · exact h5
        have hn : u.trans_needs_scroll_ = false :=
          (congrArg Line.needs_scroll hl).trans hx
        have hs' : ¬ (s.show_translation_ = true ∧ ¬ s.translation_text_ = "") := hs
        simp [hn, hs']
  · rcases hq with hq | hq
    · have e : DrawLyric s env W h = DrawControlPanel s W h := by
        unfold DrawLyric; rw [if_pos hq]
      rw [e]; rfl
    · by_cases hc : s.show_controls_ = true
      · have e : DrawLyric s env W h = DrawControlPanel s W h := by
          unfold DrawLyric; rw [if_pos hc]
        rw [e]; rfl
      · have e : DrawLyric s env W h = s := by
          unfold DrawLyric; rw [if_neg hc, if_pos hq]
        rw [e]
  · have h2 : ¬ (s.show_controls_ = false ∧
        (s.lyric_needs_scroll_ = true ∨ s.trans_needs_scroll_ = true)) := by
      rintro ⟨a, b⟩
      rcases hq with hq | ⟨hq1, hq2⟩
      · rw [hq] at a; cases a
      · rcases b with b | b
        · rw [hq1] at b; cases b
        · rw [hq2] at b; cases b
    simp only [WndProc]
    simp only [OfNat.ofNat_ne_one, false_and, if_false, if_true, h2]

/-- C17, witness: a repaint of the scrolling window arms the timer, a repaint of the
expanded window leaves it as it was, and the handler of timer 2 disarms it there. -/
theorem scroll_timer_armed_witness :
    ((DrawLyric scrollingWindow (paintAt 2000 1200) 800 100).timer2 = true ↔
      ((DrawLyric scrollingWindow (paintAt 2000 1200) 800 100).lyric_needs_scroll_ = true ∧
        (0 < (DrawLyric scrollingWindow (paintAt 2000 1200) 800 100).lyric_scroll_pause_start_ ∨
          (DrawLyric scrollingWindow (paintAt 2000 1200) 800 100).lyric_scroll_offset_ <
            (paintAt 2000 1200).lyricWidth - ((800 : Int) : ℚ) + 40)) ∨
      (scrollingWindow.show_translation_ = true ∧ scrollingWindow.translation_text_ ≠ "" ∧
        (DrawLyric scrollingWindow (paintAt 2000 1200) 800 100).trans_needs_scroll_ = true ∧
        (0 < (DrawLyric scrollingWindow (paintAt 2000 1200) 800 100).trans_scroll_pause_start_ ∨
          (DrawLyric scrollingWindow (paintAt 2000 1200) 800 100).trans_scroll_offset_ <
            (paintAt 2000 1200).transWidth - ((800 : Int) : ℚ) + 40))) ∧
    (DrawLyric expandedWindow (paintAt 2000 1200) 800 243).timer2 = expandedWindow.timer2 ∧
    WndProc expandedWindow (Message.WM_TIMER 2) (paintAt 2000 1200) =
      { expandedWindow with timer2 := false } :=
  ⟨(scroll_timer_armed scrollingWindow (paintAt 2000 1200) 800 100).1
      (by decide!) (by decide!) (by decide!) (Or.inr (by decide!)),
   (scroll_timer_armed expandedWindow (paintAt 2000 1200) 800 243).2.1 (Or.inl (by decide!)),
   (scroll_timer_armed expandedWindow (paintAt 2000 1200) 800 243).2.2 (Or.inl (by decide!))⟩


/-! ## C18: the buttons lie inside the panel -/

/-- An integer inside the range of `int` is its own 32-bit value. -/
theorem int32_of_range (x : Int) (h1 : -2147483648 ≤ x) (h2 : x ≤ 2147483647) :
    int32 x = x := by
  unfold int32
  omega

/-- The words of a packed `lparam` are the coordinates modulo 65536. -/
theorem LOWORD_HIWORD_packLParam (mx my : Int) :
    LOWORD (packLParam mx my) = mx % 65536 ∧ HIWORD (packLParam mx my) = my % 65536 := by
  unfold LOWORD HIWORD packLParam
  constructor <;> omega

/-- For client coordinates that are not negative, a pointer-move during a drag moves the
window by the pointer's offset from the press anchor. -/
theorem drag_move_nonneg (s : State) (mx my : Int) (now : Nat) (env : PaintEnv)
    (hd : s.is_dragging_ = true)
    (hx : 0 ≤ mx ∧ mx ≤ 32767) (hy : 0 ≤ my ∧ my ≤ 32767) :
    (WndProc s (Message.WM_MOUSEMOVE (packLParam mx my) now) env).win_left =
      s.win_left + mx - s.drag_point_.x ∧
    (WndProc s (Message.WM_MOUSEMOVE (packLParam mx my) now) env).win_top =
      s.win_top + my - s.drag_point_.y := by
  obtain ⟨hl, hh⟩ := LOWORD_HIWORD_packLParam mx my
  have e1 : mx % 65536 = mx := by omega
  have e2 : my % 65536 = my := by omega
  simp only [WndProc, hd, if_true, hl, hh, e1, e2]
  split_ifs <;> constructor <;> dsimp only <;> omega

/-- C19, the code at the failing input.  A drag is active with anchor (5, 5) and the
window at (560, 880).  A pointer-move at the client point (-1, 3), packed into `lparam`
as the words 65535 and 3, moves the window to x = 560 + 65535 - 5 = 66090 instead of
560 + (-1) - 5 = 554; the y coordinate, which is not negative, is 880 + 3 - 5 = 878. -/
theorem drag_move_negative_x :
    draggingWindow.is_dragging_ = true ∧ draggingWindow.drag_point_ = ⟨5, 5⟩ ∧
    draggingWindow.win_left = 560 ∧ draggingWindow.win_top = 880 ∧
    (WndProc draggingWindow (Message.WM_MOUSEMOVE (packLParam (-1) 3) 2000)
      (paintAt 2000 1200)).win_left = 66090 ∧
    (WndProc draggingWindow (Message.WM_MOUSEMOVE (packLParam (-1) 3) 2000)
      (paintAt 2000 1200)).win_left ≠ 560 + (-1) - 5 ∧
    (WndProc draggingWindow (Message.WM_MOUSEMOVE (packLParam (-1) 3) 2000)
      (paintAt 2000 1200)).win_top = 880 + 3 - 5 := by
  decide!


/-! ## C20: the scroll completes within 90 % of the line duration -/

/-- The pause member after the scroll block. -/
theorem scrollLine_pause_start (Tw : ℚ) (W : Int) (dur t last : Nat) (l : Line) :
    (scrollLine Tw W dur t last l).pause_start =
      if Tw > (W : ℚ) - 40 ∧ 0 < l.pause_start ∧ kScrollPauseMs ≤ dwordSub t l.pause_start
      then 0 else l.pause_start := by
  unfold scrollLine
  by_cases h : Tw > (W : ℚ) - 40
  · by_cases hp : l.pause_start > 0
    · by_cases he : dwordSub t l.pause_start ≥ kScrollPauseMs
      · simp [h, hp, he]
      · simp [h, hp, he]
    · by_cases ho : l.offset < Tw - (W : ℚ) + 40
      · simp [h, hp, ho]
      · simp [h, hp, ho]
  · simp [h]

/-- Unsigned subtraction of two ticks that have not wrapped. -/
theorem dwordSub_cast (a b : Nat) (hab : b ≤ a) (ha : a < 4294967296) :
    ((dwordSub a b : Nat) : ℚ) = (a : ℚ) - (b : ℚ) := by
  have e : dwordSub a b = a - b := by
    unfold dwordSub
    omega
  rw [e, Nat.cast_sub hab]

/-- One compact repaint of a line that is scrolling at the cached speed `v`, at a tick
`e.currentTime` not before the previous one: the offset is the distance covered since the
tick `tp` at which the pause ended, capped at the scroll range. -/
theorem DrawLyric_scrolling (W h : Int) (Tw v : ℚ) (tp : Nat) (u : State) (e : PaintEnv)
    (hM : 0 < Tw - (W : ℚ) + 40) (hv : 0 < v)
    (hc : u.show_controls_ = false) (ht : u.lyric_text_ ≠ "")
    (hp : u.lyric_scroll_pause_start_ = 0) (hs : u.lyric_scroll_speed_ = v)
    (ho : u.lyric_scroll_offset_ =
      min (v * ((u.last_scroll_time_ : ℚ) - (tp : ℚ)) / 1000) (Tw - (W : ℚ) + 40))
    (hle : u.last_scroll_time_ ≤ e.currentTime) (hlt : e.currentTime < 4294967296)
    (hw : e.lyricWidth = Tw) :
    (DrawLyric u e W h).show_controls_ = false ∧
    (DrawLyric u e W h).lyric_text_ ≠ "" ∧
    (DrawLyric u e W h).lyric_scroll_pause_start_ = 0 ∧
    (DrawLyric u e W h).lyric_scroll_speed_ = v ∧
    (DrawLyric u e W h).last_scroll_time_ = e.currentTime ∧
    (DrawLyric u e W h).lyric_scroll_offset_ =
      min (v * ((e.currentTime : ℚ) - (tp : ℚ)) / 1000) (Tw - (W : ℚ) + 40) := by
  have hwide : Tw > (W : ℚ) - 40 := by linarith
  have hline := DrawLyric_lyricLine u e W h
  rw [if_pos ⟨hc, ht⟩, hw] at hline
  have e1 : (DrawLyric u e W h).show_controls_ = u.show_controls_ :=
    (congrArg State.show_controls_ (DrawLyric_frame u e W h)).trans rfl
  have e2 : (DrawLyric u e W h).lyric_text_ = u.lyric_text_ :=
    (congrArg State.lyric_text_ (DrawLyric_frame u e W h)).trans rfl
  have e3 : (DrawLyric u e W h).lyric_scroll_pause_start_ = 0 := by
    have := congrArg Line.pause_start hline
    rw [scrollLine_pause_start, if_neg] at this
    · exact this.trans hp
    · intro hcon
      have : (lyricLine u).pause_start = 0 := hp
      omega
  have e4 : (DrawLyric u e W h).lyric_scroll_speed_ = v := by
    have := congrArg Line.speed hline
    rw [scrollLine_speed, if_pos hwide] at this
    refine this.trans ?_
    have hs2 : (lyricLine u).speed = v := hs
    rw [hs2]
    exact speedNow_keep _ _ _ hv
  have e5 := DrawLyric_last_scroll_time u e W h hc ht
  have e6 : (DrawLyric u e W h).lyric_scroll_offset_ =
      min (v * ((e.currentTime : ℚ) - (tp : ℚ)) / 1000) (Tw - (W : ℚ) + 40) := by
    have := congrArg Line.offset hline
    rw [scrollLine_offset] at this
    refine this.trans ?_
    have hp2 : (lyricLine u).pause_start = 0 := hp
    have hs2 : (lyricLine u).speed = v := hs
    have ho2 : (lyricLine u).offset =
        min (v * ((u.last_scroll_time_ : ℚ) - (tp : ℚ)) / 1000) (Tw - (W : ℚ) + 40) := ho
    have hd := dwordSub_cast e.currentTime u.last_scroll_time_ hle hlt
    have hstep : (0 : ℚ) ≤ v * ((e.currentTime : ℚ) - (u.last_scroll_time_ : ℚ)) / 1000 := by
      have : (u.last_scroll_time_ : ℚ) ≤ (e.currentTime : ℚ) := Nat.cast_le.mpr hle
      exact div_nonneg (mul_nonneg hv.le (by linarith)) (by norm_num)
    rw [hs2, speedNow_keep _ _ _ hv, hd]
    by_cases hlow : (lyricLine u).offset < Tw - (W : ℚ) + 40
    · rw [if_pos ⟨hwide, hp2, hlow⟩]
      have hoff : (lyricLine u).offset =
          v * ((u.last_scroll_time_ : ℚ) - (tp : ℚ)) / 1000 := by
        rw [ho2] at hlow ⊢
        rcases min_choice (v * ((u.last_scroll_time_ : ℚ) - (tp : ℚ)) / 1000)
          (Tw - (W : ℚ) + 40) with hm | hm
        · exact hm
        · rw [hm] at hlow
          exact absurd hlow (lt_irrefl _)
      rw [hoff]
      congr 1
      ring
    · rw [if_neg (fun hcon => hlow hcon.2.2)]
      have hge : Tw - (W : ℚ) + 40 ≤
          v * ((u.last_scroll_time_ : ℚ) - (tp : ℚ)) / 1000 := by
        by_contra hcon
        apply hlow
        rw [ho2]
        exact lt_of_le_of_lt (min_le_left _ _) (not_le.mp hcon)
      have hfull : (lyricLine u).offset = Tw - (W : ℚ) + 40 := by
        rw [ho2]
        exact min_eq_right hge
      rw [hfull]
      symm
      apply min_eq_right
      have : v * ((e.currentTime : ℚ) - (tp : ℚ)) / 1000 =
          v * ((u.last_scroll_time_ : ℚ) - (tp : ℚ)) / 1000 +
            v * ((e.currentTime : ℚ) - (u.last_scroll_time_ : ℚ)) / 1000 := by ring
      linarith
  exact ⟨e1.trans hc, fun hcon => ht (e2.symm.trans hcon), e3, e4, e5, e6⟩

/-- A run of compact repaints of a line that is scrolling at the cached speed `v`, at
ticks that do not decrease and do not wrap, with the measured width constant: after the
run the offset is the distance covered between the tick `tp` at which the pause ended and
the tick of the last repaint, capped at the scroll range. -/
theorem frames_scrolling (W h : Int) (Tw v : ℚ) (tp : Nat)
    (hM : 0 < Tw - (W : ℚ) + 40) (hv : 0 < v) (es : List PaintEnv) :
    ∀ u : State, u.show_controls_ = false → u.lyric_text_ ≠ "" →
      u.lyric_scroll_pause_start_ = 0 → u.lyric_scroll_speed_ = v →
      u.lyric_scroll_offset_ =
        min (v * ((u.last_scroll_time_ : ℚ) - (tp : ℚ)) / 1000) (Tw - (W : ℚ) + 40) →
      ticksFrom u.last_scroll_time_ es → (∀ e ∈ es, e.lyricWidth = Tw) →
      (frames u W h es).lyric_scroll_pause_start_ = 0 ∧
      (frames u W h es).lyric_scroll_speed_ = v ∧
      (frames u W h es).last_scroll_time_ = lastTick u.last_scroll_time_ es ∧
      (frames u W h es).lyric_scroll_offset_ =
        min (v * ((lastTick u.last_scroll_time_ es : ℚ) - (tp : ℚ)) / 1000)
          (Tw - (W : ℚ) + 40) := by
  induction es with
  | nil =>
    intro u _ _ hp hs ho _ _
    exact ⟨hp, hs, rfl, ho⟩
  | cons e es ih =>
    intro u hc ht hp hs ho hticks hw
    obtain ⟨hle, hlt, hrest⟩ := hticks
    obtain ⟨a1, a2, a3, a4, a5, a6⟩ := DrawLyric_scrolling W h Tw v tp u e hM hv hc ht hp hs ho
      hle hlt (hw e (List.mem_cons_self _ _))
    have hrest2 : ticksFrom (DrawLyric u e W h).last_scroll_time_ es := by
      rw [a5]; exact hrest
    have ho2 : (DrawLyric u e W h).lyric_scroll_offset_ =
        min (v * (((DrawLyric u e W h).last_scroll_time_ : ℚ) - (tp : ℚ)) / 1000)
          (Tw - (W : ℚ) + 40) := by
      rw [a5]; exact a6
    have := ih (DrawLyric u e W h) a1 a2 a3 a4 ho2 hrest2
      (fun e2 he2 => hw e2 (List.mem_cons_of_mem _ he2))
    rw [a5] at this
    exact this

/-- The repaint that ends the pause: the offset stays zero, the pause is cleared and the
speed is the cached one or, when none is cached, the derived one. -/
theorem DrawLyric_ends_pause (s : State) (e : PaintEnv) (W h : Int)
    (hc : s.show_controls_ = false) (ht : s.lyric_text_ ≠ "")
    (hM : 0 < e.lyricWidth - (W : ℚ) + 40)
    (hp : 0 < s.lyric_scroll_pause_start_)
    (hend : kScrollPauseMs ≤ dwordSub e.currentTime s.lyric_scroll_pause_start_) :
    (DrawLyric s e W h).show_controls_ = false ∧
    (DrawLyric s e W h).lyric_text_ ≠ "" ∧
    (DrawLyric s e W h).lyric_scroll_pause_start_ = 0 ∧
    (DrawLyric s e W h).lyric_scroll_speed_ =
      speedNow s.lyric_duration_ms_ (e.lyricWidth - (W : ℚ) + 40) s.lyric_scroll_speed_ ∧
    (DrawLyric s e W h).last_scroll_time_ = e.currentTime ∧
    (DrawLyric s e W h).lyric_scroll_offset_ = s.lyric_scroll_offset_ := by
  have hwide : e.lyricWidth > (W : ℚ) - 40 := by linarith
  have hline := DrawLyric_lyricLine s e W h
  rw [if_pos ⟨hc, ht⟩] at hline
  have e1 : (DrawLyric s e W h).show_controls_ = s.show_controls_ :=
    (congrArg State.show_controls_ (DrawLyric_frame s e W h)).trans rfl
  have e2 : (DrawLyric s e W h).lyric_text_ = s.lyric_text_ :=
    (congrArg State.lyric_text_ (DrawLyric_frame s e W h)).trans rfl
  refine ⟨e1.trans hc, fun hcon => ht (e2.symm.trans hcon), ?_, ?_,
    DrawLyric_last_scroll_time s e W h hc ht, ?_⟩
  · have := congrArg Line.pause_start hline
    rw [scrollLine_pause_start, if_pos ⟨hwide, hp, hend⟩] at this
    exact this
  · have := congrArg Line.speed hline
    rw [scrollLine_speed, if_pos hwide] at this
    exact this
  · have := congrArg Line.offset hline
    rw [scrollLine_offset_paused _ _ _ _ _ _ hp] at this
    exact this

/-- C20.  A line with a positive scroll range `maxScroll = Tw - W + 40`, a duration `d`
with `d * 0.9 - 500 > 100`, offset 0, its pause pending, and its speed either not yet
derived or already the derived one.  The compact repaint at tick `tp` ends the pause;
then follow compact repaints at ticks that do not decrease and do not wrap, all measuring
the same width.  Then the speed `v` after the repaint at `tp` satisfies
`v * (d * 0.9 - 500) / 1000 = maxScroll` and stays cached; after the run the offset is
`min (v * (last - tp) / 1000) maxScroll` for the tick `last` of the last repaint, so it
is exactly `maxScroll` as soon as `last - tp >= d * 0.9 - 500`; in particular, if the
pause ended 500 ms after a tick `t0`, the scroll is complete at any repaint at or after
`t0 + 0.9 * d`, and `0.9 * d < d`. -/
theorem scroll_completes_in_time (s : State) (Tw twp : ℚ) (W h : Int) (tp : Nat)
    (es : List PaintEnv)
    (hc : s.show_controls_ = false) (ht : s.lyric_text_ ≠ "")
    (havail : (s.lyric_duration_ms_ : ℚ) * (9 / 10) - 500 > 100)
    (hM : 0 < Tw - (W : ℚ) + 40)
    (hsp : s.lyric_scroll_speed_ ≤ 0 ∨ s.lyric_scroll_speed_ =
      (Tw - (W : ℚ) + 40) / (((s.lyric_duration_ms_ : ℚ) * (9 / 10) - 500) / 1000))
    (hoff : s.lyric_scroll_offset_ = 0)
    (hp : 0 < s.lyric_scroll_pause_start_)
    (hend : kScrollPauseMs ≤ dwordSub tp s.lyric_scroll_pause_start_)
    (hticks : ticksFrom tp es) (hw : ∀ e ∈ es, e.lyricWidth = Tw) :
    (DrawLyric s ⟨tp, Tw, twp⟩ W h).lyric_scroll_speed_ *
        (((s.lyric_duration_ms_ : ℚ) * (9 / 10) - 500) / 1000) = Tw - (W : ℚ) + 40 ∧
    (DrawLyric s ⟨tp, Tw, twp⟩ W h).lyric_scroll_pause_start_ = 0 ∧
    (frames (DrawLyric s ⟨tp, Tw, twp⟩ W h) W h es).lyric_scroll_speed_ =
      (DrawLyric s ⟨tp, Tw, twp⟩ W h).lyric_scroll_speed_ ∧
    (frames (DrawLyric s ⟨tp, Tw, twp⟩ W h) W h es).last_scroll_time_ = lastTick tp es ∧
    (frames (DrawLyric s ⟨tp, Tw, twp⟩ W h) W h es).lyric_scroll_offset_ =
      min ((DrawLyric s ⟨tp, Tw, twp⟩ W h).lyric_scroll_speed_ *
        ((lastTick tp es : ℚ) - (tp : ℚ)) / 1000) (Tw - (W : ℚ) + 40) ∧
    ((s.lyric_duration_ms_ : ℚ) * (9 / 10) - 500 ≤ (lastTick tp es : ℚ) - (tp : ℚ) →
      (frames (DrawLyric s ⟨tp, Tw, twp⟩ W h) W h es).lyric_scroll_offset_ =
        Tw - (W : ℚ) + 40) ∧
    (∀ t0 : Nat, tp = t0 + 500 →
      (t0 : ℚ) + (s.lyric_duration_ms_ : ℚ) * (9 / 10) ≤ (lastTick tp es : ℚ) →
      (frames (DrawLyric s ⟨tp, Tw, twp⟩ W h) W h es).lyric_scroll_offset_ =
        Tw - (W : ℚ) + 40) ∧
    (s.lyric_duration_ms_ : ℚ) * (9 / 10) < (s.lyric_duration_ms_ : ℚ) := by
  have hk : ((kScrollPauseMs : Nat) : ℚ) = 500 := by norm_num [kScrollPauseMs]
  have hA : (0 : ℚ) < ((s.lyric_duration_ms_ : ℚ) * (9 / 10) - 500) / 1000 := by
    apply div_pos <;> linarith
  obtain ⟨b1, b2, b3, b4, b5, b6⟩ := DrawLyric_ends_pause s ⟨tp, Tw, twp⟩ W h hc ht hM hp hend
  have hspeed : (DrawLyric s ⟨tp, Tw, twp⟩ W h).lyric_scroll_speed_ =
      (Tw - (W : ℚ) + 40) / (((s.lyric_duration_ms_ : ℚ) * (9 / 10) - 500) / 1000) := by
    rw [b4]
    rcases hsp with h0 | hcached
    · unfold speedNow
      rw [if_pos ⟨h0, hM⟩, hk, if_pos havail]
    · rw [speedNow_keep _ _ _ (by rw [hcached]; exact div_pos hM hA)]
      exact hcached
  have hvpos : 0 < (DrawLyric s ⟨tp, Tw, twp⟩ W h).lyric_scroll_speed_ := by
    rw [hspeed]; exact div_pos hM hA
  have hrel : (DrawLyric s ⟨tp, Tw, twp⟩ W h).lyric_scroll_speed_ *
      (((s.lyric_duration_ms_ : ℚ) * (9 / 10) - 500) / 1000) = Tw - (W : ℚ) + 40 := by
    rw [hspeed]
    exact div_mul_cancel₀ _ (ne_of_gt hA)
  have ho1 : (DrawLyric s ⟨tp, Tw, twp⟩ W h).lyric_scroll_offset_ =
      min ((DrawLyric s ⟨tp, Tw, twp⟩ W h).lyric_scroll_speed_ *
        (((DrawLyric s ⟨tp, Tw, twp⟩ W h).last_scroll_time_ : ℚ) - (tp : ℚ)) / 1000)
        (Tw - (W : ℚ) + 40) := by
    rw [b6, hoff, b5]
    simp only [sub_self, mul_zero, zero_div]
    exact (min_eq_left hM.le).symm
  have hticks2 : ticksFrom (DrawLyric s ⟨tp, Tw, twp⟩ W h).last_scroll_time_ es := by
    rw [b5]; exact hticks
  obtain ⟨c1, c2, c3, c4⟩ := frames_scrolling W h Tw _ tp hM hvpos es
    (DrawLyric s ⟨tp, Tw, twp⟩ W h) b1 b2 b3 rfl ho1 hticks2 hw
  rw [b5] at c3 c4
  have hdone : (s.lyric_duration_ms_ : ℚ) * (9 / 10) - 500 ≤ (lastTick tp es : ℚ) - (tp : ℚ) →
      (frames (DrawLyric s ⟨tp, Tw, twp⟩ W h) W h es).lyric_scroll_offset_ =
        Tw - (W : ℚ) + 40 := by
    intro hlate
    rw [c4]
    apply min_eq_right
    rw [← hrel, mul_div_assoc]
    apply mul_le_mul_of_nonneg_left _ hvpos.le
    exact div_le_div_of_nonneg_right hlate (by norm_num)
  refine ⟨hrel, b3, c2, c3, c4, hdone, ?_, by linarith⟩
  intro t0 htp hlate
  apply hdone
  have hcast : (tp : ℚ) = (t0 : ℚ) + 500 := by
    rw [htp]
    push_cast
    rfl
  linarith

/-- C20, witness: the window `dwellingWindow` (duration 3000 ms, width 1200 px, viewport
800 px, so `maxScroll = 440` and the speed is 200 px/s); the pause ends at tick 1500 and
the repaints at ticks 2600 and 3700 follow. -/
theorem scroll_completes_in_time_witness :
    (dwellingWindow.show_controls_ = false ∧ dwellingWindow.lyric_text_ ≠ "" ∧
      (dwellingWindow.lyric_duration_ms_ : ℚ) * (9 / 10) - 500 > 100 ∧
      kScrollPauseMs ≤ dwordSub 1500 dwellingWindow.lyric_scroll_pause_start_) ∧
    (DrawLyric dwellingWindow ⟨1500, 1200, 0⟩ 800 100).lyric_scroll_speed_ *
        (((dwellingWindow.lyric_duration_ms_ : ℚ) * (9 / 10) - 500) / 1000) =
      1200 - ((800 : Int) : ℚ) + 40 ∧
    (frames (DrawLyric dwellingWindow ⟨1500, 1200, 0⟩ 800 100) 800 100
      [paintAt 2600 1200, paintAt 3700 1200]).lyric_scroll_offset_ =
      1200 - ((800 : Int) : ℚ) + 40 :=
  ⟨⟨by decide!, by decide!, by decide!, by decide!⟩,
   (scroll_completes_in_time dwellingWindow 1200 0 800 100 1500
      [paintAt 2600 1200, paintAt 3700 1200] (by decide!) (by decide!) (by decide!)
      (by decide!) (by decide!) (by decide!) (by decide!) (by decide!)
      ⟨by decide, by decide, by decide, by decide, trivial⟩
      (by
        intro e he
        simp only [List.mem_cons, List.mem_singleton, List.not_mem_nil, or_false] at he
        rcases he with rfl | rfl <;> rfl)).1,
   (scroll_completes_in_time dwellingWindow 1200 0 800 100 1500
      [paintAt 2600 1200, paintAt 3700 1200] (by decide!) (by decide!) (by decide!)
      (by decide!) (by decide!) (by decide!) (by decide!) (by decide!)
      ⟨by decide, by decide, by decide, by decide, trivial⟩
      (by
        intro e he
        simp only [List.mem_cons, List.mem_singleton, List.not_mem_nil, or_false] at he
        rcases he with rfl | rfl <;> rfl)).2.2.2.2.2.1 (by decide!)⟩


/-! ## C21: the button rectangles are pairwise disjoint -/

/-- Effect of a repaint on the frame time. -/
theorem UpdateWindow_last_scroll_time (s : State) (env : PaintEnv) :
    (UpdateWindow s env).last_scroll_time_ =
      if s.hwnd_ = true ∧ s.show_controls_ = false ∧ s.lyric_text_ ≠ "" then env.currentTime
      else s.last_scroll_time_ := by
  by_cases h1 : s.hwnd_ = true <;> by_cases h2 : s.show_controls_ = true <;>
    by_cases h3 : s.lyric_text_ = "" <;>
    simp [UpdateWindow, DrawLyric, DrawControlPanel, h1, h2, h3, lyricScroll_eq,
      transScroll_eq, scrollTimer_eq]

/-- A state that agrees with `s` on the lyric text, line and frame time is related to
`s`. -/
theorem LyricTimed_same (env : PaintEnv) (s s' : State)
    (ht : s'.lyric_text_ = s.lyric_text_) (h : lyricClock s' = lyricClock s) :
    LyricTimed env s s' :=
  ⟨ht, Or.inl h⟩

/-- A repaint keeps the lyric text; it is a compact repaint or leaves line and frame time
alone. -/
theorem LyricTimed_UpdateWindow (env : PaintEnv) (s s' : State)
    (ht : s'.lyric_text_ = s.lyric_text_) (h : lyricClock s' = lyricClock s) :
    LyricTimed env s (UpdateWindow s' env) := by
  have h1 : lyricLine s' = lyricLine s := congrArg Prod.fst h
  have h2 : s'.last_scroll_time_ = s.last_scroll_time_ := congrArg Prod.snd h
  constructor
  · exact (congrArg State.lyric_text_ (UpdateWindow_frame s' env)).trans ht
  · by_cases hc : s'.hwnd_ = true ∧ s'.show_controls_ = false ∧ s'.lyric_text_ ≠ ""
    · right
      refine ⟨s'.lyric_duration_ms_, ?_⟩
      have e1 := UpdateWindow_lyricLine s' env
      have e2 := UpdateWindow_last_scroll_time s' env
      rw [if_pos hc] at e1 e2
      rw [h1, h2] at e1
      exact Prod.ext e1 e2
    · left
      have e1 := UpdateWindow_lyricLine s' env
      have e2 := UpdateWindow_last_scroll_time s' env
      rw [if_neg hc] at e1 e2
      exact Prod.ext (e1.trans h1) (e2.trans h2)

/-- The same for the conditional repaint at the end of a setter. -/
theorem LyricTimed_maybe (env : PaintEnv) (s s' : State) (b : Bool)
    (ht : s'.lyric_text_ = s.lyric_text_) (h : lyricClock s' = lyricClock s) :
    LyricTimed env s (if b = true then UpdateWindow s' env else s') := by
  cases b
  · simpa using LyricTimed_same env s s' ht h
  · simpa using LyricTimed_UpdateWindow env s s' ht h

/-- Effect of a window message on the lyric text, line and frame time. -/
theorem WndProc_LyricTimed (s : State) (m : Message) (env : PaintEnv) :
    LyricTimed env s (WndProc s m env) := by
  cases m with
  | WM_LBUTTONDOWN lparam =>
    have hf := HandleButtonClick_frame s ⟨LOWORD lparam, HIWORD lparam⟩
    have hl : lyricClock (HandleButtonClick s ⟨LOWORD lparam, HIWORD lparam⟩).1 = lyricClock s :=
      (congrArg lyricClock hf).trans rfl
    have ht : (HandleButtonClick s ⟨LOWORD lparam, HIWORD lparam⟩).1.lyric_text_ = s.lyric_text_ :=
      (congrArg State.lyric_text_ hf).trans rfl
    have key : ∀ (r : State × Bool) (p : POINT),
        r.1.lyric_text_ = s.lyric_text_ → lyricClock r.1 = lyricClock s →
        LyricTimed env s (if (!r.2 && r.1.is_draggable_) = true then
          { r.1 with is_dragging_ := true, drag_point_ := p, captured := true } else r.1) := by
      intro r p h1 h2
      split_ifs
      · exact LyricTimed_same env s _ h1 h2
      · exact LyricTimed_same env s _ h1 h2
    refine key (if s.show_controls_ = true then HandleButtonClick s ⟨LOWORD lparam, HIWORD lparam⟩
      else (s, false)) _ ?_ ?_
    · split_ifs
      · exact ht
      · rfl
    · split_ifs
      · exact hl
      · rfl
  | WM_LBUTTONUP =>
    apply LyricTimed_same <;> (unfold WndProc; simp only []; split_ifs <;> rfl)
  | WM_MOUSEMOVE lparam now =>
    apply LyricTimed_same <;> (unfold WndProc; simp only []; split_ifs <;> rfl)
  | WM_MOUSELEAVE =>
    exact LyricTimed_UpdateWindow env s _ rfl rfl
  | WM_TIMER wparam =>
    unfold WndProc
    simp only []
    split_ifs
    · exact LyricTimed_UpdateWindow env s _ rfl rfl
    · exact LyricTimed_UpdateWindow env s _ rfl rfl
    · exact LyricTimed_same env s _ rfl rfl
    · exact LyricTimed_same env s _ rfl rfl
  | WM_DESTROY => exact LyricTimed_same env s _ rfl rfl
  | other => exact LyricTimed_same env s _ rfl rfl

/-- Effect of a call that does not change the lyric text: the text stays, and either the
line and the frame time stay or the call ran one compact repaint. -/
theorem step_LyricTimed (s : State) (c : Call) (env : PaintEnv)
    (hc : ∀ T now, c = Call.SetLyricText T now → T = s.lyric_text_) :
    LyricTimed env s (step s c env) := by
  cases c with
  | Create w h ok =>
    apply LyricTimed_same <;> (simp only [step, Create]; split_ifs <;> rfl)
  | Destroy =>
    apply LyricTimed_same <;> (simp only [step, Destroy]; split_ifs <;> rfl)
  | Show =>
    simp only [step, Show]
    split_ifs
    · exact LyricTimed_UpdateWindow env s s rfl rfl
    · exact LyricTimed_same env s _ rfl rfl
  | Hide =>
    apply LyricTimed_same <;> (simp only [step, Hide]; split_ifs <;> rfl)
  | SetLyricText text now =>
    have := hc text now rfl
    subst this
    simp only [step, SetLyricText, ne_eq, not_true_eq_false, if_false]
    exact LyricTimed_maybe env s _ _ rfl rfl
  | SetTranslationText text now =>
    refine LyricTimed_maybe env s _ _ ?_ ?_
    · by_cases h : s.translation_text_ = text
      · simp only [h, ne_eq, not_true_eq_false, if_false]
      · simp only [h, ne_eq, not_false_eq_true, if_true]
    · by_cases h : s.translation_text_ = text
      · simp only [h, ne_eq, not_true_eq_false, if_false]; rfl
      · simp only [h, ne_eq, not_false_eq_true, if_true]; rfl
  | SetLyricDuration d => exact LyricTimed_same env s _ rfl rfl
  | SetPosition x y =>
    apply LyricTimed_same <;> (simp only [step, SetPosition]; split_ifs <;> rfl)
  | SetFontSize size => exact LyricTimed_maybe env s _ _ rfl rfl
  | SetTextColor c => exact LyricTimed_maybe env s _ _ rfl rfl
  | SetStrokeColor c => exact LyricTimed_maybe env s _ _ rfl rfl
  | SetStrokeWidth w => exact LyricTimed_maybe env s _ _ rfl rfl
  | SetDraggable b => exact LyricTimed_same env s _ rfl rfl
  | SetMouseTransparent b =>
    apply LyricTimed_same <;> (simp only [step, SetMouseTransparent]; split_ifs <;> rfl)
  | SetSongInfo t a c => exact LyricTimed_maybe env s _ _ rfl rfl
  | SetPlaybackControlCallback cb => exact LyricTimed_same env s _ rfl rfl
  | SetPlayingState b => exact LyricTimed_maybe env s _ _ rfl rfl
  | SetShowTranslation b => exact LyricTimed_maybe env s _ _ rfl rfl
  | Window m =>
    simp only [step]
    split_ifs
    · exact WndProc_LyricTimed s m env
    · exact LyricTimed_same env s _ rfl rfl


/-- One run of the scroll block on a line that is scrolling at the cached speed `v`: if
the offset was the distance covered between `tp` and the last frame, capped at the scroll
range, it is afterwards the distance covered between `tp` and this frame, capped. -/
theorem scrollLine_elapsed (Tw v : ℚ) (W : Int) (dur t last tp : Nat) (l : Line)
    (hM : 0 < Tw - (W : ℚ) + 40) (hv : 0 < v)
    (hp : l.pause_start = 0) (hs : l.speed = v)
    (ho : l.offset = min (v * ((last : ℚ) - (tp : ℚ)) / 1000) (Tw - (W : ℚ) + 40))
    (hle : last ≤ t) (hlt : t < 4294967296) :
    (scrollLine Tw W dur t last l).pause_start = 0 ∧
    (scrollLine Tw W dur t last l).speed = v ∧
    (scrollLine Tw W dur t last l).offset =
      min (v * ((t : ℚ) - (tp : ℚ)) / 1000) (Tw - (W : ℚ) + 40) := by
  have hwide : Tw > (W : ℚ) - 40 := by linarith
  refine ⟨?_, ?_, ?_⟩
  · rw [scrollLine_pause_start, if_neg]
    · exact hp
    · intro hcon
      omega
  · rw [scrollLine_speed, if_pos hwide, hs]
    exact speedNow_keep _ _ _ hv
  · rw [scrollLine_offset]
    have hd := dwordSub_cast t last hle hlt
    have hstep : (0 : ℚ) ≤ v * ((t : ℚ) - (last : ℚ)) / 1000 := by
      have : (last : ℚ) ≤ (t : ℚ) := Nat.cast_le.mpr hle
      exact div_nonneg (mul_nonneg hv.le (by linarith)) (by norm_num)
    rw [hs, speedNow_keep _ _ _ hv, hd]
    by_cases hlow : l.offset < Tw - (W : ℚ) + 40
    · rw [if_pos ⟨hwide, hp, hlow⟩]
      have hoff : l.offset = v * ((last : ℚ) - (tp : ℚ)) / 1000 := by
        rw [ho] at hlow ⊢
        rcases min_choice (v * ((last : ℚ) - (tp : ℚ)) / 1000) (Tw - (W : ℚ) + 40)
          with hm | hm
        · exact hm
        · rw [hm] at hlow
          exact absurd hlow (lt_irrefl _)
      rw [hoff]
      congr 1
      ring
    · rw [if_neg (fun hcon => hlow hcon.2.2)]
      have hge : Tw - (W : ℚ) + 40 ≤ v * ((last : ℚ) - (tp : ℚ)) / 1000 := by
        by_contra hcon
        apply hlow
        rw [ho]
        exact lt_of_le_of_lt (min_le_left _ _) (not_le.mp hcon)
      have hfull : l.offset = Tw - (W : ℚ) + 40 := by
        rw [ho]
        exact min_eq_right hge
      rw [hfull]
      symm
      apply min_eq_right
      have : v * ((t : ℚ) - (tp : ℚ)) / 1000 =
          v * ((last : ℚ) - (tp : ℚ)) / 1000 + v * ((t : ℚ) - (last : ℚ)) / 1000 := by ring
      linarith

/-- One call that keeps the lyric text, on a line that is scrolling at the cached speed
`v`, at a tick not before the last frame: the offset stays the distance covered between
`tp` and the last compact repaint, capped at the scroll range. -/
theorem step_elapsed (Tw v : ℚ) (tp : Nat) (u : State) (c : Call) (env : PaintEnv)
    (hM : 0 < Tw - (kWindowWidth : ℚ) + 40) (hv : 0 < v)
    (hc : ∀ T now, c = Call.SetLyricText T now → T = u.lyric_text_)
    (hp : u.lyric_scroll_pause_start_ = 0) (hs : u.lyric_scroll_speed_ = v)
    (ho : u.lyric_scroll_offset_ =
      min (v * ((u.last_scroll_time_ : ℚ) - (tp : ℚ)) / 1000) (Tw - (kWindowWidth : ℚ) + 40))
    (hle : u.last_scroll_time_ ≤ env.currentTime) (hlt : env.currentTime < 4294967296)
    (hw : env.lyricWidth = Tw) :
    (step u c env).lyric_text_ = u.lyric_text_ ∧
    (step u c env).lyric_scroll_pause_start_ = 0 ∧
    (step u c env).lyric_scroll_speed_ = v ∧
    (step u c env).lyric_scroll_offset_ =
      min (v * (((step u c env).last_scroll_time_ : ℚ) - (tp : ℚ)) / 1000)
        (Tw - (kWindowWidth : ℚ) + 40) ∧
    u.last_scroll_time_ ≤ (step u c env).last_scroll_time_ ∧
    (step u c env).last_scroll_time_ ≤ env.currentTime := by
  obtain ⟨ht, hcase⟩ := step_LyricTimed u c env hc
  rcases hcase with h | ⟨dur, h⟩
  · have h1 : lyricLine (step u c env) = lyricLine u := congrArg Prod.fst h
    have h2 : (step u c env).last_scroll_time_ = u.last_scroll_time_ := congrArg Prod.snd h
    refine ⟨ht, (congrArg Line.pause_start h1).trans hp, (congrArg Line.speed h1).trans hs,
      ?_, le_of_eq h2.symm, le_of_eq_of_le h2 hle⟩
    rw [h2]
    exact (congrArg Line.offset h1).trans ho
  · have h1 : lyricLine (step u c env) = scrollLine env.lyricWidth kWindowWidth dur
        env.currentTime u.last_scroll_time_ (lyricLine u) := congrArg Prod.fst h
    have h2 : (step u c env).last_scroll_time_ = env.currentTime := congrArg Prod.snd h
    rw [hw] at h1
    obtain ⟨a1, a2, a3⟩ := scrollLine_elapsed Tw v kWindowWidth dur env.currentTime
      u.last_scroll_time_ tp (lyricLine u) hM hv hp hs ho hle hlt
    refine ⟨ht, (congrArg Line.pause_start h1).trans a1, (congrArg Line.speed h1).trans a2,
      ?_, le_of_le_of_eq hle h2.symm, le_of_eq h2⟩
    rw [h2]
    exact (congrArg Line.offset h1).trans a3

/-- A sequence of calls that keep the lyric text, on a line that is scrolling at the
cached speed `v`, at ticks that do not decrease and do not wrap, with the measured width
constant: the offset stays the distance covered between `tp` and the last compact
repaint, capped at the scroll range. -/
theorem run_elapsed (Tw v : ℚ) (tp : Nat)
    (hM : 0 < Tw - (kWindowWidth : ℚ) + 40) (hv : 0 < v) :
    ∀ (cs : List (Call × PaintEnv)) (u : State) (t : Nat),
      (∀ p ∈ cs, ∀ T now, p.1 = Call.SetLyricText T now → T = u.lyric_text_) →
      u.lyric_scroll_pause_start_ = 0 → u.lyric_scroll_speed_ = v →
      u.lyric_scroll_offset_ =
        min (v * ((u.last_scroll_time_ : ℚ) - (tp : ℚ)) / 1000)
          (Tw - (kWindowWidth : ℚ) + 40) →
      tp ≤ u.last_scroll_time_ → u.last_scroll_time_ ≤ t →
      ticksFrom t (cs.map Prod.snd) → (∀ p ∈ cs, p.2.lyricWidth = Tw) →
      (run u cs).lyric_text_ = u.lyric_text_ ∧
      (run u cs).lyric_scroll_pause_start_ = 0 ∧
      (run u cs).lyric_scroll_speed_ = v ∧
      (run u cs).lyric_scroll_offset_ =
        min (v * (((run u cs).last_scroll_time_ : ℚ) - (tp : ℚ)) / 1000)
          (Tw - (kWindowWidth : ℚ) + 40) ∧
      tp ≤ (run u cs).last_scroll_time_ ∧
      (run u cs).last_scroll_time_ ≤ lastTick t (cs.map Prod.snd) := by
  intro cs
  induction cs with
  | nil =>
    intro u t _ hp hs ho htp hle _ _
    exact ⟨rfl, hp, hs, ho, htp, hle⟩
  | cons p rest ih =>
    intro u t hc hp hs ho htp hle hticks hw
    obtain ⟨c, env⟩ := p
    obtain ⟨ht1, ht2, hrest⟩ := hticks
    have hc1 : ∀ T now, c = Call.SetLyricText T now → T = u.lyric_text_ :=
      hc (c, env) (List.mem_cons_self _ _)
    obtain ⟨b1, b2, b3, b4, b5, b6⟩ := step_elapsed Tw v tp u c env hM hv hc1 hp hs ho
      (le_trans hle ht1) ht2 (hw (c, env) (List.mem_cons_self _ _))
    have hc2 : ∀ p ∈ rest, ∀ T now, p.1 = Call.SetLyricText T now →
        T = (step u c env).lyric_text_ := by
      intro p hp2 T now hT
      rw [b1]
      exact hc p (List.mem_cons_of_mem _ hp2) T now hT
    obtain ⟨d1, d2, d3, d4, d5, d6⟩ := ih (step u c env) env.currentTime hc2 b2 b3 b4
      (le_trans htp b5) b6 hrest (fun p hp2 => hw p (List.mem_cons_of_mem _ hp2))
    exact ⟨d1.trans b1, d2, d3, d4, d5, d6⟩

/-- One run of the scroll block keeps the offset at zero while the pause is pending. -/
theorem scrollLine_pending (Tw : ℚ) (W : Int) (dur t last : Nat) (l : Line)
    (h : 0 < l.pause_start → l.offset = 0) :
    0 < (scrollLine Tw W dur t last l).pause_start →
      (scrollLine Tw W dur t last l).offset = 0 := by
  intro hpos
  rw [scrollLine_pause_start] at hpos
  split_ifs at hpos with hc
  · exact absurd hpos (lt_irrefl _)
  · rw [scrollLine_offset_paused _ _ _ _ _ _ hpos]
    exact h hpos

/-- In every state reachable from construction, a pending pause implies that the lyric
offset is zero. -/
theorem run_pending_offset_zero :
    ∀ (cs : List (Call × PaintEnv)) (u : State),
      (0 < u.lyric_scroll_pause_start_ → u.lyric_scroll_offset_ = 0) →
      0 < (run u cs).lyric_scroll_pause_start_ → (run u cs).lyric_scroll_offset_ = 0 := by
  intro cs
  induction cs with
  | nil => intro u h; exact h
  | cons p rest ih =>
    intro u h
    obtain ⟨c, env⟩ := p
    apply ih (step u c env)
    have moved : ∀ (l l2 : Line), (0 < l.pause_start → l.offset = 0) →
        LineMoved env env.lyricWidth l l2 → (0 < l2.pause_start → l2.offset = 0) := by
      intro l l2 hl hm
      rcases hm with e | ⟨dur, last, e⟩
      · rw [e]; exact hl
      · rw [e]; exact scrollLine_pending _ _ _ _ _ _ hl
    rcases step_lyricLine_cases u c env with hm | ⟨now, hm⟩
    · exact moved _ _ h hm
    · exact moved _ _ (fun _ => rfl) hm

/-- C22.  Let `s0` be a state reachable from construction with an existing window, the
panel collapsed, a non-empty lyric text and the pause pending, and let the repaint at
tick `tp` find the pause elapsed; the measured width `Tw` has a positive scroll range
`maxScroll = Tw - 800 + 40`.  That repaint clears the pause, leaves the offset at zero
and caches a positive speed `v`.  After any sequence of later calls that keep the lyric
text (setters, window messages, repaints of the expanded panel among them), at ticks that
do not decrease and do not wrap and with the measured width constant, the speed is still
`v` and the offset is `min (v * (tn - tp) / 1000) maxScroll`, where `tn` is the stored
time of the last compact repaint (`last_scroll_time_`); and any further compact repaint
at a tick `t` not before the earlier ones gives `min (v * (t - tp) / 1000) maxScroll`. -/
theorem scroll_position_by_elapsed_time (s0 : State) (cs0 cs : List (Call × PaintEnv))
    (Tw twp : ℚ) (tp : Nat)
    (hreach : run construct cs0 = s0)
    (hh : s0.hwnd_ = true) (hc : s0.show_controls_ = false) (ht : s0.lyric_text_ ≠ "")
    (hM : 0 < Tw - (kWindowWidth : ℚ) + 40)
    (hp : 0 < s0.lyric_scroll_pause_start_)
    (hend : kScrollPauseMs ≤ dwordSub tp s0.lyric_scroll_pause_start_)
    (hcalls : ∀ p ∈ cs, ∀ T now, p.1 = Call.SetLyricText T now → T = s0.lyric_text_)
    (hticks : ticksFrom tp (cs.map Prod.snd)) (hw : ∀ p ∈ cs, p.2.lyricWidth = Tw) :
    ((UpdateWindow s0 ⟨tp, Tw, twp⟩).lyric_scroll_pause_start_ = 0 ∧
      (UpdateWindow s0 ⟨tp, Tw, twp⟩).last_scroll_time_ = tp ∧
      (UpdateWindow s0 ⟨tp, Tw, twp⟩).lyric_scroll_offset_ = 0 ∧
      0 < (UpdateWindow s0 ⟨tp, Tw, twp⟩).lyric_scroll_speed_) ∧
    (run (UpdateWindow s0 ⟨tp, Tw, twp⟩) cs).lyric_scroll_speed_ =
      (UpdateWindow s0 ⟨tp, Tw, twp⟩).lyric_scroll_speed_ ∧
    tp ≤ (run (UpdateWindow s0 ⟨tp, Tw, twp⟩) cs).last_scroll_time_ ∧
    (run (UpdateWindow s0 ⟨tp, Tw, twp⟩) cs).last_scroll_time_ ≤
      lastTick tp (cs.map Prod.snd) ∧
    (run (UpdateWindow s0 ⟨tp, Tw, twp⟩) cs).lyric_scroll_offset_ =
      min ((UpdateWindow s0 ⟨tp, Tw, twp⟩).lyric_scroll_speed_ *
        (((run (UpdateWindow s0 ⟨tp, Tw, twp⟩) cs).last_scroll_time_ : ℚ) - (tp : ℚ)) / 1000)
        (Tw - (kWindowWidth : ℚ) + 40) ∧
    (∀ e : PaintEnv, lastTick tp (cs.map Prod.snd) ≤ e.currentTime →
      e.currentTime < 4294967296 → e.lyricWidth = Tw →
      (run (UpdateWindow s0 ⟨tp, Tw, twp⟩) cs).hwnd_ = true →
      (run (UpdateWindow s0 ⟨tp, Tw, twp⟩) cs).show_controls_ = false →
      (UpdateWindow (run (UpdateWindow s0 ⟨tp, Tw, twp⟩) cs) e).last_scroll_time_ =
        e.currentTime ∧
      (UpdateWindow (run (UpdateWindow s0 ⟨tp, Tw, twp⟩) cs) e).lyric_scroll_offset_ =
        min ((UpdateWindow s0 ⟨tp, Tw, twp⟩).lyric_scroll_speed_ *
          ((e.currentTime : ℚ) - (tp : ℚ)) / 1000) (Tw - (kWindowWidth : ℚ) + 40)) := by
  have hoff : s0.lyric_scroll_offset_ = 0 := by
    rw [← hreach] at hp ⊢
    exact run_pending_offset_zero cs0 construct (fun _ => rfl) hp
  have hwide : Tw > (kWindowWidth : ℚ) - 40 := by linarith
  have hline := UpdateWindow_lyricLine s0 ⟨tp, Tw, twp⟩
  rw [if_pos ⟨hh, hc, ht⟩] at hline
  have hlast := UpdateWindow_last_scroll_time s0 ⟨tp, Tw, twp⟩
  rw [if_pos ⟨hh, hc, ht⟩] at hlast
  have htext : (UpdateWindow s0 ⟨tp, Tw, twp⟩).lyric_text_ = s0.lyric_text_ :=
    (congrArg State.lyric_text_ (UpdateWindow_frame s0 ⟨tp, Tw, twp⟩)).trans rfl
  have e1 : (UpdateWindow s0 ⟨tp, Tw, twp⟩).lyric_scroll_pause_start_ = 0 := by
    have := congrArg Line.pause_start hline
    rw [scrollLine_pause_start, if_pos ⟨hwide, hp, hend⟩] at this
    exact this
  have e2 : (UpdateWindow s0 ⟨tp, Tw, twp⟩).lyric_scroll_offset_ = 0 := by
    have := congrArg Line.offset hline
    rw [scrollLine_offset_paused _ _ _ _ _ _ hp] at this
    exact this.trans hoff
  have e3 : 0 < (UpdateWindow s0 ⟨tp, Tw, twp⟩).lyric_scroll_speed_ := by
    have := congrArg Line.speed hline
    rw [scrollLine_speed, if_pos hwide] at this
    have hpos := speedNow_pos s0.lyric_duration_ms_ (Tw - (kWindowWidth : ℚ) + 40)
      (lyricLine s0).speed hM
    exact lt_of_lt_of_eq hpos this.symm
  have ho1 : (UpdateWindow s0 ⟨tp, Tw, twp⟩).lyric_scroll_offset_ =
      min ((UpdateWindow s0 ⟨tp, Tw, twp⟩).lyric_scroll_speed_ *
        (((UpdateWindow s0 ⟨tp, Tw, twp⟩).last_scroll_time_ : ℚ) - (tp : ℚ)) / 1000)
        (Tw - (kWindowWidth : ℚ) + 40) := by
    rw [e2, hlast]
    simp only [sub_self, mul_zero, zero_div]
    exact (min_eq_left hM.le).symm
  have hcalls1 : ∀ p ∈ cs, ∀ T now, p.1 = Call.SetLyricText T now →
      T = (UpdateWindow s0 ⟨tp, Tw, twp⟩).lyric_text_ := by
    intro p hp2 T now hT
    rw [htext]
    exact hcalls p hp2 T now hT
  obtain ⟨d1, d2, d3, d4, d5, d6⟩ := run_elapsed Tw _ tp hM e3 cs
    (UpdateWindow s0 ⟨tp, Tw, twp⟩) tp hcalls1 e1 rfl ho1 (le_of_eq hlast.symm)
    (le_of_eq hlast) hticks hw
  refine ⟨⟨e1, hlast, e2, e3⟩, d3, d5, d6, d4, ?_⟩
  intro e hle hlt hwe hhn hcn
  have htn : (run (UpdateWindow s0 ⟨tp, Tw, twp⟩) cs).lyric_text_ ≠ "" := by
    rw [d1, htext]
    exact ht
  have f1 := UpdateWindow_lyricLine (run (UpdateWindow s0 ⟨tp, Tw, twp⟩) cs) e
  have f2 := UpdateWindow_last_scroll_time (run (UpdateWindow s0 ⟨tp, Tw, twp⟩) cs) e
  rw [if_pos ⟨hhn, hcn, htn⟩] at f1 f2
  rw [hwe] at f1
  obtain ⟨_, _, a3⟩ := scrollLine_elapsed Tw _ kWindowWidth
    (run (UpdateWindow s0 ⟨tp, Tw, twp⟩) cs).lyric_duration_ms_ e.currentTime
    (run (UpdateWindow s0 ⟨tp, Tw, twp⟩) cs).last_scroll_time_ tp
    (lyricLine (run (UpdateWindow s0 ⟨tp, Tw, twp⟩) cs)) hM e3 d2 d3 d4 (le_trans d6 hle) hlt
  exact ⟨f2, (congrArg Line.offset f1).trans a3⟩

/-- C22, witness: `dwellingWindow` (text set at tick 1000, width 1200 px, speed 200 px/s)
with the pause ended by the repaint at tick 1500, followed by `mixedFrames`: the last
compact repaint is at tick 3000 and the offset is 200 * 1.5 = 300, as for a single frame
at tick 3000. -/
theorem scroll_position_by_elapsed_time_witness :
    (dwellingWindow.hwnd_ = true ∧ dwellingWindow.show_controls_ = false ∧
      0 < dwellingWindow.lyric_scroll_pause_start_ ∧
      kScrollPauseMs ≤ dwordSub 1500 dwellingWindow.lyric_scroll_pause_start_) ∧
    (run (UpdateWindow dwellingWindow ⟨1500, 1200, 0⟩) mixedFrames).lyric_scroll_offset_ =
      min ((UpdateWindow dwellingWindow ⟨1500, 1200, 0⟩).lyric_scroll_speed_ *
        (((run (UpdateWindow dwellingWindow ⟨1500, 1200, 0⟩) mixedFrames).last_scroll_time_
          : ℚ) - ((1500 : Nat) : ℚ)) / 1000) (1200 - (kWindowWidth : ℚ) + 40) ∧
    (run (UpdateWindow dwellingWindow ⟨1500, 1200, 0⟩) mixedFrames).last_scroll_time_ = 3000 ∧
    (run (UpdateWindow dwellingWindow ⟨1500, 1200, 0⟩) mixedFrames).lyric_scroll_offset_ = 300 ∧
    (run (UpdateWindow dwellingWindow ⟨1500, 1200, 0⟩)
      [(Call.Window (Message.WM_TIMER 2), paintAt 3000 1200)]).lyric_scroll_offset_ = 300 :=
  ⟨⟨by decide!, by decide!, by decide!, by decide!⟩,
   (scroll_position_by_elapsed_time dwellingWindow
      [ (Call.Create 1920 1080 true, paintAt 0 0),
        (Call.Show, paintAt 900 0),
        (Call.SetLyricText "la la la" 1000, paintAt 1000 1200) ]
      mixedFrames 1200 0 1500 rfl (by decide!) (by decide!) (by decide!) (by decide!)
      (by decide!) (by decide!)
      (by
        intro p hp T now h
        simp only [mixedFrames, List.mem_cons, List.mem_singleton, List.not_mem_nil,
          or_false] at hp
        rcases hp with rfl | rfl | rfl | rfl | rfl <;> dsimp only at h <;> cases h)
      ⟨by decide, by decide, by decide, by decide, by decide, by decide, by decide,
        by decide, by decide, by decide, trivial⟩
      (by
        intro p hp
        simp only [mixedFrames, List.mem_cons, List.mem_singleton, List.not_mem_nil,
          or_false] at hp
        rcases hp with rfl | rfl | rfl | rfl | rfl <;> rfl)).2.2.2.2.1,
   by decide!, by decide!, by decide!⟩


end DesktopLyric
